import Mathlib

/-! # NetX Secure: SNI extension decoding and X.509 certificate initialisation

A shallow embedding of

* `_nx_secure_tls_session_sni_extension_parse`
  (`nx_secure_tls_session_sni_extension_parse.c`), and
* `_nx_secure_x509_certificate_initialize`
  (`nx_secure_x509_certificate_initialize.c`).

Conventions of the embedding.

* A `UCHAR` is a `Fin 256`; a `USHORT` is a natural number obtained through
  an explicit `% 65536`; a `UINT` is a natural number.
* Memory that the code only reads through a pointer is the function from an
  offset to the byte stored at pointer + offset.  Memory that the code writes
  (an array of known size) is the list of its bytes.
* Macros and constants whose defining header is not part of the sources
  are fields of `NxConstants`.
* Every dereference of an extension payload and every store into the DNS
  name array is recorded, in program order, next to the result, so that
  bounds on what the code reads and writes can be stated.
* The lock behind `tx_mutex_get` and `tx_mutex_put` is a ThreadX service; where
  two concurrent calls are compared, it is modelled from the specification
  (`mutexStep`, `mutexAdmits`).
-/

namespace NetXSecure

/-- One byte (`UCHAR`). -/
abbrev UCHAR := Fin 256

/-- The cast `(USHORT) x`. -/
def toUSHORT (x : Nat) : Nat := x % 65536

/-- Macros used by the two functions and defined in headers outside the sources. -/
structure NxConstants where
  /-- Extension identifier of Server Name Indication. -/
  NX_SECURE_TLS_EXTENSION_SERVER_NAME_INDICATION : Nat
  /-- Name type of a DNS host name inside the SNI extension. -/
  NX_SECURE_TLS_SNI_NAME_TYPE_DNS : Nat
  /-- Capacity of the name array of `NX_SECURE_X509_DNS_NAME`. -/
  NX_SECURE_X509_DNS_NAME_MAX : Nat

/-- The structure `NX_SECURE_TLS_HELLO_EXTENSION`: identifier, declared data length and
the memory found at the data pointer (offset to byte). -/
structure NX_SECURE_TLS_HELLO_EXTENSION where
  nx_secure_tls_extension_id : Nat
  nx_secure_tls_extension_data_length : Nat
  nx_secure_tls_extension_data : Nat → UCHAR

/-- The structure `NX_SECURE_X509_DNS_NAME`: the name array and the length field. -/
structure NX_SECURE_X509_DNS_NAME where
  nx_secure_x509_dns_name : List UCHAR
  nx_secure_x509_dns_name_length : Nat
deriving DecidableEq, Repr

/-- The three values `_nx_secure_tls_session_sni_extension_parse` returns; the macros are
taken to be pairwise distinct. -/
inductive SniStatus where
  | NX_SUCCESS
  | NX_SECURE_TLS_SNI_EXTENSION_INVALID
  | NX_SECURE_TLS_EXTENSION_NOT_FOUND
deriving DecidableEq, Repr

/-- `NX_SECURE_MEMCPY (dst, src, n)`: the first `n` bytes of `dst` become the first `n`
bytes at `src`.  When `n` exceeds the size of `dst` the list grows, which is how a copy
past the end of the array shows. -/
def NX_SECURE_MEMCPY (dst : List UCHAR) (src : Nat → UCHAR) (n : Nat) : List UCHAR :=
  (List.range n).map src ++ dst.drop n

/-- What a call of the SNI decoder leaves behind: the returned status, the caller's DNS
name structure, the payload dereferences as pairs (index of the extension, offset from its
data pointer) and the indices of the name array that were stored to. -/
structure SniOutcome where
  status : SniStatus
  dns_name : NX_SECURE_X509_DNS_NAME
  reads : List (Nat × Nat)
  writes : List Nat

/-- The body of the `for` loop of `_nx_secure_tls_session_sni_extension_parse`, from index `i`
on: the list holds `extensions[i], ..., extensions[num_extensions - 1]`. -/
def sni_extension_loop (c : NxConstants) :
    List NX_SECURE_TLS_HELLO_EXTENSION → Nat → NX_SECURE_X509_DNS_NAME → SniOutcome
  | [], _, dns_name =>
      -- Searched through all the extensions, did not find SNI.
      ⟨SniStatus.NX_SECURE_TLS_EXTENSION_NOT_FOUND, dns_name, [], []⟩
  | e :: rest, i, dns_name =>
      if e.nx_secure_tls_extension_id = c.NX_SECURE_TLS_EXTENSION_SERVER_NAME_INDICATION then
        let data_ptr := e.nx_secure_tls_extension_data
        -- Extract the list length.
        let list_length := toUSHORT (((data_ptr 0).val <<< 8) + (data_ptr 1).val)
        let offset := 2
        -- Extract the name type.
        let name_type := data_ptr offset
        let offset := offset + 1
        -- Extract the name length (stored straight into the caller's structure).
        let dns_name : NX_SECURE_X509_DNS_NAME :=
          { dns_name with
            nx_secure_x509_dns_name_length :=
              toUSHORT (((data_ptr offset).val <<< 8) + (data_ptr (offset + 1)).val) }
        let offset := offset + 2
        let header_reads := [(i, 0), (i, 1), (i, 2), (i, 3), (i, 4)]
        -- Check the name type and lengths.
        if name_type.val ≠ c.NX_SECURE_TLS_SNI_NAME_TYPE_DNS ∨
            list_length > e.nx_secure_tls_extension_data_length ∨
            dns_name.nx_secure_x509_dns_name_length > list_length then
          ⟨SniStatus.NX_SECURE_TLS_SNI_EXTENSION_INVALID, dns_name, header_reads, []⟩
        else
          -- Make sure we don't copy over the end of the buffer.
          let dns_name : NX_SECURE_X509_DNS_NAME :=
            if dns_name.nx_secure_x509_dns_name_length > c.NX_SECURE_X509_DNS_NAME_MAX then
              { dns_name with
                nx_secure_x509_dns_name_length := toUSHORT c.NX_SECURE_X509_DNS_NAME_MAX }
            else dns_name
          -- Name and lengths check out, save off the name data.
          let n := dns_name.nx_secure_x509_dns_name_length
          ⟨SniStatus.NX_SUCCESS,
           { dns_name with
             nx_secure_x509_dns_name :=
               NX_SECURE_MEMCPY dns_name.nx_secure_x509_dns_name
                 (fun k => data_ptr (offset + k)) n },
           header_reads ++ (List.range n).map (fun k => (i, offset + k)),
           List.range n⟩
      else
        sni_extension_loop c rest (i + 1) dns_name

/-- The function `_nx_secure_tls_session_sni_extension_parse`.  The array `extensions` together
with `num_extensions` is the list of its entries; `tls_session` is unused by the code. -/
def _nx_secure_tls_session_sni_extension_parse (c : NxConstants)
    (extensions : List NX_SECURE_TLS_HELLO_EXTENSION)
    (dns_name : NX_SECURE_X509_DNS_NAME) : SniOutcome :=
  sni_extension_loop c extensions 0 dns_name

/-- Memory holding the given bytes, followed by zero bytes. -/
def memOf (bytes : List UCHAR) : Nat → UCHAR := fun k => bytes.getD k 0

/-- Sample values of the macros: SNI is extension 0, a DNS host name has name type 0
(RFC 6066), and the name array holds 100 bytes. -/
def sampleConstants : NxConstants := ⟨0, 0, 100⟩

/-- The first extension whose identifier is the SNI identifier. -/
def firstSni (c : NxConstants) (extensions : List NX_SECURE_TLS_HELLO_EXTENSION) :
    Option NX_SECURE_TLS_HELLO_EXTENSION :=
  extensions.find?
    (fun e => decide (e.nx_secure_tls_extension_id = c.NX_SECURE_TLS_EXTENSION_SERVER_NAME_INDICATION))

/-- The list length on the wire: payload offsets 0 and 1, big-endian. -/
def wireListLength (e : NX_SECURE_TLS_HELLO_EXTENSION) : Nat :=
  (e.nx_secure_tls_extension_data 0).val * 256 + (e.nx_secure_tls_extension_data 1).val

/-- The name type on the wire: payload offset 2. -/
def wireNameType (e : NX_SECURE_TLS_HELLO_EXTENSION) : Nat :=
  (e.nx_secure_tls_extension_data 2).val

/-- The name length on the wire: payload offsets 3 and 4, big-endian. -/
def wireNameLength (e : NX_SECURE_TLS_HELLO_EXTENSION) : Nat :=
  (e.nx_secure_tls_extension_data 3).val * 256 + (e.nx_secure_tls_extension_data 4).val

/-- The condition under which the code rejects an SNI extension. -/
def sniRejected (c : NxConstants) (e : NX_SECURE_TLS_HELLO_EXTENSION) : Prop :=
  wireNameType e ≠ c.NX_SECURE_TLS_SNI_NAME_TYPE_DNS ∨
    wireListLength e > e.nx_secure_tls_extension_data_length ∨
    wireNameLength e > wireListLength e

instance sniRejected.decidable (c : NxConstants) (e : NX_SECURE_TLS_HELLO_EXTENSION) :
    Decidable (sniRejected c e) :=
  inferInstanceAs (Decidable (_ ∨ _ ∨ _))

/-! ## The certificate initialiser -/

/-- The value `NX_NULL` of a pointer; a pointer is an address. -/
def NX_NULL : Nat := 0

/-- The status `NX_SUCCESS`: zero, the value the code compares the parsers' status with. -/
def NX_SUCCESS : Nat := 0

/-- The union `nx_secure_x509_private_key` of a certificate: all-zero bytes after the
reset, the member `user_key` (key data pointer and key length), or the member
`rsa_private_key` as the RSA parser wrote it (an encoding of its content). -/
inductive NX_SECURE_X509_PRIVATE_KEY where
  | zeroed
  | user_key (key_data : Nat) (key_length : Nat)
  | rsa_private_key (content : Nat)
deriving DecidableEq, Repr

/-- The structure `NX_SECURE_X509_CERT`: the fields the initialiser stores to, and the rest of
the structure (public key, names, validity and so on, which only the certificate parser
fills) as one encoding whose zero is the all-zero content. -/
structure NX_SECURE_X509_CERT where
  nx_secure_x509_certificate_raw_data : Nat
  nx_secure_x509_certificate_raw_buffer_size : Nat
  nx_secure_x509_certificate_raw_data_length : Nat
  nx_secure_x509_parsed_fields : Nat
  nx_secure_x509_private_key_type : Nat
  nx_secure_x509_private_key : NX_SECURE_X509_PRIVATE_KEY
  nx_secure_x509_certificate_is_identity_cert : Bool
  nx_secure_x509_next_certificate : Nat
deriving DecidableEq, Repr

/-- The certificate after `NX_SECURE_MEMSET (certificate, 0, sizeof (NX_SECURE_X509_CERT))`:
null pointers, zero lengths, `NX_FALSE` flag. -/
def NX_SECURE_X509_CERT.zero : NX_SECURE_X509_CERT :=
  ⟨NX_NULL, 0, 0, 0, 0, NX_SECURE_X509_PRIVATE_KEY.zeroed, false, NX_NULL⟩

/-- The call `NX_SECURE_MEMSET (certificate, 0, sizeof (NX_SECURE_X509_CERT))`: whatever
the structure held, it is all-zero afterwards. -/
def NX_SECURE_MEMSET_zero (_ : NX_SECURE_X509_CERT) : NX_SECURE_X509_CERT :=
  NX_SECURE_X509_CERT.zero

/-- Status codes and key type tags of the certificate initialiser, defined in headers outside
the sources. -/
structure X509Constants where
  NX_SECURE_TLS_INSUFFICIENT_CERT_SPACE : Nat
  NX_SECURE_TLS_INVALID_CERTIFICATE : Nat
  NX_SECURE_X509_INVALID_PRIVATE_KEY_TYPE : Nat
  NX_SECURE_X509_KEY_TYPE_USER_DEFINED_MASK : Nat
  NX_SECURE_X509_KEY_TYPE_RSA_PKCS1_DER : Nat
  NX_SECURE_X509_KEY_TYPE_NONE : Nat

/-- The two parsers the initialiser calls, which are outside the sources.  Each is given
the pointer it is called with, the bytes found there (as many as the length argument says)
and the length.  The certificate parser also receives the certificate and returns it as it
left it; the RSA parser returns what it wrote into the member `rsa_private_key`.  The first
component of a result is the returned status. -/
structure ExternalParsers where
  _nx_secure_x509_certificate_parse :
    Nat → List UCHAR → Nat → NX_SECURE_X509_CERT → Nat × NX_SECURE_X509_CERT
  _nx_secure_x509_pkcs1_rsa_private_key_parse : Nat → List UCHAR → Nat → Nat × Nat

/-- What the initialiser does, as seen from outside, in program order. -/
inductive InitEvent where
  /-- The call `tx_mutex_get (&_nx_secure_tls_protection, TX_WAIT_FOREVER)`. -/
  | tx_mutex_get
  /-- The call `tx_mutex_put (&_nx_secure_tls_protection)`. -/
  | tx_mutex_put
  /-- A store into the certificate structure: the reset or a field assignment. -/
  | certificate_store
  /-- The copy of that many bytes into the backing buffer. -/
  | raw_buffer_copy (n : Nat)
  /-- The call of the certificate parser on a pointer and a length. -/
  | certificate_parse (raw_data length : Nat)
  /-- The call of the RSA private key parser on a pointer and a length. -/
  | rsa_private_key_parse (private_key priv_len : Nat)
deriving DecidableEq, Repr

/-- What a call of the initialiser leaves behind: the returned status, the certificate,
the content of the backing buffer and the events. -/
structure InitOutcome where
  status : Nat
  certificate : NX_SECURE_X509_CERT
  raw_buffer : List UCHAR
  trace : List InitEvent
deriving DecidableEq, Repr

/-- The bytes a parser is handed: the first `n` bytes found at a pointer. -/
def bytesAt (mem : Nat → UCHAR) (n : Nat) : List UCHAR := (List.range n).map mem

/-- The second half of `_nx_secure_x509_certificate_initialize`, from the call of the
certificate parser to the end.  Here `raw_bytes` is what lies at the raw data pointer of the
certificate and `raw_buffer` the content of the backing buffer. -/
def certificate_initialize_parse (k : X509Constants) (p : ExternalParsers)
    (certificate : NX_SECURE_X509_CERT) (raw_bytes : List UCHAR) (length : Nat)
    (raw_buffer : List UCHAR) (trace : List InitEvent)
    (private_key : Nat) (private_key_bytes : Nat → UCHAR) (priv_len : Nat)
    (private_key_type : Nat) : InitOutcome :=
  -- Parse the DER-encoded X509 certificate to extract the public key data.
  let raw_data := certificate.nx_secure_x509_certificate_raw_data
  let parsed := p._nx_secure_x509_certificate_parse raw_data raw_bytes length certificate
  let status := parsed.1
  let certificate := parsed.2
  let trace := trace ++ [InitEvent.certificate_parse raw_data length]
  if status ≠ 0 then
    -- Release the protection.
    ⟨k.NX_SECURE_TLS_INVALID_CERTIFICATE, certificate, raw_buffer,
      trace ++ [InitEvent.tx_mutex_put]⟩
  else
    -- If the optional private key is supplied, save it for later use.
    if private_key ≠ NX_NULL ∧ priv_len > 0 then
      -- Save the key type for later.
      let certificate := { certificate with nx_secure_x509_private_key_type := private_key_type }
      let trace := trace ++ [InitEvent.certificate_store]
      -- Check for user-defined key types.
      if private_key_type &&& k.NX_SECURE_X509_KEY_TYPE_USER_DEFINED_MASK ≠ 0 then
        -- User-defined, just save off the key data.
        let certificate := { certificate with
          nx_secure_x509_private_key := NX_SECURE_X509_PRIVATE_KEY.user_key private_key priv_len }
        let trace := trace ++ [InitEvent.certificate_store, InitEvent.certificate_store]
        -- We have a private key, this is a server or client identity certificate.
        let certificate := { certificate with nx_secure_x509_certificate_is_identity_cert := true }
        let certificate := { certificate with nx_secure_x509_next_certificate := NX_NULL }
        ⟨NX_SUCCESS, certificate, raw_buffer,
          trace ++ [InitEvent.certificate_store, InitEvent.certificate_store,
            InitEvent.tx_mutex_put]⟩
      else
        -- Built-in key type. Attempt to parse the key data.
        if private_key_type = k.NX_SECURE_X509_KEY_TYPE_RSA_PKCS1_DER then
          let rsa := p._nx_secure_x509_pkcs1_rsa_private_key_parse private_key
            (bytesAt private_key_bytes priv_len) priv_len
          let status := rsa.1
          let certificate := { certificate with
            nx_secure_x509_private_key := NX_SECURE_X509_PRIVATE_KEY.rsa_private_key rsa.2 }
          let trace := trace ++ [InitEvent.rsa_private_key_parse private_key priv_len]
          -- See if we had any issues in parsing.
          if status ≠ 0 then
            ⟨status, certificate, raw_buffer, trace ++ [InitEvent.tx_mutex_put]⟩
          else
            let certificate :=
              { certificate with nx_secure_x509_certificate_is_identity_cert := true }
            let certificate := { certificate with nx_secure_x509_next_certificate := NX_NULL }
            ⟨NX_SUCCESS, certificate, raw_buffer,
              trace ++ [InitEvent.certificate_store, InitEvent.certificate_store,
                InitEvent.tx_mutex_put]⟩
        else
          -- Unknown or invalid key type, return error.
          let status := k.NX_SECURE_X509_INVALID_PRIVATE_KEY_TYPE
          if status ≠ 0 then
            ⟨status, certificate, raw_buffer, trace ++ [InitEvent.tx_mutex_put]⟩
          else
            let certificate :=
              { certificate with nx_secure_x509_certificate_is_identity_cert := true }
            let certificate := { certificate with nx_secure_x509_next_certificate := NX_NULL }
            ⟨NX_SUCCESS, certificate, raw_buffer,
              trace ++ [InitEvent.certificate_store, InitEvent.certificate_store,
                InitEvent.tx_mutex_put]⟩
    else
      -- No private key? Cannot be an identity certificate.
      let certificate := { certificate with nx_secure_x509_certificate_is_identity_cert := false }
      let certificate := { certificate with nx_secure_x509_next_certificate := NX_NULL }
      ⟨NX_SUCCESS, certificate, raw_buffer,
        trace ++ [InitEvent.certificate_store, InitEvent.certificate_store,
          InitEvent.tx_mutex_put]⟩

/-- The function `_nx_secure_x509_certificate_initialize`.  The argument `certificate` is the
content of the structure before the call; `certificate_data`, `raw_data_buffer` and
`private_key` are the three pointers, `certificate_bytes` and `private_key_bytes` the memory
found at the first and the last, `raw_buffer` the content of the backing buffer.  The hook
`NX_SECURE_X509_CERTIFICATE_INITIALIZE_EXTENSION` is taken to be empty. -/
def _nx_secure_x509_certificate_initialize (k : X509Constants) (p : ExternalParsers)
    (certificate : NX_SECURE_X509_CERT)
    (certificate_data : Nat) (certificate_bytes : Nat → UCHAR) (length : Nat)
    (raw_data_buffer : Nat) (raw_buffer : List UCHAR) (buffer_size : Nat)
    (private_key : Nat) (private_key_bytes : Nat → UCHAR) (priv_len : Nat)
    (private_key_type : Nat) : InitOutcome :=
  -- Get the protection.
  let trace := [InitEvent.tx_mutex_get]
  -- The reset drops whatever the structure held.
  let certificate := NX_SECURE_MEMSET_zero certificate
  let trace := trace ++ [InitEvent.certificate_store]
  -- Set up the certificate with raw data.
  let certificate := { certificate with nx_secure_x509_certificate_raw_data_length := length }
  let trace := trace ++ [InitEvent.certificate_store]
  if raw_data_buffer = NX_NULL then
    -- No buffer was passed in so just point to the certificate itself.
    let certificate := { certificate with nx_secure_x509_certificate_raw_buffer_size := length }
    let certificate := { certificate with nx_secure_x509_certificate_raw_data := certificate_data }
    let trace := trace ++ [InitEvent.certificate_store, InitEvent.certificate_store]
    certificate_initialize_parse k p certificate (bytesAt certificate_bytes length) length
      raw_buffer trace private_key private_key_bytes priv_len private_key_type
  else
    -- Make sure we have enough space in the buffer for the certificate.
    if length > buffer_size then
      -- Release the protection.
      ⟨k.NX_SECURE_TLS_INSUFFICIENT_CERT_SPACE, certificate, raw_buffer,
        trace ++ [InitEvent.tx_mutex_put]⟩
    else
      -- Use the caller-supplied buffer for the certificate.
      let certificate :=
        { certificate with nx_secure_x509_certificate_raw_buffer_size := buffer_size }
      let certificate := { certificate with nx_secure_x509_certificate_raw_data := raw_data_buffer }
      let raw_buffer := NX_SECURE_MEMCPY raw_buffer certificate_bytes length
      let trace := trace ++ [InitEvent.certificate_store, InitEvent.certificate_store,
        InitEvent.raw_buffer_copy length]
      certificate_initialize_parse k p certificate (raw_buffer.take length) length
        raw_buffer trace private_key private_key_bytes priv_len private_key_type

/-- Sample values of the status codes and key type tags. -/
def sampleX509Constants : X509Constants := ⟨0x12D, 0x112, 0x18B, 0xFFFF0000, 1, 0⟩

/-- Sample parsers: the certificate parser accepts data that starts with the DER sequence
tag 0x30 and records that in the parsed fields; the RSA parser accepts any key. -/
def sampleParsers : ExternalParsers :=
  ⟨fun _ bytes _ cert =>
      if bytes.head? = some 0x30 then
        (0, { cert with nx_secure_x509_parsed_fields := 1 })
      else (0x181, cert),
   fun _ _ priv_len => (0, priv_len)⟩

/-! ## Sample inputs -/

/-- An extension of another type (identifier 10) with an empty payload. -/
def otherExtension : NX_SECURE_TLS_HELLO_EXTENSION := ⟨10, 0, memOf []⟩

/-- The SNI extension of scenario A: list length 10, name type 0, name length 7, then the
seven bytes of "example"; twelve bytes declared. -/
def scenarioA_sni : NX_SECURE_TLS_HELLO_EXTENSION :=
  ⟨0, 12, memOf [0, 10, 0, 0, 7, 101, 120, 97, 109, 112, 108, 101]⟩

/-- The SNI extension of scenario B: list length 9, name type 0, name length 20. -/
def scenarioB_sni : NX_SECURE_TLS_HELLO_EXTENSION :=
  ⟨0, 11, memOf [0, 9, 0, 0, 20, 97, 98, 99, 100, 101, 102]⟩

/-- An SNI extension with a name type other than DNS and name length 0x0200 = 512. -/
def longNameSni : NX_SECURE_TLS_HELLO_EXTENSION :=
  ⟨0, 8, memOf [0, 6, 1, 2, 0, 97, 98, 99]⟩

/-- An SNI extension that declares seven bytes of payload, list length 7 and name length 7;
the memory behind the seven bytes goes on with other data of the message. -/
def overreadSni : NX_SECURE_TLS_HELLO_EXTENSION :=
  ⟨0, 7, memOf [0, 7, 0, 0, 7, 97, 98, 0, 23, 0, 0, 255]⟩

/-- A DNS name structure of 100 zero bytes and length 0. -/
def emptyName : NX_SECURE_X509_DNS_NAME := ⟨List.replicate 100 0, 0⟩

/-- Two extensions agree on what the decoder's checks look at: identifier, declared length
and the five payload bytes at offsets 0 to 4. -/
def sniHeaderAgree (e e' : NX_SECURE_TLS_HELLO_EXTENSION) : Prop :=
  e.nx_secure_tls_extension_id = e'.nx_secure_tls_extension_id ∧
  e.nx_secure_tls_extension_data_length = e'.nx_secure_tls_extension_data_length ∧
  ∀ k, k < 5 → e.nx_secure_tls_extension_data k = e'.nx_secure_tls_extension_data k

/-! ## The certificate initialiser: what the claims speak about -/

/-- The call gets past the capacity check: no backing buffer is supplied, or the certificate
length is at most the capacity of the supplied one. -/
def pastCapacityCheck (length raw_data_buffer buffer_size : Nat) : Prop :=
  raw_data_buffer = NX_NULL ∨ length ≤ buffer_size

instance pastCapacityCheck.decidable (length raw_data_buffer buffer_size : Nat) :
    Decidable (pastCapacityCheck length raw_data_buffer buffer_size) :=
  inferInstanceAs (Decidable (_ ∨ _))

/-- A private key is supplied: the pointer is not null and the length is positive. -/
def keySupplied (private_key priv_len : Nat) : Prop :=
  private_key ≠ NX_NULL ∧ priv_len > 0

instance keySupplied.decidable (private_key priv_len : Nat) :
    Decidable (keySupplied private_key priv_len) :=
  inferInstanceAs (Decidable (_ ∧ _))

/-- The raw data reference the initialiser sets up: the caller's certificate data pointer
when no backing buffer is supplied, the backing buffer otherwise. -/
def rawReference (certificate_data raw_data_buffer : Nat) : Nat :=
  if raw_data_buffer = NX_NULL then certificate_data else raw_data_buffer

/-- The raw buffer capacity the initialiser sets up: the certificate length when no backing
buffer is supplied, the size of the backing buffer otherwise. -/
def rawCapacity (length raw_data_buffer buffer_size : Nat) : Nat :=
  if raw_data_buffer = NX_NULL then length else buffer_size

/-- The certificate as it stands when the certificate parser is called: zeroed, then raw
data length, capacity and reference stored. -/
def establishedCertificate (certificate_data length raw_data_buffer buffer_size : Nat) :
    NX_SECURE_X509_CERT :=
  { NX_SECURE_X509_CERT.zero with
    nx_secure_x509_certificate_raw_data := rawReference certificate_data raw_data_buffer
    nx_secure_x509_certificate_raw_buffer_size := rawCapacity length raw_data_buffer buffer_size
    nx_secure_x509_certificate_raw_data_length := length }

/-- The backing buffer as it stands when the certificate parser is called. -/
def establishedBuffer (certificate_bytes : Nat → UCHAR) (length raw_data_buffer : Nat)
    (raw_buffer : List UCHAR) : List UCHAR :=
  if raw_data_buffer = NX_NULL then raw_buffer
  else NX_SECURE_MEMCPY raw_buffer certificate_bytes length

/-- The events up to the call of the certificate parser. -/
def establishedTrace (length raw_data_buffer : Nat) : List InitEvent :=
  [InitEvent.tx_mutex_get, InitEvent.certificate_store, InitEvent.certificate_store,
    InitEvent.certificate_store, InitEvent.certificate_store] ++
  (if raw_data_buffer = NX_NULL then [] else [InitEvent.raw_buffer_copy length])

/-- What the certificate parser returns in a call of the initialiser that gets past the
capacity check: status and certificate. -/
def derResult (p : ExternalParsers) (certificate_data : Nat) (certificate_bytes : Nat → UCHAR)
    (length raw_data_buffer buffer_size : Nat) : Nat × NX_SECURE_X509_CERT :=
  p._nx_secure_x509_certificate_parse (rawReference certificate_data raw_data_buffer)
    (bytesAt certificate_bytes length) length
    (establishedCertificate certificate_data length raw_data_buffer buffer_size)

/-- What the RSA private key parser returns when called on the key arguments. -/
def rsaResult (p : ExternalParsers) (private_key : Nat) (private_key_bytes : Nat → UCHAR)
    (priv_len : Nat) : Nat × Nat :=
  p._nx_secure_x509_pkcs1_rsa_private_key_parse private_key
    (bytesAt private_key_bytes priv_len) priv_len

/-- The certificate parser leaves raw data reference, raw buffer capacity and raw data
length of the certificate as they are. -/
def ParserKeepsRawFields (p : ExternalParsers) : Prop :=
  ∀ (raw_data : Nat) (bytes : List UCHAR) (length : Nat) (cert : NX_SECURE_X509_CERT),
    (p._nx_secure_x509_certificate_parse raw_data bytes length
        cert).2.nx_secure_x509_certificate_raw_data
      = cert.nx_secure_x509_certificate_raw_data ∧
    (p._nx_secure_x509_certificate_parse raw_data bytes length
        cert).2.nx_secure_x509_certificate_raw_buffer_size
      = cert.nx_secure_x509_certificate_raw_buffer_size ∧
    (p._nx_secure_x509_certificate_parse raw_data bytes length
        cert).2.nx_secure_x509_certificate_raw_data_length
      = cert.nx_secure_x509_certificate_raw_data_length

/-- The certificate parser leaves the identity flag of the certificate as it is. -/
def ParserKeepsFlag (p : ExternalParsers) : Prop :=
  ∀ (raw_data : Nat) (bytes : List UCHAR) (length : Nat) (cert : NX_SECURE_X509_CERT),
    (p._nx_secure_x509_certificate_parse raw_data bytes length
        cert).2.nx_secure_x509_certificate_is_identity_cert
      = cert.nx_secure_x509_certificate_is_identity_cert

/-- The certificate parser leaves the next-certificate link of the certificate as it is. -/
def ParserKeepsLink (p : ExternalParsers) : Prop :=
  ∀ (raw_data : Nat) (bytes : List UCHAR) (length : Nat) (cert : NX_SECURE_X509_CERT),
    (p._nx_secure_x509_certificate_parse raw_data bytes length
        cert).2.nx_secure_x509_next_certificate
      = cert.nx_secure_x509_next_certificate

/-- The high 16 bits of a 32-bit value. -/
def highHalf (t : Nat) : Nat := t / 65536 % 65536

/-- A certificate of an earlier use: linked into a chain, flagged as identity certificate. -/
def usedCertificate : NX_SECURE_X509_CERT :=
  ⟨0x3000, 64, 64, 9, 1, NX_SECURE_X509_PRIVATE_KEY.user_key 0x4000 16, true, 0x5000⟩

/-- Certificate data that starts like a DER certificate of 500 bytes. -/
def sampleCertificateBytes : Nat → UCHAR := memOf [0x30, 0x82, 0x01, 0xF0, 0x30, 0x82]

/-- Parsers that do not behave: the certificate parser accepts everything and sets the
next-certificate link, the identity flag and the raw data fields; the RSA parser fails
with status 0x187. -/
def unrulyParsers : ExternalParsers :=
  ⟨fun _ _ _ _ => (0, ⟨0x7000, 1, 2, 3, 4, NX_SECURE_X509_PRIVATE_KEY.zeroed, true, 0x8000⟩),
   fun _ _ _ => (0x187, 0)⟩

/-- The position of the first extension whose identifier is the SNI identifier (the length
of the list when there is none). -/
def firstSniIndex (c : NxConstants) (extensions : List NX_SECURE_TLS_HELLO_EXTENSION) : Nat :=
  extensions.findIdx
    (fun e => decide (e.nx_secure_tls_extension_id = c.NX_SECURE_TLS_EXTENSION_SERVER_NAME_INDICATION))

/-- The five dereferences of the header of extension `i`: offsets 0 to 4, in program order. -/
def headerReads (i : Nat) : List (Nat × Nat) := [(i, 0), (i, 1), (i, 2), (i, 3), (i, 4)]

/-- The dereferences of the copy of `n` name bytes of extension `i`: offsets 5 to 5 + n - 1. -/
def nameReads (i n : Nat) : List (Nat × Nat) := (List.range n).map (fun k => (i, 5 + k))

/-- The certificate parser leaves the key type field of the certificate as it is. -/
def ParserKeepsKeyType (p : ExternalParsers) : Prop :=
  ∀ (raw_data : Nat) (bytes : List UCHAR) (length : Nat) (cert : NX_SECURE_X509_CERT),
    (p._nx_secure_x509_certificate_parse raw_data bytes length
        cert).2.nx_secure_x509_private_key_type
      = cert.nx_secure_x509_private_key_type

/-! ## Two concurrent calls of the certificate initialiser -/

/-- The arguments of one call of `_nx_secure_x509_certificate_initialize`: the content of the
certificate structure before the call, the three pointers with the memory behind them, the
lengths and the key type. -/
structure InitArguments where
  certificate : NX_SECURE_X509_CERT
  certificate_data : Nat
  certificate_bytes : Nat → UCHAR
  length : Nat
  raw_data_buffer : Nat
  raw_buffer : List UCHAR
  buffer_size : Nat
  private_key : Nat
  private_key_bytes : Nat → UCHAR
  priv_len : Nat
  private_key_type : Nat

/-- The events of the call of the initialiser on the given arguments. -/
def initTrace (k : X509Constants) (p : ExternalParsers) (a : InitArguments) : List InitEvent :=
  ( _nx_secure_x509_certificate_initialize k p a.certificate a.certificate_data
    a.certificate_bytes a.length a.raw_data_buffer a.raw_buffer a.buffer_size a.private_key
    a.private_key_bytes a.priv_len a.private_key_type).trace

/-- A schedule of two threads: the events in the order in which they happen, each with the
thread that performs it (`false` for the first caller, `true` for the second). -/
abbrev Schedule := List (Bool × InitEvent)

/-- The events a thread performs in a schedule, in order. -/
def eventsOf (t : Bool) (s : Schedule) : List InitEvent :=
  (s.filter (fun x => x.1 == t)).map Prod.snd

/-- The events of one thread, performed one after the other with nothing in between. -/
def runOf (t : Bool) (events : List InitEvent) : Schedule := events.map (fun e => (t, e))

/-- Modelled from the spec: the Protection Domain `_nx_secure_tls_protection` with
`tx_mutex_get` and `tx_mutex_put`, which are ThreadX services outside the sources.  It is one
process-wide mutual-exclusion lock; its state is the thread that holds it, if any.  An
acquisition blocks until the lock is free, so in a schedule it can only happen while no
thread holds the lock, and the acquiring thread then holds it; a release by the holder frees
the lock (a release by another thread changes nothing); every other event leaves the lock as
it is.  The result is `none` when the event cannot happen in that state. -/
def mutexStep (holder : Option Bool) (x : Bool × InitEvent) : Option (Option Bool) :=
  if x.2 = InitEvent.tx_mutex_get then
    if holder = none then some (some x.1) else none
  else if x.2 = InitEvent.tx_mutex_put then
    some (if holder = some x.1 then none else holder)
  else some holder

/-- Modelled from the spec: a schedule respects the Protection Domain when each of its
events can happen in the lock state the earlier ones left (section 5 of the spec: the lock
covers the entire body of the initialiser, and acquisition blocks until the lock is free). -/
def mutexAdmits : Option Bool → Schedule → Bool
  | _, [] => true
  | holder, x :: rest =>
      match mutexStep holder x with
      | none => false
      | some holder' => mutexAdmits holder' rest

/-- The arguments of the call of scenario C: no backing buffer, no key. -/
def sampleCallA : InitArguments :=
  ⟨usedCertificate, 0x1000, sampleCertificateBytes, 6, NX_NULL, [], 0, NX_NULL, memOf [], 0, 0⟩

/-- The arguments of a call on another certificate object, with a backing buffer too small. -/
def sampleCallB : InitArguments :=
  ⟨NX_SECURE_X509_CERT.zero, 0x9000, sampleCertificateBytes, 6, 0x2000, [0, 0], 2, NX_NULL,
    memOf [], 0, 0⟩

/-! ## The SNI decoder: auxiliary facts -/

theorem toUSHORT_be16 (a b : UCHAR) : toUSHORT ((a.val <<< 8) + b.val) = a.val * 256 + b.val := by
  have ha := a.isLt
  have hb := b.isLt
  simp only [toUSHORT, Nat.shiftLeft_eq]
  omega

theorem wireNameLength_lt (e : NX_SECURE_TLS_HELLO_EXTENSION) : wireNameLength e < 65536 := by
  have ha := (e.nx_secure_tls_extension_data 3).isLt
  have hb := (e.nx_secure_tls_extension_data 4).isLt
  simp only [wireNameLength]
  omega

theorem NX_SECURE_MEMCPY_length (dst : List UCHAR) (src : Nat → UCHAR) (n : Nat) :
    (NX_SECURE_MEMCPY dst src n).length = max n dst.length := by
  simp only [NX_SECURE_MEMCPY, List.length_append, List.length_map, List.length_range,
    List.length_drop]
  omega

theorem NX_SECURE_MEMCPY_take (dst : List UCHAR) (src : Nat → UCHAR) (n : Nat) :
    (NX_SECURE_MEMCPY dst src n).take n = (List.range n).map src := by
  simp [NX_SECURE_MEMCPY, List.take_append_eq_append_take]

/-- An extension of another type is skipped. -/
theorem sni_extension_loop_skip (c : NxConstants) (e : NX_SECURE_TLS_HELLO_EXTENSION)
    (rest : List NX_SECURE_TLS_HELLO_EXTENSION) (i : Nat) (d : NX_SECURE_X509_DNS_NAME)
    (h : e.nx_secure_tls_extension_id ≠ c.NX_SECURE_TLS_EXTENSION_SERVER_NAME_INDICATION) :
    sni_extension_loop c (e :: rest) i d = sni_extension_loop c rest (i + 1) d := by
  simp [sni_extension_loop, h]

/-- What follows the first SNI extension plays no part. -/
theorem sni_extension_loop_hit (c : NxConstants) (e : NX_SECURE_TLS_HELLO_EXTENSION)
    (rest : List NX_SECURE_TLS_HELLO_EXTENSION) (i : Nat) (d : NX_SECURE_X509_DNS_NAME)
    (h : e.nx_secure_tls_extension_id = c.NX_SECURE_TLS_EXTENSION_SERVER_NAME_INDICATION) :
    sni_extension_loop c (e :: rest) i d = sni_extension_loop c [e] i d := by
  simp [sni_extension_loop, h]

/-- The status on a list that starts with an SNI extension. -/
theorem sni_extension_loop_hit_status (c : NxConstants) (e : NX_SECURE_TLS_HELLO_EXTENSION)
    (i : Nat) (d : NX_SECURE_X509_DNS_NAME)
    (h : e.nx_secure_tls_extension_id = c.NX_SECURE_TLS_EXTENSION_SERVER_NAME_INDICATION) :
    (sni_extension_loop c [e] i d).status =
      if wireNameType e ≠ c.NX_SECURE_TLS_SNI_NAME_TYPE_DNS ∨
          wireListLength e > e.nx_secure_tls_extension_data_length ∨
          wireNameLength e > wireListLength e then
        SniStatus.NX_SECURE_TLS_SNI_EXTENSION_INVALID
      else SniStatus.NX_SUCCESS := by
  simp only [sni_extension_loop, h, if_true, toUSHORT_be16, wireNameType, wireListLength,
    wireNameLength]
  split <;> rfl

/-- A rejected SNI extension: the outcome in full. -/
theorem sni_extension_loop_rejected (c : NxConstants) (e : NX_SECURE_TLS_HELLO_EXTENSION)
    (i : Nat) (d : NX_SECURE_X509_DNS_NAME)
    (h : e.nx_secure_tls_extension_id = c.NX_SECURE_TLS_EXTENSION_SERVER_NAME_INDICATION)
    (hr : sniRejected c e) :
    sni_extension_loop c [e] i d =
      ⟨SniStatus.NX_SECURE_TLS_SNI_EXTENSION_INVALID,
       ⟨d.nx_secure_x509_dns_name, wireNameLength e⟩,
       [(i, 0), (i, 1), (i, 2), (i, 3), (i, 4)], []⟩ := by
  have hr2 := hr
  simp only [sniRejected, wireNameType, wireListLength, wireNameLength] at hr2
  simp only [sni_extension_loop, h, if_true, toUSHORT_be16, wireNameLength]
  rw [if_pos hr2]

/-- An accepted SNI extension: the outcome in full. -/
theorem sni_extension_loop_accepted (c : NxConstants) (e : NX_SECURE_TLS_HELLO_EXTENSION)
    (i : Nat) (d : NX_SECURE_X509_DNS_NAME)
    (h : e.nx_secure_tls_extension_id = c.NX_SECURE_TLS_EXTENSION_SERVER_NAME_INDICATION)
    (hr : ¬ sniRejected c e) :
    sni_extension_loop c [e] i d =
      ⟨SniStatus.NX_SUCCESS,
       ⟨NX_SECURE_MEMCPY d.nx_secure_x509_dns_name
          (fun k => e.nx_secure_tls_extension_data (5 + k))
          (min (wireNameLength e) c.NX_SECURE_X509_DNS_NAME_MAX),
        min (wireNameLength e) c.NX_SECURE_X509_DNS_NAME_MAX⟩,
       [(i, 0), (i, 1), (i, 2), (i, 3), (i, 4)] ++
         (List.range (min (wireNameLength e) c.NX_SECURE_X509_DNS_NAME_MAX)).map
           (fun k => (i, 5 + k)),
       List.range (min (wireNameLength e) c.NX_SECURE_X509_DNS_NAME_MAX)⟩ := by
  have hr2 := hr
  have hlt := wireNameLength_lt e
  simp only [sniRejected, wireNameType, wireListLength, wireNameLength] at hr2
  simp only [sni_extension_loop, h, if_true, toUSHORT_be16]
  rw [if_neg hr2]
  simp only [wireNameLength] at hlt ⊢
  by_cases hmax : (e.nx_secure_tls_extension_data 3).val * 256 +
      (e.nx_secure_tls_extension_data 4).val > c.NX_SECURE_X509_DNS_NAME_MAX
  · have h1 : toUSHORT c.NX_SECURE_X509_DNS_NAME_MAX = c.NX_SECURE_X509_DNS_NAME_MAX := by
      simp only [toUSHORT]; omega
    have h2 : min ((e.nx_secure_tls_extension_data 3).val * 256 +
        (e.nx_secure_tls_extension_data 4).val) c.NX_SECURE_X509_DNS_NAME_MAX
        = c.NX_SECURE_X509_DNS_NAME_MAX := by omega
    simp only [if_pos hmax, h1, h2]
  · have h2 : min ((e.nx_secure_tls_extension_data 3).val * 256 +
        (e.nx_secure_tls_extension_data 4).val) c.NX_SECURE_X509_DNS_NAME_MAX
        = (e.nx_secure_tls_extension_data 3).val * 256 +
          (e.nx_secure_tls_extension_data 4).val := by omega
    simp only [if_neg hmax, h2]

/-- No SNI extension in the list: the loop runs to the end and touches nothing. -/
theorem sni_extension_loop_none (c : NxConstants) (l : List NX_SECURE_TLS_HELLO_EXTENSION)
    (h : ∀ e ∈ l, e.nx_secure_tls_extension_id ≠ c.NX_SECURE_TLS_EXTENSION_SERVER_NAME_INDICATION)
    (i : Nat) (d : NX_SECURE_X509_DNS_NAME) :
    sni_extension_loop c l i d = ⟨SniStatus.NX_SECURE_TLS_EXTENSION_NOT_FOUND, d, [], []⟩ := by
  induction l generalizing i with
  | nil => rfl
  | cons e rest ih =>
    rw [sni_extension_loop_skip c e rest i d (h e (List.mem_cons_self _ _))]
    exact ih (fun x hx => h x (List.mem_cons_of_mem _ hx)) (i + 1)

/-- A prefix without SNI extension only shifts the index at which the loop continues. -/
theorem sni_extension_loop_skip_all (c : NxConstants)
    (pre rest : List NX_SECURE_TLS_HELLO_EXTENSION)
    (h : ∀ e ∈ pre, e.nx_secure_tls_extension_id ≠ c.NX_SECURE_TLS_EXTENSION_SERVER_NAME_INDICATION)
    (i : Nat) (d : NX_SECURE_X509_DNS_NAME) :
    sni_extension_loop c (pre ++ rest) i d = sni_extension_loop c rest (i + pre.length) d := by
  induction pre generalizing i with
  | nil => simp
  | cons e pre ih =>
    rw [List.cons_append,
      sni_extension_loop_skip c e _ i d (h e (List.mem_cons_self _ _)),
      ih (fun x hx => h x (List.mem_cons_of_mem _ hx)) (i + 1), List.length_cons]
    congr 1
    omega

/-- The first SNI extension splits the list. -/
theorem firstSni_eq_some (c : NxConstants) (l : List NX_SECURE_TLS_HELLO_EXTENSION)
    (r : NX_SECURE_TLS_HELLO_EXTENSION) (h : firstSni c l = some r) :
    r.nx_secure_tls_extension_id = c.NX_SECURE_TLS_EXTENSION_SERVER_NAME_INDICATION ∧
    ∃ pre suf, l = pre ++ r :: suf ∧
      ∀ e ∈ pre, e.nx_secure_tls_extension_id ≠ c.NX_SECURE_TLS_EXTENSION_SERVER_NAME_INDICATION := by
  induction l with
  | nil => simp [firstSni] at h
  | cons e rest ih =>
    by_cases he : e.nx_secure_tls_extension_id = c.NX_SECURE_TLS_EXTENSION_SERVER_NAME_INDICATION
    · simp only [firstSni, List.find?_cons, he, decide_True, Option.some.injEq] at h
      subst h
      exact ⟨he, [], rest, rfl, by simp⟩
    · have h2 : firstSni c rest = some r := by
        simpa [firstSni, List.find?_cons, he] using h
      obtain ⟨hr, pre, suf, hl, hpre⟩ := ih h2
      refine ⟨hr, e :: pre, suf, by simp [hl], ?_⟩
      intro x hx
      rcases List.mem_cons.mp hx with hx | hx
      · exact hx ▸ he
      · exact hpre x hx

/-- No first SNI extension: no extension of the list has the SNI identifier. -/
theorem firstSni_eq_none (c : NxConstants) (l : List NX_SECURE_TLS_HELLO_EXTENSION)
    (h : firstSni c l = none) :
    ∀ e ∈ l, e.nx_secure_tls_extension_id ≠ c.NX_SECURE_TLS_EXTENSION_SERVER_NAME_INDICATION := by
  intro e he
  have := List.find?_eq_none.mp h e he
  simpa using this

/-- The decoder run on a list is the loop body run on its first SNI extension, at the index
where that extension sits. -/
theorem sni_parse_of_firstSni (c : NxConstants) (l : List NX_SECURE_TLS_HELLO_EXTENSION)
    (r : NX_SECURE_TLS_HELLO_EXTENSION) (d : NX_SECURE_X509_DNS_NAME)
    (h : firstSni c l = some r) :
    r.nx_secure_tls_extension_id = c.NX_SECURE_TLS_EXTENSION_SERVER_NAME_INDICATION ∧
    ∃ i, _nx_secure_tls_session_sni_extension_parse c l d = sni_extension_loop c [r] i d := by
  obtain ⟨hr, pre, suf, hl, hpre⟩ := firstSni_eq_some c l r h
  refine ⟨hr, 0 + pre.length, ?_⟩
  rw [_nx_secure_tls_session_sni_extension_parse, hl, sni_extension_loop_skip_all c pre _ hpre,
    sni_extension_loop_hit c r suf _ d hr]

/-- Lists that agree on identifiers, declared lengths and header bytes get the same status. -/
theorem sni_extension_loop_status_congr (c : NxConstants)
    (l l' : List NX_SECURE_TLS_HELLO_EXTENSION) (h : List.Forall₂ sniHeaderAgree l l')
    (i i' : Nat) (d d' : NX_SECURE_X509_DNS_NAME) :
    (sni_extension_loop c l i d).status = (sni_extension_loop c l' i' d').status := by
  induction h generalizing i i' with
  | nil => rfl
  | @cons e e' rest rest' hee _ ih =>
    obtain ⟨hid, hlen, hdata⟩ := hee
    by_cases he : e.nx_secure_tls_extension_id = c.NX_SECURE_TLS_EXTENSION_SERVER_NAME_INDICATION
    · have he' : e'.nx_secure_tls_extension_id =
          c.NX_SECURE_TLS_EXTENSION_SERVER_NAME_INDICATION := hid ▸ he
      rw [sni_extension_loop_hit c e rest i d he, sni_extension_loop_hit c e' rest' i' d' he',
        sni_extension_loop_hit_status c e i d he, sni_extension_loop_hit_status c e' i' d' he']
      simp only [wireNameType, wireListLength, wireNameLength, hlen,
        hdata 0 (by omega), hdata 1 (by omega), hdata 2 (by omega), hdata 3 (by omega),
        hdata 4 (by omega)]
    · have he' : e'.nx_secure_tls_extension_id ≠
          c.NX_SECURE_TLS_EXTENSION_SERVER_NAME_INDICATION := hid ▸ he
      rw [sni_extension_loop_skip c e rest i d he, sni_extension_loop_skip c e' rest' i' d' he']
      exact ih (i + 1) (i' + 1)

/-! ## The SNI decoder: the claims -/

/-- C1: when the first SNI extension of the sequence is well-formed (name type DNS, list
length at most the declared payload length, name length at most the list length), the decoder
returns `NX_SUCCESS`, the length of the output name is the smaller of the name length and
`NX_SECURE_X509_DNS_NAME_MAX`, and that many leading bytes of the output name are the
payload bytes from offset 5 on: a name longer than the capacity is cut, not refused. -/
theorem sni_parse_well_formed (c : NxConstants) (extensions : List NX_SECURE_TLS_HELLO_EXTENSION)
    (r : NX_SECURE_TLS_HELLO_EXTENSION) (dns_name : NX_SECURE_X509_DNS_NAME)
    (hfirst : firstSni c extensions = some r)
    (htype : wireNameType r = c.NX_SECURE_TLS_SNI_NAME_TYPE_DNS)
    (hlist : wireListLength r ≤ r.nx_secure_tls_extension_data_length)
    (hname : wireNameLength r ≤ wireListLength r) :
    (_nx_secure_tls_session_sni_extension_parse c extensions dns_name).status
        = SniStatus.NX_SUCCESS ∧
    (_nx_secure_tls_session_sni_extension_parse c extensions
        dns_name).dns_name.nx_secure_x509_dns_name_length
        = min (wireNameLength r) c.NX_SECURE_X509_DNS_NAME_MAX ∧
    (_nx_secure_tls_session_sni_extension_parse c extensions
        dns_name).dns_name.nx_secure_x509_dns_name.take
          (min (wireNameLength r) c.NX_SECURE_X509_DNS_NAME_MAX)
        = (List.range (min (wireNameLength r) c.NX_SECURE_X509_DNS_NAME_MAX)).map
            (fun j => r.nx_secure_tls_extension_data (5 + j)) := by
  obtain ⟨hr, i, hi⟩ := sni_parse_of_firstSni c extensions r dns_name hfirst
  have hacc : ¬ sniRejected c r := by
    simp only [sniRejected]
    omega
  rw [hi, sni_extension_loop_accepted c r i dns_name hr hacc]
  exact ⟨rfl, rfl, NX_SECURE_MEMCPY_take _ _ _⟩

/-- Scenario A: an extension of another type, then the SNI extension carrying "example";
the hypotheses of C1 hold and the decoder returns `NX_SUCCESS` with the seven bytes of
"example" and length 7. -/
theorem sni_parse_well_formed_witness :
    ((_nx_secure_tls_session_sni_extension_parse sampleConstants
        [otherExtension, scenarioA_sni] emptyName).status = SniStatus.NX_SUCCESS ∧
     (_nx_secure_tls_session_sni_extension_parse sampleConstants
        [otherExtension, scenarioA_sni] emptyName).dns_name.nx_secure_x509_dns_name_length
        = min (wireNameLength scenarioA_sni) sampleConstants.NX_SECURE_X509_DNS_NAME_MAX ∧
     (_nx_secure_tls_session_sni_extension_parse sampleConstants
        [otherExtension, scenarioA_sni] emptyName).dns_name.nx_secure_x509_dns_name.take
          (min (wireNameLength scenarioA_sni) sampleConstants.NX_SECURE_X509_DNS_NAME_MAX)
        = (List.range
            (min (wireNameLength scenarioA_sni) sampleConstants.NX_SECURE_X509_DNS_NAME_MAX)).map
            (fun j => scenarioA_sni.nx_secure_tls_extension_data (5 + j))) ∧
    (_nx_secure_tls_session_sni_extension_parse sampleConstants
        [otherExtension, scenarioA_sni] emptyName).dns_name.nx_secure_x509_dns_name_length = 7 ∧
    (_nx_secure_tls_session_sni_extension_parse sampleConstants
        [otherExtension, scenarioA_sni] emptyName).dns_name.nx_secure_x509_dns_name.take 7
        = [101, 120, 97, 109, 112, 108, 101] :=
  ⟨sni_parse_well_formed sampleConstants [otherExtension, scenarioA_sni] scenarioA_sni emptyName
      rfl (by decide) (by decide) (by decide),
   by decide, by decide⟩

/-- C2: when the sequence holds an SNI extension, the decoder returns
`NX_SECURE_TLS_SNI_EXTENSION_INVALID` exactly when the first one has a name type other than
DNS, or a list length above its declared payload length, or a name length above the list
length (lengths big-endian at payload offsets 0-1 and 3-4, name type at offset 2); and the
status is the same for any other sequence with the same identifiers, declared lengths and
payload bytes at offsets 0 to 4, whatever lies from offset 5 on and whatever the
output structure held. -/
theorem sni_parse_invalid_iff (c : NxConstants)
    (extensions : List NX_SECURE_TLS_HELLO_EXTENSION) (r : NX_SECURE_TLS_HELLO_EXTENSION)
    (dns_name : NX_SECURE_X509_DNS_NAME) (hfirst : firstSni c extensions = some r) :
    ((_nx_secure_tls_session_sni_extension_parse c extensions dns_name).status
        = SniStatus.NX_SECURE_TLS_SNI_EXTENSION_INVALID ↔
      (wireNameType r ≠ c.NX_SECURE_TLS_SNI_NAME_TYPE_DNS ∨
       wireListLength r > r.nx_secure_tls_extension_data_length ∨
       wireNameLength r > wireListLength r)) ∧
    ∀ (extensions' : List NX_SECURE_TLS_HELLO_EXTENSION) (dns_name' : NX_SECURE_X509_DNS_NAME),
      List.Forall₂ sniHeaderAgree extensions extensions' →
      (_nx_secure_tls_session_sni_extension_parse c extensions' dns_name').status
        = (_nx_secure_tls_session_sni_extension_parse c extensions dns_name).status := by
  constructor
  · obtain ⟨hr, i, hi⟩ := sni_parse_of_firstSni c extensions r dns_name hfirst
    rw [hi, sni_extension_loop_hit_status c r i dns_name hr]
    split
    · simp only [true_iff]; assumption
    · simp only [reduceCtorEq, false_iff]; assumption
  · intro extensions' dns_name' hagree
    exact (sni_extension_loop_status_congr c extensions extensions' hagree 0 0
      dns_name dns_name').symm

/-- Scenario B: list length 9, name type 0, name length 20; the decoder returns
`NX_SECURE_TLS_SNI_EXTENSION_INVALID`. -/
theorem sni_parse_invalid_iff_witness :
    (_nx_secure_tls_session_sni_extension_parse sampleConstants
        [otherExtension, scenarioB_sni] emptyName).status
      = SniStatus.NX_SECURE_TLS_SNI_EXTENSION_INVALID ∧
    wireListLength scenarioB_sni = 9 ∧ wireNameType scenarioB_sni = 0 ∧
    wireNameLength scenarioB_sni = 20 :=
  ⟨(sni_parse_invalid_iff sampleConstants [otherExtension, scenarioB_sni] scenarioB_sni
      emptyName rfl).1.mpr (by decide),
   by decide, by decide, by decide⟩

/-- C3 as stated fails: on scenario B the decoder returns
`NX_SECURE_TLS_SNI_EXTENSION_INVALID`, and the output structure, whose length field was 0,
is not what it was: its length field is 20. -/
theorem sni_parse_invalid_changes_output :
    (_nx_secure_tls_session_sni_extension_parse sampleConstants [scenarioB_sni] emptyName).status
      = SniStatus.NX_SECURE_TLS_SNI_EXTENSION_INVALID ∧
    (_nx_secure_tls_session_sni_extension_parse sampleConstants [scenarioB_sni] emptyName).dns_name
      ≠ emptyName ∧
    (_nx_secure_tls_session_sni_extension_parse sampleConstants [scenarioB_sni]
      emptyName).dns_name.nx_secure_x509_dns_name_length = 20 := by
  decide

/-- C3, amended: whenever the decoder returns `NX_SECURE_TLS_SNI_EXTENSION_INVALID`, the name
bytes of the output structure are what they were and no byte of the name array was stored
to, while the length field holds the name length decoded from payload offsets 3-4 of the
first SNI extension. -/
theorem sni_parse_invalid_frame (c : NxConstants)
    (extensions : List NX_SECURE_TLS_HELLO_EXTENSION) (dns_name : NX_SECURE_X509_DNS_NAME)
    (hinv : (_nx_secure_tls_session_sni_extension_parse c extensions dns_name).status
      = SniStatus.NX_SECURE_TLS_SNI_EXTENSION_INVALID) :
    (_nx_secure_tls_session_sni_extension_parse c extensions
        dns_name).dns_name.nx_secure_x509_dns_name = dns_name.nx_secure_x509_dns_name ∧
    (_nx_secure_tls_session_sni_extension_parse c extensions dns_name).writes = [] ∧
    ∃ r, firstSni c extensions = some r ∧
      (_nx_secure_tls_session_sni_extension_parse c extensions
        dns_name).dns_name.nx_secure_x509_dns_name_length = wireNameLength r := by
  cases hfirst : firstSni c extensions with
  | none =>
    have hnone := sni_extension_loop_none c extensions (firstSni_eq_none c extensions hfirst)
      0 dns_name
    rw [_nx_secure_tls_session_sni_extension_parse, hnone] at hinv
    simp at hinv
  | some r =>
    obtain ⟨hr, i, hi⟩ := sni_parse_of_firstSni c extensions r dns_name hfirst
    by_cases hrej : sniRejected c r
    · rw [hi, sni_extension_loop_rejected c r i dns_name hr hrej]
      exact ⟨rfl, rfl, r, rfl, rfl⟩
    · rw [hi, sni_extension_loop_accepted c r i dns_name hr hrej] at hinv
      simp at hinv

/-- On scenario B the decoder returns `NX_SECURE_TLS_SNI_EXTENSION_INVALID`; the name bytes
stay and the length field becomes the decoded name length. -/
theorem sni_parse_invalid_frame_witness :
    (_nx_secure_tls_session_sni_extension_parse sampleConstants
        [otherExtension, scenarioB_sni] emptyName).dns_name.nx_secure_x509_dns_name
      = emptyName.nx_secure_x509_dns_name ∧
    (_nx_secure_tls_session_sni_extension_parse sampleConstants
        [otherExtension, scenarioB_sni] emptyName).writes = [] ∧
    ∃ r, firstSni sampleConstants [otherExtension, scenarioB_sni] = some r ∧
      (_nx_secure_tls_session_sni_extension_parse sampleConstants
        [otherExtension, scenarioB_sni] emptyName).dns_name.nx_secure_x509_dns_name_length
        = wireNameLength r :=
  sni_parse_invalid_frame sampleConstants [otherExtension, scenarioB_sni] emptyName (by decide)

/-- C4: when no extension of the sequence (of any length, the empty one included) has the
SNI identifier, the decoder returns `NX_SECURE_TLS_EXTENSION_NOT_FOUND`, the output structure
(name bytes and length) is what it was, and nothing was read from a payload or stored to the
name array. -/
theorem sni_parse_not_found (c : NxConstants)
    (extensions : List NX_SECURE_TLS_HELLO_EXTENSION) (dns_name : NX_SECURE_X509_DNS_NAME)
    (hnone : ∀ e ∈ extensions,
      e.nx_secure_tls_extension_id ≠ c.NX_SECURE_TLS_EXTENSION_SERVER_NAME_INDICATION) :
    (_nx_secure_tls_session_sni_extension_parse c extensions dns_name).status
      = SniStatus.NX_SECURE_TLS_EXTENSION_NOT_FOUND ∧
    (_nx_secure_tls_session_sni_extension_parse c extensions dns_name).dns_name = dns_name ∧
    (_nx_secure_tls_session_sni_extension_parse c extensions dns_name).reads = [] ∧
    (_nx_secure_tls_session_sni_extension_parse c extensions dns_name).writes = [] := by
  rw [_nx_secure_tls_session_sni_extension_parse,
    sni_extension_loop_none c extensions hnone 0 dns_name]
  exact ⟨rfl, rfl, rfl, rfl⟩

/-- Two sequences without SNI extension, the empty one and one of two extensions of
another type: `NX_SECURE_TLS_EXTENSION_NOT_FOUND`, output untouched. -/
theorem sni_parse_not_found_witness :
    ((_nx_secure_tls_session_sni_extension_parse sampleConstants [] emptyName).status
      = SniStatus.NX_SECURE_TLS_EXTENSION_NOT_FOUND ∧
     (_nx_secure_tls_session_sni_extension_parse sampleConstants [] emptyName).dns_name
      = emptyName) ∧
    ((_nx_secure_tls_session_sni_extension_parse sampleConstants
        [otherExtension, otherExtension] emptyName).status
      = SniStatus.NX_SECURE_TLS_EXTENSION_NOT_FOUND ∧
     (_nx_secure_tls_session_sni_extension_parse sampleConstants
        [otherExtension, otherExtension] emptyName).dns_name = emptyName) :=
  ⟨⟨(sni_parse_not_found sampleConstants [] emptyName (by simp)).1,
    (sni_parse_not_found sampleConstants [] emptyName (by simp)).2.1⟩,
   ⟨(sni_parse_not_found sampleConstants [otherExtension, otherExtension] emptyName
      (by decide)).1,
    (sni_parse_not_found sampleConstants [otherExtension, otherExtension] emptyName
      (by decide)).2.1⟩⟩

/-- C5 fails on the code: an SNI extension that declares 7 bytes of payload, with list
length 7 and name length 7, passes both length checks; the decoder returns `NX_SUCCESS`
after reading payload offsets 0 to 11, five of them at or beyond the declared length, and
the name it hands out ends with the five bytes that lie behind the declared payload. -/
theorem sni_parse_reads_beyond_declared_length :
    overreadSni.nx_secure_tls_extension_data_length = 7 ∧
    (_nx_secure_tls_session_sni_extension_parse sampleConstants [overreadSni] emptyName).status
      = SniStatus.NX_SUCCESS ∧
    (_nx_secure_tls_session_sni_extension_parse sampleConstants [overreadSni] emptyName).reads
      = [(0, 0), (0, 1), (0, 2), (0, 3), (0, 4), (0, 5), (0, 6), (0, 7), (0, 8), (0, 9),
         (0, 10), (0, 11)] ∧
    (_nx_secure_tls_session_sni_extension_parse sampleConstants [overreadSni]
      emptyName).dns_name.nx_secure_x509_dns_name.take 7 = [97, 98, 0, 23, 0, 0, 255] := by
  decide

/-- C6: every index of the name array the decoder stores to is below
`NX_SECURE_X509_DNS_NAME_MAX`, at most that many bytes are copied whatever name length the
peer declares, and a name array of at least that capacity keeps its size: nothing is written
behind its end. -/
theorem sni_parse_writes_below_max (c : NxConstants)
    (extensions : List NX_SECURE_TLS_HELLO_EXTENSION) (dns_name : NX_SECURE_X509_DNS_NAME) :
    (∀ w ∈ (_nx_secure_tls_session_sni_extension_parse c extensions dns_name).writes,
      w < c.NX_SECURE_X509_DNS_NAME_MAX) ∧
    (_nx_secure_tls_session_sni_extension_parse c extensions dns_name).writes.length
      ≤ c.NX_SECURE_X509_DNS_NAME_MAX ∧
    (c.NX_SECURE_X509_DNS_NAME_MAX ≤ dns_name.nx_secure_x509_dns_name.length →
      (_nx_secure_tls_session_sni_extension_parse c extensions
        dns_name).dns_name.nx_secure_x509_dns_name.length
        = dns_name.nx_secure_x509_dns_name.length) := by
  cases hfirst : firstSni c extensions with
  | none =>
    rw [_nx_secure_tls_session_sni_extension_parse,
      sni_extension_loop_none c extensions (firstSni_eq_none c extensions hfirst) 0 dns_name]
    simp
  | some r =>
    obtain ⟨hr, i, hi⟩ := sni_parse_of_firstSni c extensions r dns_name hfirst
    by_cases hrej : sniRejected c r
    · rw [hi, sni_extension_loop_rejected c r i dns_name hr hrej]
      simp
    · rw [hi, sni_extension_loop_accepted c r i dns_name hr hrej]
      refine ⟨?_, ?_, ?_⟩
      · intro w hw
        have := List.mem_range.mp hw
        omega
      · simp only [List.length_range]
        omega
      · intro hcap
        simp only [NX_SECURE_MEMCPY_length]
        omega

/-- A name of 512 bytes declared by the peer, with matching list and payload lengths: the
decoder returns `NX_SUCCESS` and stores to the indices 0 to 99 of the 100-byte array only. -/
theorem sni_parse_writes_below_max_witness :
    (∀ w ∈ (_nx_secure_tls_session_sni_extension_parse sampleConstants
        [⟨0, 600, memOf [2, 3, 0, 2, 0, 97]⟩] emptyName).writes,
      w < sampleConstants.NX_SECURE_X509_DNS_NAME_MAX) ∧
    sampleConstants.NX_SECURE_X509_DNS_NAME_MAX = 100 ∧
    wireNameLength ⟨0, 600, memOf [2, 3, 0, 2, 0, 97]⟩ = 512 :=
  ⟨(sni_parse_writes_below_max sampleConstants [⟨0, 600, memOf [2, 3, 0, 2, 0, 97]⟩]
      emptyName).1,
   rfl, by decide⟩

/-- C7 as stated fails: the output length is 0, within the capacity of 100, before the call;
the first SNI extension has a name type other than DNS and declares a name length of 512;
the decoder returns `NX_SECURE_TLS_SNI_EXTENSION_INVALID` and the output length is 512. -/
theorem sni_parse_invalid_length_above_max :
    emptyName.nx_secure_x509_dns_name_length ≤ sampleConstants.NX_SECURE_X509_DNS_NAME_MAX ∧
    (_nx_secure_tls_session_sni_extension_parse sampleConstants [longNameSni] emptyName).status
      = SniStatus.NX_SECURE_TLS_SNI_EXTENSION_INVALID ∧
    ¬ (_nx_secure_tls_session_sni_extension_parse sampleConstants [longNameSni]
        emptyName).dns_name.nx_secure_x509_dns_name_length
      ≤ sampleConstants.NX_SECURE_X509_DNS_NAME_MAX := by
  decide

/-- C7, amended: when the output length is at most `NX_SECURE_X509_DNS_NAME_MAX` before the
call, it is so after a return of `NX_SUCCESS` or `NX_SECURE_TLS_EXTENSION_NOT_FOUND`; after
a return of `NX_SECURE_TLS_SNI_EXTENSION_INVALID` it is the name length decoded from the
first SNI extension, a 16-bit value that the capacity does not bound. -/
theorem sni_parse_length_bound (c : NxConstants)
    (extensions : List NX_SECURE_TLS_HELLO_EXTENSION) (dns_name : NX_SECURE_X509_DNS_NAME)
    (hpre : dns_name.nx_secure_x509_dns_name_length ≤ c.NX_SECURE_X509_DNS_NAME_MAX) :
    ((_nx_secure_tls_session_sni_extension_parse c extensions dns_name).status
        ≠ SniStatus.NX_SECURE_TLS_SNI_EXTENSION_INVALID →
      (_nx_secure_tls_session_sni_extension_parse c extensions
        dns_name).dns_name.nx_secure_x509_dns_name_length ≤ c.NX_SECURE_X509_DNS_NAME_MAX) ∧
    ((_nx_secure_tls_session_sni_extension_parse c extensions dns_name).status
        = SniStatus.NX_SECURE_TLS_SNI_EXTENSION_INVALID →
      ∃ r, firstSni c extensions = some r ∧
        (_nx_secure_tls_session_sni_extension_parse c extensions
          dns_name).dns_name.nx_secure_x509_dns_name_length = wireNameLength r ∧
        wireNameLength r < 65536) := by
  cases hfirst : firstSni c extensions with
  | none =>
    rw [_nx_secure_tls_session_sni_extension_parse,
      sni_extension_loop_none c extensions (firstSni_eq_none c extensions hfirst) 0 dns_name]
    simp [hpre]
  | some r =>
    obtain ⟨hr, i, hi⟩ := sni_parse_of_firstSni c extensions r dns_name hfirst
    by_cases hrej : sniRejected c r
    · rw [hi, sni_extension_loop_rejected c r i dns_name hr hrej]
      refine ⟨fun h => absurd rfl h, fun _ => ⟨r, rfl, rfl, wireNameLength_lt r⟩⟩
    · rw [hi, sni_extension_loop_accepted c r i dns_name hr hrej]
      refine ⟨fun _ => Nat.min_le_right _ _, fun h => ?_⟩
      simp at h

/-- The three returns at sample inputs with output length 0 before the call: scenario A
(success, length 7), no SNI extension (length 0), and the rejected extension declaring 512
bytes (length 512). -/
theorem sni_parse_length_bound_witness :
    (_nx_secure_tls_session_sni_extension_parse sampleConstants
        [otherExtension, scenarioA_sni] emptyName).dns_name.nx_secure_x509_dns_name_length
      ≤ sampleConstants.NX_SECURE_X509_DNS_NAME_MAX ∧
    (_nx_secure_tls_session_sni_extension_parse sampleConstants
        [otherExtension] emptyName).dns_name.nx_secure_x509_dns_name_length
      ≤ sampleConstants.NX_SECURE_X509_DNS_NAME_MAX ∧
    ∃ r, firstSni sampleConstants [longNameSni] = some r ∧
      (_nx_secure_tls_session_sni_extension_parse sampleConstants
        [longNameSni] emptyName).dns_name.nx_secure_x509_dns_name_length = wireNameLength r ∧
      wireNameLength r < 65536 :=
  ⟨(sni_parse_length_bound sampleConstants [otherExtension, scenarioA_sni] emptyName
      (by decide)).1 (by decide),
   (sni_parse_length_bound sampleConstants [otherExtension] emptyName (by decide)).1
      (by decide),
   (sni_parse_length_bound sampleConstants [longNameSni] emptyName (by decide)).2
      (by decide)⟩

/-- C8: the first SNI extension alone decides: for every prefix of extensions of other
types, every SNI extension `r` and every suffix, decoding prefix, `r`, suffix gives the status,
the output structure and the stores that decoding `r` alone gives; the suffix may hold further
SNI extensions, well-formed or not. -/
theorem sni_parse_first_match_only (c : NxConstants)
    (pre suf : List NX_SECURE_TLS_HELLO_EXTENSION) (r : NX_SECURE_TLS_HELLO_EXTENSION)
    (dns_name : NX_SECURE_X509_DNS_NAME)
    (hpre : ∀ e ∈ pre,
      e.nx_secure_tls_extension_id ≠ c.NX_SECURE_TLS_EXTENSION_SERVER_NAME_INDICATION)
    (hr : r.nx_secure_tls_extension_id = c.NX_SECURE_TLS_EXTENSION_SERVER_NAME_INDICATION) :
    (_nx_secure_tls_session_sni_extension_parse c (pre ++ [r] ++ suf) dns_name).status
      = (_nx_secure_tls_session_sni_extension_parse c [r] dns_name).status ∧
    (_nx_secure_tls_session_sni_extension_parse c (pre ++ [r] ++ suf) dns_name).dns_name
      = (_nx_secure_tls_session_sni_extension_parse c [r] dns_name).dns_name ∧
    (_nx_secure_tls_session_sni_extension_parse c (pre ++ [r] ++ suf) dns_name).writes
      = (_nx_secure_tls_session_sni_extension_parse c [r] dns_name).writes := by
  have hsplit : pre ++ [r] ++ suf = pre ++ r :: suf := by simp
  rw [_nx_secure_tls_session_sni_extension_parse, _nx_secure_tls_session_sni_extension_parse,
    hsplit, sni_extension_loop_skip_all c pre _ hpre, sni_extension_loop_hit c r suf _ dns_name hr]
  by_cases hrej : sniRejected c r
  · rw [sni_extension_loop_rejected c r _ dns_name hr hrej,
      sni_extension_loop_rejected c r _ dns_name hr hrej]
    exact ⟨rfl, rfl, rfl⟩
  · rw [sni_extension_loop_accepted c r _ dns_name hr hrej,
      sni_extension_loop_accepted c r _ dns_name hr hrej]
    exact ⟨rfl, rfl, rfl⟩

/-- A malformed SNI extension (scenario B) after an extension of another type and before
the well-formed one of scenario A: the result is that of the malformed one alone,
`NX_SECURE_TLS_SNI_EXTENSION_INVALID`. -/
theorem sni_parse_first_match_only_witness :
    ((_nx_secure_tls_session_sni_extension_parse sampleConstants
        ([otherExtension] ++ [scenarioB_sni] ++ [scenarioA_sni]) emptyName).status
      = (_nx_secure_tls_session_sni_extension_parse sampleConstants
        [scenarioB_sni] emptyName).status ∧
     (_nx_secure_tls_session_sni_extension_parse sampleConstants
        ([otherExtension] ++ [scenarioB_sni] ++ [scenarioA_sni]) emptyName).dns_name
      = (_nx_secure_tls_session_sni_extension_parse sampleConstants
        [scenarioB_sni] emptyName).dns_name ∧
     (_nx_secure_tls_session_sni_extension_parse sampleConstants
        ([otherExtension] ++ [scenarioB_sni] ++ [scenarioA_sni]) emptyName).writes
      = (_nx_secure_tls_session_sni_extension_parse sampleConstants
        [scenarioB_sni] emptyName).writes) ∧
    (_nx_secure_tls_session_sni_extension_parse sampleConstants
        ([otherExtension] ++ [scenarioB_sni] ++ [scenarioA_sni]) emptyName).status
      = SniStatus.NX_SECURE_TLS_SNI_EXTENSION_INVALID :=
  ⟨sni_parse_first_match_only sampleConstants [otherExtension] [scenarioA_sni] scenarioB_sni
      emptyName (by decide) (by decide),
   by decide⟩

/-! ## The certificate initialiser: the claims -/

/-- C9: when a backing buffer is supplied and its capacity is below the certificate length,
the initialiser returns `NX_SECURE_TLS_INSUFFICIENT_CERT_SPACE`, the backing buffer holds what
it held, and the events are the acquisition of the protection, the reset, one field store and
the release: no copy and no parser call.  The outcome is the same for any parsers, any prior
content of the certificate, any certificate bytes and any key arguments. -/
theorem certificate_initialize_insufficient_space (k : X509Constants) (p : ExternalParsers)
    (certificate : NX_SECURE_X509_CERT)
    (certificate_data : Nat) (certificate_bytes : Nat → UCHAR) (length : Nat)
    (raw_data_buffer : Nat) (raw_buffer : List UCHAR) (buffer_size : Nat)
    (private_key : Nat) (private_key_bytes : Nat → UCHAR) (priv_len : Nat)
    (private_key_type : Nat)
    (hbuf : raw_data_buffer ≠ NX_NULL) (hcap : buffer_size < length) :
    ( _nx_secure_x509_certificate_initialize k p certificate certificate_data certificate_bytes
        length raw_data_buffer raw_buffer buffer_size private_key private_key_bytes priv_len
        private_key_type).status = k.NX_SECURE_TLS_INSUFFICIENT_CERT_SPACE ∧
    ( _nx_secure_x509_certificate_initialize k p certificate certificate_data certificate_bytes
        length raw_data_buffer raw_buffer buffer_size private_key private_key_bytes priv_len
        private_key_type).raw_buffer = raw_buffer ∧
    ( _nx_secure_x509_certificate_initialize k p certificate certificate_data certificate_bytes
        length raw_data_buffer raw_buffer buffer_size private_key private_key_bytes priv_len
        private_key_type).trace
      = [InitEvent.tx_mutex_get, InitEvent.certificate_store, InitEvent.certificate_store,
         InitEvent.tx_mutex_put] ∧
    ∀ (p' : ExternalParsers) (certificate' : NX_SECURE_X509_CERT) (certificate_data' : Nat)
      (certificate_bytes' : Nat → UCHAR) (private_key' : Nat) (private_key_bytes' : Nat → UCHAR)
      (priv_len' private_key_type' : Nat),
      _nx_secure_x509_certificate_initialize k p' certificate' certificate_data'
        certificate_bytes' length raw_data_buffer raw_buffer buffer_size private_key'
        private_key_bytes' priv_len' private_key_type'
      = _nx_secure_x509_certificate_initialize k p certificate certificate_data certificate_bytes
        length raw_data_buffer raw_buffer buffer_size private_key private_key_bytes priv_len
        private_key_type := by
  have hgt : length > buffer_size := hcap
  refine ⟨?_, ?_, ?_, ?_⟩ <;>
    simp [ _nx_secure_x509_certificate_initialize, hbuf, hgt, NX_SECURE_MEMSET_zero]

/-- Scenario D: a backing buffer of capacity 10 for a certificate of length 500. -/
theorem certificate_initialize_insufficient_space_witness :
    ( _nx_secure_x509_certificate_initialize sampleX509Constants sampleParsers
        NX_SECURE_X509_CERT.zero 0x1000 (memOf [0x30, 0x82, 0x01, 0xF0]) 500
        0x2000 (List.replicate 10 0) 10 NX_NULL (memOf []) 0 0).status
      = sampleX509Constants.NX_SECURE_TLS_INSUFFICIENT_CERT_SPACE ∧
    ( _nx_secure_x509_certificate_initialize sampleX509Constants sampleParsers
        NX_SECURE_X509_CERT.zero 0x1000 (memOf [0x30, 0x82, 0x01, 0xF0]) 500
        0x2000 (List.replicate 10 0) 10 NX_NULL (memOf []) 0 0).raw_buffer
      = List.replicate 10 0 ∧
    ( _nx_secure_x509_certificate_initialize sampleX509Constants sampleParsers
        NX_SECURE_X509_CERT.zero 0x1000 (memOf [0x30, 0x82, 0x01, 0xF0]) 500
        0x2000 (List.replicate 10 0) 10 NX_NULL (memOf []) 0 0).trace
      = [InitEvent.tx_mutex_get, InitEvent.certificate_store, InitEvent.certificate_store,
         InitEvent.tx_mutex_put] :=
  ⟨(certificate_initialize_insufficient_space sampleX509Constants sampleParsers
      NX_SECURE_X509_CERT.zero 0x1000 (memOf [0x30, 0x82, 0x01, 0xF0]) 500
      0x2000 (List.replicate 10 0) 10 NX_NULL (memOf []) 0 0 (by decide) (by decide)).1,
   (certificate_initialize_insufficient_space sampleX509Constants sampleParsers
      NX_SECURE_X509_CERT.zero 0x1000 (memOf [0x30, 0x82, 0x01, 0xF0]) 500
      0x2000 (List.replicate 10 0) 10 NX_NULL (memOf []) 0 0 (by decide) (by decide)).2.1,
   (certificate_initialize_insufficient_space sampleX509Constants sampleParsers
      NX_SECURE_X509_CERT.zero 0x1000 (memOf [0x30, 0x82, 0x01, 0xF0]) 500
      0x2000 (List.replicate 10 0) 10 NX_NULL (memOf []) 0 0 (by decide) (by decide)).2.2.1⟩

/-- C10 as stated fails: with capacity 10 and length 500 the initialiser returns
`NX_SECURE_TLS_INSUFFICIENT_CERT_SPACE` and the certificate is not in its zero state: its raw
data length is 500. -/
theorem certificate_initialize_insufficient_space_not_zero :
    ( _nx_secure_x509_certificate_initialize sampleX509Constants sampleParsers
        NX_SECURE_X509_CERT.zero 0x1000 (memOf [0x30, 0x82, 0x01, 0xF0]) 500
        0x2000 (List.replicate 10 0) 10 NX_NULL (memOf []) 0 0).status
      = sampleX509Constants.NX_SECURE_TLS_INSUFFICIENT_CERT_SPACE ∧
    ( _nx_secure_x509_certificate_initialize sampleX509Constants sampleParsers
        NX_SECURE_X509_CERT.zero 0x1000 (memOf [0x30, 0x82, 0x01, 0xF0]) 500
        0x2000 (List.replicate 10 0) 10 NX_NULL (memOf []) 0 0).certificate
      ≠ NX_SECURE_X509_CERT.zero ∧
    ( _nx_secure_x509_certificate_initialize sampleX509Constants sampleParsers
        NX_SECURE_X509_CERT.zero 0x1000 (memOf [0x30, 0x82, 0x01, 0xF0]) 500
        0x2000 (List.replicate 10 0) 10 NX_NULL (memOf []) 0 0
        ).certificate.nx_secure_x509_certificate_raw_data_length = 500 := by
  decide

/-- C10, amended: when the capacity check fails (a backing buffer is supplied and its
capacity is below the certificate length), the initialiser returns
`NX_SECURE_TLS_INSUFFICIENT_CERT_SPACE` and every field of the certificate has its zeroed
value, the raw data reference and the raw buffer capacity included, except the raw data
length, which holds the certificate length: it is stored before the check. -/
theorem certificate_initialize_insufficient_space_state (k : X509Constants)
    (p : ExternalParsers) (certificate : NX_SECURE_X509_CERT)
    (certificate_data : Nat) (certificate_bytes : Nat → UCHAR) (length : Nat)
    (raw_data_buffer : Nat) (raw_buffer : List UCHAR) (buffer_size : Nat)
    (private_key : Nat) (private_key_bytes : Nat → UCHAR) (priv_len : Nat)
    (private_key_type : Nat)
    (hbuf : raw_data_buffer ≠ NX_NULL) (hcap : buffer_size < length) :
    ( _nx_secure_x509_certificate_initialize k p certificate certificate_data certificate_bytes
        length raw_data_buffer raw_buffer buffer_size private_key private_key_bytes priv_len
        private_key_type).status = k.NX_SECURE_TLS_INSUFFICIENT_CERT_SPACE ∧
    ( _nx_secure_x509_certificate_initialize k p certificate certificate_data certificate_bytes
        length raw_data_buffer raw_buffer buffer_size private_key private_key_bytes priv_len
        private_key_type).certificate
      = { NX_SECURE_X509_CERT.zero with nx_secure_x509_certificate_raw_data_length := length } := by
  have hgt : length > buffer_size := hcap
  constructor <;>
    simp [ _nx_secure_x509_certificate_initialize, hbuf, hgt, NX_SECURE_MEMSET_zero]

/-- Scenario D again: the certificate, which held a chain link and an identity flag before
the call, is zeroed afterwards except for the raw data length 500. -/
theorem certificate_initialize_insufficient_space_state_witness :
    ( _nx_secure_x509_certificate_initialize sampleX509Constants sampleParsers
        ⟨0x3000, 64, 64, 9, 1, NX_SECURE_X509_PRIVATE_KEY.user_key 0x4000 16, true, 0x5000⟩
        0x1000 (memOf [0x30, 0x82, 0x01, 0xF0]) 500
        0x2000 (List.replicate 10 0) 10 0x6000 (memOf [1, 2]) 2 1).certificate
      = ⟨NX_NULL, 0, 500, 0, 0, NX_SECURE_X509_PRIVATE_KEY.zeroed, false, NX_NULL⟩ :=
  (certificate_initialize_insufficient_space_state sampleX509Constants sampleParsers
      ⟨0x3000, 64, 64, 9, 1, NX_SECURE_X509_PRIVATE_KEY.user_key 0x4000 16, true, 0x5000⟩
      0x1000 (memOf [0x30, 0x82, 0x01, 0xF0]) 500
      0x2000 (List.replicate 10 0) 10 0x6000 (memOf [1, 2]) 2 1 (by decide) (by decide)).2

/-! ## The certificate initialiser: auxiliary facts -/

/-- Past the capacity check, the initialiser is its second half run on the certificate,
buffer and events set up by the first half; the parser is handed the certificate bytes. -/
theorem certificate_initialize_past_check (k : X509Constants) (p : ExternalParsers)
    (certificate : NX_SECURE_X509_CERT)
    (certificate_data : Nat) (certificate_bytes : Nat → UCHAR) (length : Nat)
    (raw_data_buffer : Nat) (raw_buffer : List UCHAR) (buffer_size : Nat)
    (private_key : Nat) (private_key_bytes : Nat → UCHAR) (priv_len : Nat)
    (private_key_type : Nat)
    (hpast : pastCapacityCheck length raw_data_buffer buffer_size) :
    ( _nx_secure_x509_certificate_initialize k p certificate certificate_data certificate_bytes
        length raw_data_buffer raw_buffer buffer_size private_key private_key_bytes priv_len
        private_key_type)
      = certificate_initialize_parse k p
          (establishedCertificate certificate_data length raw_data_buffer buffer_size)
          (bytesAt certificate_bytes length) length
          (establishedBuffer certificate_bytes length raw_data_buffer raw_buffer) (establishedTrace length raw_data_buffer)
          private_key private_key_bytes priv_len private_key_type := by
  by_cases hnull : raw_data_buffer = NX_NULL
  · simp [ _nx_secure_x509_certificate_initialize, hnull, establishedCertificate,
      establishedBuffer, establishedTrace, rawReference, rawCapacity, NX_SECURE_MEMSET_zero]
  · have hle : ¬ length > buffer_size := by
      rcases hpast with h | h
      · exact absurd h hnull
      · omega
    simp [ _nx_secure_x509_certificate_initialize, hnull, hle, establishedCertificate,
      establishedBuffer, establishedTrace, rawReference, rawCapacity, NX_SECURE_MEMSET_zero,
      NX_SECURE_MEMCPY_take, bytesAt]

/-- The return after a failed certificate parse.  Second half of the initialiser, any certificate. -/
theorem certificate_initialize_parse_der_failure (k : X509Constants) (p : ExternalParsers)
    (cert : NX_SECURE_X509_CERT) (raw_bytes : List UCHAR) (length : Nat)
    (buf : List UCHAR) (tr : List InitEvent)
    (private_key : Nat) (private_key_bytes : Nat → UCHAR) (priv_len : Nat)
    (private_key_type : Nat)
    (hder : (p._nx_secure_x509_certificate_parse cert.nx_secure_x509_certificate_raw_data raw_bytes
      length cert).1 ≠ 0) :
    certificate_initialize_parse k p cert raw_bytes length buf tr private_key
        private_key_bytes priv_len private_key_type
      = ⟨k.NX_SECURE_TLS_INVALID_CERTIFICATE,
          (p._nx_secure_x509_certificate_parse cert.nx_secure_x509_certificate_raw_data raw_bytes
      length cert).2,
          buf,
          tr ++
            [InitEvent.certificate_parse cert.nx_secure_x509_certificate_raw_data length,
             InitEvent.tx_mutex_put]⟩ := by
  simp [certificate_initialize_parse, hder]

/-- The return after a failed certificate parse. -/
theorem certificate_initialize_der_failure (k : X509Constants) (p : ExternalParsers)
    (certificate : NX_SECURE_X509_CERT)
    (certificate_data : Nat) (certificate_bytes : Nat → UCHAR) (length : Nat)
    (raw_data_buffer : Nat) (raw_buffer : List UCHAR) (buffer_size : Nat)
    (private_key : Nat) (private_key_bytes : Nat → UCHAR) (priv_len : Nat)
    (private_key_type : Nat)
    (hpast : pastCapacityCheck length raw_data_buffer buffer_size)
    (hder : (derResult p certificate_data certificate_bytes length raw_data_buffer buffer_size).1 ≠ 0) :
    ( _nx_secure_x509_certificate_initialize k p certificate certificate_data certificate_bytes
        length raw_data_buffer raw_buffer buffer_size private_key private_key_bytes priv_len
        private_key_type)
      = ⟨k.NX_SECURE_TLS_INVALID_CERTIFICATE,
          (derResult p certificate_data certificate_bytes length raw_data_buffer buffer_size).2,
          (establishedBuffer certificate_bytes length raw_data_buffer raw_buffer),
          establishedTrace length raw_data_buffer ++
            [InitEvent.certificate_parse (rawReference certificate_data raw_data_buffer) length,
             InitEvent.tx_mutex_put]⟩ := by
  rw [certificate_initialize_past_check _ _ _ _ _ _ _ _ _ _ _ _ _ hpast]
  exact certificate_initialize_parse_der_failure k p
    (establishedCertificate certificate_data length raw_data_buffer buffer_size)
    (bytesAt certificate_bytes length) length _ _ private_key private_key_bytes priv_len
    private_key_type hder

/-- The return when the certificate parse succeeds and no private key is supplied.  Second half of the initialiser, any certificate. -/
theorem certificate_initialize_parse_no_key (k : X509Constants) (p : ExternalParsers)
    (cert : NX_SECURE_X509_CERT) (raw_bytes : List UCHAR) (length : Nat)
    (buf : List UCHAR) (tr : List InitEvent)
    (private_key : Nat) (private_key_bytes : Nat → UCHAR) (priv_len : Nat)
    (private_key_type : Nat)
    (hder : (p._nx_secure_x509_certificate_parse cert.nx_secure_x509_certificate_raw_data raw_bytes
      length cert).1 = 0)
    (hkey : ¬ keySupplied private_key priv_len) :
    certificate_initialize_parse k p cert raw_bytes length buf tr private_key
        private_key_bytes priv_len private_key_type
      = ⟨NX_SUCCESS,
          { (p._nx_secure_x509_certificate_parse cert.nx_secure_x509_certificate_raw_data raw_bytes
      length cert).2 with
            nx_secure_x509_certificate_is_identity_cert := false
            nx_secure_x509_next_certificate := NX_NULL },
          buf,
          tr ++
            [InitEvent.certificate_parse cert.nx_secure_x509_certificate_raw_data length,
             InitEvent.certificate_store, InitEvent.certificate_store,
            InitEvent.tx_mutex_put]⟩ := by
  simp only [keySupplied] at hkey
  simp [certificate_initialize_parse, hder, hkey]

/-- The return when the certificate parse succeeds and no private key is supplied. -/
theorem certificate_initialize_no_key (k : X509Constants) (p : ExternalParsers)
    (certificate : NX_SECURE_X509_CERT)
    (certificate_data : Nat) (certificate_bytes : Nat → UCHAR) (length : Nat)
    (raw_data_buffer : Nat) (raw_buffer : List UCHAR) (buffer_size : Nat)
    (private_key : Nat) (private_key_bytes : Nat → UCHAR) (priv_len : Nat)
    (private_key_type : Nat)
    (hpast : pastCapacityCheck length raw_data_buffer buffer_size)
    (hder : (derResult p certificate_data certificate_bytes length raw_data_buffer buffer_size).1 = 0)
    (hkey : ¬ keySupplied private_key priv_len) :
    ( _nx_secure_x509_certificate_initialize k p certificate certificate_data certificate_bytes
        length raw_data_buffer raw_buffer buffer_size private_key private_key_bytes priv_len
        private_key_type)
      = ⟨NX_SUCCESS,
          { (derResult p certificate_data certificate_bytes length raw_data_buffer buffer_size).2 with
            nx_secure_x509_certificate_is_identity_cert := false
            nx_secure_x509_next_certificate := NX_NULL },
          (establishedBuffer certificate_bytes length raw_data_buffer raw_buffer),
          establishedTrace length raw_data_buffer ++
            [InitEvent.certificate_parse (rawReference certificate_data raw_data_buffer) length,
             InitEvent.certificate_store, InitEvent.certificate_store,
            InitEvent.tx_mutex_put]⟩ := by
  rw [certificate_initialize_past_check _ _ _ _ _ _ _ _ _ _ _ _ _ hpast]
  exact certificate_initialize_parse_no_key k p
    (establishedCertificate certificate_data length raw_data_buffer buffer_size)
    (bytesAt certificate_bytes length) length _ _ private_key private_key_bytes priv_len
    private_key_type hder hkey

/-- The return when the certificate parse succeeds and a key of a user-defined type is
supplied.  Second half of the initialiser, any certificate. -/
theorem certificate_initialize_parse_user_key (k : X509Constants) (p : ExternalParsers)
    (cert : NX_SECURE_X509_CERT) (raw_bytes : List UCHAR) (length : Nat)
    (buf : List UCHAR) (tr : List InitEvent)
    (private_key : Nat) (private_key_bytes : Nat → UCHAR) (priv_len : Nat)
    (private_key_type : Nat)
    (hder : (p._nx_secure_x509_certificate_parse cert.nx_secure_x509_certificate_raw_data raw_bytes
      length cert).1 = 0)
    (hkey : keySupplied private_key priv_len)
    (huser : private_key_type &&& k.NX_SECURE_X509_KEY_TYPE_USER_DEFINED_MASK ≠ 0) :
    certificate_initialize_parse k p cert raw_bytes length buf tr private_key
        private_key_bytes priv_len private_key_type
      = ⟨NX_SUCCESS,
          { (p._nx_secure_x509_certificate_parse cert.nx_secure_x509_certificate_raw_data raw_bytes
      length cert).2 with
            nx_secure_x509_private_key_type := private_key_type
            nx_secure_x509_private_key :=
              NX_SECURE_X509_PRIVATE_KEY.user_key private_key priv_len
            nx_secure_x509_certificate_is_identity_cert := true
            nx_secure_x509_next_certificate := NX_NULL },
          buf,
          tr ++
            [InitEvent.certificate_parse cert.nx_secure_x509_certificate_raw_data length,
             InitEvent.certificate_store, InitEvent.certificate_store,
            InitEvent.certificate_store, InitEvent.certificate_store, InitEvent.certificate_store,
            InitEvent.tx_mutex_put]⟩ := by
  simp only [keySupplied] at hkey
  simp [certificate_initialize_parse, hder, hkey, huser]

/-- The return when the certificate parse succeeds and a key of a user-defined type is
supplied. -/
theorem certificate_initialize_user_key (k : X509Constants) (p : ExternalParsers)
    (certificate : NX_SECURE_X509_CERT)
    (certificate_data : Nat) (certificate_bytes : Nat → UCHAR) (length : Nat)
    (raw_data_buffer : Nat) (raw_buffer : List UCHAR) (buffer_size : Nat)
    (private_key : Nat) (private_key_bytes : Nat → UCHAR) (priv_len : Nat)
    (private_key_type : Nat)
    (hpast : pastCapacityCheck length raw_data_buffer buffer_size)
    (hder : (derResult p certificate_data certificate_bytes length raw_data_buffer buffer_size).1 = 0)
    (hkey : keySupplied private_key priv_len)
    (huser : private_key_type &&& k.NX_SECURE_X509_KEY_TYPE_USER_DEFINED_MASK ≠ 0) :
    ( _nx_secure_x509_certificate_initialize k p certificate certificate_data certificate_bytes
        length raw_data_buffer raw_buffer buffer_size private_key private_key_bytes priv_len
        private_key_type)
      = ⟨NX_SUCCESS,
          { (derResult p certificate_data certificate_bytes length raw_data_buffer buffer_size).2 with
            nx_secure_x509_private_key_type := private_key_type
            nx_secure_x509_private_key :=
              NX_SECURE_X509_PRIVATE_KEY.user_key private_key priv_len
            nx_secure_x509_certificate_is_identity_cert := true
            nx_secure_x509_next_certificate := NX_NULL },
          (establishedBuffer certificate_bytes length raw_data_buffer raw_buffer),
          establishedTrace length raw_data_buffer ++
            [InitEvent.certificate_parse (rawReference certificate_data raw_data_buffer) length,
             InitEvent.certificate_store, InitEvent.certificate_store,
            InitEvent.certificate_store, InitEvent.certificate_store, InitEvent.certificate_store,
            InitEvent.tx_mutex_put]⟩ := by
  rw [certificate_initialize_past_check _ _ _ _ _ _ _ _ _ _ _ _ _ hpast]
  exact certificate_initialize_parse_user_key k p
    (establishedCertificate certificate_data length raw_data_buffer buffer_size)
    (bytesAt certificate_bytes length) length _ _ private_key private_key_bytes priv_len
    private_key_type hder hkey huser

/-- The return when the certificate parse succeeds and a key of the RSA type is supplied.  Second half of the initialiser, any certificate. -/
theorem certificate_initialize_parse_rsa_key (k : X509Constants) (p : ExternalParsers)
    (cert : NX_SECURE_X509_CERT) (raw_bytes : List UCHAR) (length : Nat)
    (buf : List UCHAR) (tr : List InitEvent)
    (private_key : Nat) (private_key_bytes : Nat → UCHAR) (priv_len : Nat)
    (private_key_type : Nat)
    (hder : (p._nx_secure_x509_certificate_parse cert.nx_secure_x509_certificate_raw_data raw_bytes
      length cert).1 = 0)
    (hkey : keySupplied private_key priv_len)
    (hknown : private_key_type &&& k.NX_SECURE_X509_KEY_TYPE_USER_DEFINED_MASK = 0)
    (hrsa : private_key_type = k.NX_SECURE_X509_KEY_TYPE_RSA_PKCS1_DER) :
    certificate_initialize_parse k p cert raw_bytes length buf tr private_key
        private_key_bytes priv_len private_key_type
      = if (rsaResult p private_key private_key_bytes priv_len).1 ≠ 0 then
          ⟨(rsaResult p private_key private_key_bytes priv_len).1,
          { (p._nx_secure_x509_certificate_parse cert.nx_secure_x509_certificate_raw_data raw_bytes
      length cert).2 with
            nx_secure_x509_private_key_type := private_key_type
            nx_secure_x509_private_key := NX_SECURE_X509_PRIVATE_KEY.rsa_private_key
              (rsaResult p private_key private_key_bytes priv_len).2 },
          buf,
          tr ++
            [InitEvent.certificate_parse cert.nx_secure_x509_certificate_raw_data length,
             InitEvent.certificate_store,
            InitEvent.rsa_private_key_parse private_key priv_len, InitEvent.tx_mutex_put]⟩
        else
          ⟨NX_SUCCESS,
          { (p._nx_secure_x509_certificate_parse cert.nx_secure_x509_certificate_raw_data raw_bytes
      length cert).2 with
            nx_secure_x509_private_key_type := private_key_type
            nx_secure_x509_private_key := NX_SECURE_X509_PRIVATE_KEY.rsa_private_key
              (rsaResult p private_key private_key_bytes priv_len).2
            nx_secure_x509_certificate_is_identity_cert := true
            nx_secure_x509_next_certificate := NX_NULL },
          buf,
          tr ++
            [InitEvent.certificate_parse cert.nx_secure_x509_certificate_raw_data length,
             InitEvent.certificate_store,
            InitEvent.rsa_private_key_parse private_key priv_len,
            InitEvent.certificate_store, InitEvent.certificate_store, InitEvent.tx_mutex_put]⟩ := by
  simp only [keySupplied] at hkey
  by_cases hs : (p._nx_secure_x509_pkcs1_rsa_private_key_parse private_key
      (bytesAt private_key_bytes priv_len) priv_len).1 = 0
  · subst hrsa
    simp [certificate_initialize_parse, rsaResult, hder, hkey, hknown, hs]
  · subst hrsa
    simp [certificate_initialize_parse, rsaResult, hder, hkey, hknown, hs]

/-- The return when the certificate parse succeeds and a key of the RSA type is supplied. -/
theorem certificate_initialize_rsa_key (k : X509Constants) (p : ExternalParsers)
    (certificate : NX_SECURE_X509_CERT)
    (certificate_data : Nat) (certificate_bytes : Nat → UCHAR) (length : Nat)
    (raw_data_buffer : Nat) (raw_buffer : List UCHAR) (buffer_size : Nat)
    (private_key : Nat) (private_key_bytes : Nat → UCHAR) (priv_len : Nat)
    (private_key_type : Nat)
    (hpast : pastCapacityCheck length raw_data_buffer buffer_size)
    (hder : (derResult p certificate_data certificate_bytes length raw_data_buffer buffer_size).1 = 0)
    (hkey : keySupplied private_key priv_len)
    (hknown : private_key_type &&& k.NX_SECURE_X509_KEY_TYPE_USER_DEFINED_MASK = 0)
    (hrsa : private_key_type = k.NX_SECURE_X509_KEY_TYPE_RSA_PKCS1_DER) :
    ( _nx_secure_x509_certificate_initialize k p certificate certificate_data certificate_bytes
        length raw_data_buffer raw_buffer buffer_size private_key private_key_bytes priv_len
        private_key_type)
      = if (rsaResult p private_key private_key_bytes priv_len).1 ≠ 0 then
          ⟨(rsaResult p private_key private_key_bytes priv_len).1,
          { (derResult p certificate_data certificate_bytes length raw_data_buffer buffer_size).2 with
            nx_secure_x509_private_key_type := private_key_type
            nx_secure_x509_private_key := NX_SECURE_X509_PRIVATE_KEY.rsa_private_key
              (rsaResult p private_key private_key_bytes priv_len).2 },
          (establishedBuffer certificate_bytes length raw_data_buffer raw_buffer),
          establishedTrace length raw_data_buffer ++
            [InitEvent.certificate_parse (rawReference certificate_data raw_data_buffer) length,
             InitEvent.certificate_store,
            InitEvent.rsa_private_key_parse private_key priv_len, InitEvent.tx_mutex_put]⟩
        else
          ⟨NX_SUCCESS,
          { (derResult p certificate_data certificate_bytes length raw_data_buffer buffer_size).2 with
            nx_secure_x509_private_key_type := private_key_type
            nx_secure_x509_private_key := NX_SECURE_X509_PRIVATE_KEY.rsa_private_key
              (rsaResult p private_key private_key_bytes priv_len).2
            nx_secure_x509_certificate_is_identity_cert := true
            nx_secure_x509_next_certificate := NX_NULL },
          (establishedBuffer certificate_bytes length raw_data_buffer raw_buffer),
          establishedTrace length raw_data_buffer ++
            [InitEvent.certificate_parse (rawReference certificate_data raw_data_buffer) length,
             InitEvent.certificate_store,
            InitEvent.rsa_private_key_parse private_key priv_len,
            InitEvent.certificate_store, InitEvent.certificate_store, InitEvent.tx_mutex_put]⟩ := by
  rw [certificate_initialize_past_check _ _ _ _ _ _ _ _ _ _ _ _ _ hpast]
  exact certificate_initialize_parse_rsa_key k p
    (establishedCertificate certificate_data length raw_data_buffer buffer_size)
    (bytesAt certificate_bytes length) length _ _ private_key private_key_bytes priv_len
    private_key_type hder hkey hknown hrsa

/-- The return when the certificate parse succeeds and a key of another built-in type is
supplied.  Second half of the initialiser, any certificate. -/
theorem certificate_initialize_parse_other_key (k : X509Constants) (p : ExternalParsers)
    (cert : NX_SECURE_X509_CERT) (raw_bytes : List UCHAR) (length : Nat)
    (buf : List UCHAR) (tr : List InitEvent)
    (private_key : Nat) (private_key_bytes : Nat → UCHAR) (priv_len : Nat)
    (private_key_type : Nat)
    (hder : (p._nx_secure_x509_certificate_parse cert.nx_secure_x509_certificate_raw_data raw_bytes
      length cert).1 = 0)
    (hkey : keySupplied private_key priv_len)
    (hknown : private_key_type &&& k.NX_SECURE_X509_KEY_TYPE_USER_DEFINED_MASK = 0)
    (hother : private_key_type ≠ k.NX_SECURE_X509_KEY_TYPE_RSA_PKCS1_DER) :
    certificate_initialize_parse k p cert raw_bytes length buf tr private_key
        private_key_bytes priv_len private_key_type
      = if k.NX_SECURE_X509_INVALID_PRIVATE_KEY_TYPE ≠ 0 then
          ⟨k.NX_SECURE_X509_INVALID_PRIVATE_KEY_TYPE,
          { (p._nx_secure_x509_certificate_parse cert.nx_secure_x509_certificate_raw_data raw_bytes
      length cert).2 with
            nx_secure_x509_private_key_type := private_key_type },
          buf,
          tr ++
            [InitEvent.certificate_parse cert.nx_secure_x509_certificate_raw_data length,
             InitEvent.certificate_store, InitEvent.tx_mutex_put]⟩
        else
          ⟨NX_SUCCESS,
          { (p._nx_secure_x509_certificate_parse cert.nx_secure_x509_certificate_raw_data raw_bytes
      length cert).2 with
            nx_secure_x509_private_key_type := private_key_type
            nx_secure_x509_certificate_is_identity_cert := true
            nx_secure_x509_next_certificate := NX_NULL },
          buf,
          tr ++
            [InitEvent.certificate_parse cert.nx_secure_x509_certificate_raw_data length,
             InitEvent.certificate_store, InitEvent.certificate_store,
            InitEvent.certificate_store, InitEvent.tx_mutex_put]⟩ := by
  simp only [keySupplied] at hkey
  by_cases hs : k.NX_SECURE_X509_INVALID_PRIVATE_KEY_TYPE = 0
  · simp [certificate_initialize_parse, hder, hkey, hknown, hother, hs]
  · simp [certificate_initialize_parse, hder, hkey, hknown, hother, hs]

/-- The return when the certificate parse succeeds and a key of another built-in type is
supplied. -/
theorem certificate_initialize_other_key (k : X509Constants) (p : ExternalParsers)
    (certificate : NX_SECURE_X509_CERT)
    (certificate_data : Nat) (certificate_bytes : Nat → UCHAR) (length : Nat)
    (raw_data_buffer : Nat) (raw_buffer : List UCHAR) (buffer_size : Nat)
    (private_key : Nat) (private_key_bytes : Nat → UCHAR) (priv_len : Nat)
    (private_key_type : Nat)
    (hpast : pastCapacityCheck length raw_data_buffer buffer_size)
    (hder : (derResult p certificate_data certificate_bytes length raw_data_buffer buffer_size).1 = 0)
    (hkey : keySupplied private_key priv_len)
    (hknown : private_key_type &&& k.NX_SECURE_X509_KEY_TYPE_USER_DEFINED_MASK = 0)
    (hother : private_key_type ≠ k.NX_SECURE_X509_KEY_TYPE_RSA_PKCS1_DER) :
    ( _nx_secure_x509_certificate_initialize k p certificate certificate_data certificate_bytes
        length raw_data_buffer raw_buffer buffer_size private_key private_key_bytes priv_len
        private_key_type)
      = if k.NX_SECURE_X509_INVALID_PRIVATE_KEY_TYPE ≠ 0 then
          ⟨k.NX_SECURE_X509_INVALID_PRIVATE_KEY_TYPE,
          { (derResult p certificate_data certificate_bytes length raw_data_buffer buffer_size).2 with
            nx_secure_x509_private_key_type := private_key_type },
          (establishedBuffer certificate_bytes length raw_data_buffer raw_buffer),
          establishedTrace length raw_data_buffer ++
            [InitEvent.certificate_parse (rawReference certificate_data raw_data_buffer) length,
             InitEvent.certificate_store, InitEvent.tx_mutex_put]⟩
        else
          ⟨NX_SUCCESS,
          { (derResult p certificate_data certificate_bytes length raw_data_buffer buffer_size).2 with
            nx_secure_x509_private_key_type := private_key_type
            nx_secure_x509_certificate_is_identity_cert := true
            nx_secure_x509_next_certificate := NX_NULL },
          (establishedBuffer certificate_bytes length raw_data_buffer raw_buffer),
          establishedTrace length raw_data_buffer ++
            [InitEvent.certificate_parse (rawReference certificate_data raw_data_buffer) length,
             InitEvent.certificate_store, InitEvent.certificate_store,
            InitEvent.certificate_store, InitEvent.tx_mutex_put]⟩ := by
  rw [certificate_initialize_past_check _ _ _ _ _ _ _ _ _ _ _ _ _ hpast]
  exact certificate_initialize_parse_other_key k p
    (establishedCertificate certificate_data length raw_data_buffer buffer_size)
    (bytesAt certificate_bytes length) length _ _ private_key private_key_bytes priv_len
    private_key_type hder hkey hknown hother

/-- The return when the capacity check fails. -/
theorem certificate_initialize_no_space (k : X509Constants) (p : ExternalParsers)
    (certificate : NX_SECURE_X509_CERT)
    (certificate_data : Nat) (certificate_bytes : Nat → UCHAR) (length : Nat)
    (raw_data_buffer : Nat) (raw_buffer : List UCHAR) (buffer_size : Nat)
    (private_key : Nat) (private_key_bytes : Nat → UCHAR) (priv_len : Nat)
    (private_key_type : Nat)
    (hfail : ¬ pastCapacityCheck length raw_data_buffer buffer_size) :
    ( _nx_secure_x509_certificate_initialize k p certificate certificate_data certificate_bytes
        length raw_data_buffer raw_buffer buffer_size private_key private_key_bytes priv_len
        private_key_type)
      = ⟨k.NX_SECURE_TLS_INSUFFICIENT_CERT_SPACE,
          { NX_SECURE_X509_CERT.zero with nx_secure_x509_certificate_raw_data_length := length },
          raw_buffer,
          [InitEvent.tx_mutex_get, InitEvent.certificate_store, InitEvent.certificate_store,
            InitEvent.tx_mutex_put]⟩ := by
  simp only [pastCapacityCheck, not_or, not_le] at hfail
  have hgt : length > buffer_size := hfail.2
  simp [ _nx_secure_x509_certificate_initialize, hfail.1, hgt, NX_SECURE_MEMSET_zero]

/-- The user-defined mask 0xFFFF0000 selects the high 16 bits of a 32-bit value. -/
theorem and_user_defined_mask (t : Nat) : t &&& 0xFFFF0000 = highHalf t * 65536 := by
  apply Nat.eq_of_testBit_eq
  intro i
  have hM : (0xFFFF0000 : Nat) = 2 ^ 16 * (2 ^ 16 - 1) := by norm_num
  have h1 : (65536 : Nat) = 2 ^ 16 := by norm_num
  rw [Nat.testBit_and, hM, highHalf, h1, Nat.mul_comm (t / 2 ^ 16 % 2 ^ 16) (2 ^ 16),
    Nat.testBit_mul_pow_two, Nat.testBit_mul_pow_two, Nat.testBit_two_pow_sub_one,
    Nat.testBit_mod_two_pow, ← Nat.shiftRight_eq_div_pow, Nat.testBit_shiftRight]
  by_cases h : 16 ≤ i
  · have : 16 + (i - 16) = i := by omega
    simp [h, this, Bool.and_comm]
  · simp [h]

/-- The test of the code for a user-defined key type, read on the high 16 bits. -/
theorem user_defined_test_iff (k : X509Constants) (t : Nat)
    (hmask : k.NX_SECURE_X509_KEY_TYPE_USER_DEFINED_MASK = 0xFFFF0000) :
    t &&& k.NX_SECURE_X509_KEY_TYPE_USER_DEFINED_MASK = 0 ↔ highHalf t = 0 := by
  rw [hmask, and_user_defined_mask]
  omega

/-- Past the capacity check, whatever the path: the events are those of the first half,
the certificate parse, then stores and at most the RSA parse, and the release at the end;
the backing buffer is as the first half left it; the raw data fields of the certificate are
as the certificate parser left them. -/
theorem certificate_initialize_shape (k : X509Constants) (p : ExternalParsers)
    (certificate : NX_SECURE_X509_CERT)
    (certificate_data : Nat) (certificate_bytes : Nat → UCHAR) (length : Nat)
    (raw_data_buffer : Nat) (raw_buffer : List UCHAR) (buffer_size : Nat)
    (private_key : Nat) (private_key_bytes : Nat → UCHAR) (priv_len : Nat)
    (private_key_type : Nat)
    (hpast : pastCapacityCheck length raw_data_buffer buffer_size) :
    ∃ tail : List InitEvent,
      ( _nx_secure_x509_certificate_initialize k p certificate certificate_data certificate_bytes
        length raw_data_buffer raw_buffer buffer_size private_key private_key_bytes priv_len
        private_key_type).trace
        = establishedTrace length raw_data_buffer ++
            InitEvent.certificate_parse (rawReference certificate_data raw_data_buffer) length
              :: tail ++ [InitEvent.tx_mutex_put] ∧
      (∀ ev ∈ tail, ev = InitEvent.certificate_store ∨
        ev = InitEvent.rsa_private_key_parse private_key priv_len) ∧
      ( _nx_secure_x509_certificate_initialize k p certificate certificate_data certificate_bytes
        length raw_data_buffer raw_buffer buffer_size private_key private_key_bytes priv_len
        private_key_type).raw_buffer
        = establishedBuffer certificate_bytes length raw_data_buffer raw_buffer ∧
      ( _nx_secure_x509_certificate_initialize k p certificate certificate_data certificate_bytes
        length raw_data_buffer raw_buffer buffer_size private_key private_key_bytes priv_len
        private_key_type).certificate.nx_secure_x509_certificate_raw_data
        = (derResult p certificate_data certificate_bytes length raw_data_buffer buffer_size).2.nx_secure_x509_certificate_raw_data ∧
      ( _nx_secure_x509_certificate_initialize k p certificate certificate_data certificate_bytes
        length raw_data_buffer raw_buffer buffer_size private_key private_key_bytes priv_len
        private_key_type).certificate.nx_secure_x509_certificate_raw_buffer_size
        = (derResult p certificate_data certificate_bytes length raw_data_buffer buffer_size).2.nx_secure_x509_certificate_raw_buffer_size ∧
      ( _nx_secure_x509_certificate_initialize k p certificate certificate_data certificate_bytes
        length raw_data_buffer raw_buffer buffer_size private_key private_key_bytes priv_len
        private_key_type).certificate.nx_secure_x509_certificate_raw_data_length
        = (derResult p certificate_data certificate_bytes length raw_data_buffer buffer_size).2.nx_secure_x509_certificate_raw_data_length := by
  by_cases hder : (derResult p certificate_data certificate_bytes length raw_data_buffer buffer_size).1 = 0
  · by_cases hkey : keySupplied private_key priv_len
    · by_cases hknown : private_key_type &&& k.NX_SECURE_X509_KEY_TYPE_USER_DEFINED_MASK = 0
      · by_cases hrsa : private_key_type = k.NX_SECURE_X509_KEY_TYPE_RSA_PKCS1_DER
        · rw [certificate_initialize_rsa_key _ _ _ _ _ _ _ _ _ _ _ _ _ hpast hder hkey hknown hrsa]
          split
          · exact ⟨[InitEvent.certificate_store,
              InitEvent.rsa_private_key_parse private_key priv_len], by simp, by simp,
              rfl, rfl, rfl, rfl⟩
          · exact ⟨[InitEvent.certificate_store,
              InitEvent.rsa_private_key_parse private_key priv_len, InitEvent.certificate_store,
              InitEvent.certificate_store], by simp, by simp, rfl, rfl, rfl, rfl⟩
        · rw [certificate_initialize_other_key _ _ _ _ _ _ _ _ _ _ _ _ _
              hpast hder hkey hknown hrsa]
          split
          · exact ⟨[InitEvent.certificate_store], by simp, by simp, rfl, rfl, rfl, rfl⟩
          · exact ⟨[InitEvent.certificate_store, InitEvent.certificate_store,
              InitEvent.certificate_store], by simp, by simp, rfl, rfl, rfl, rfl⟩
      · rw [certificate_initialize_user_key _ _ _ _ _ _ _ _ _ _ _ _ _ hpast hder hkey hknown]
        exact ⟨[InitEvent.certificate_store, InitEvent.certificate_store,
          InitEvent.certificate_store, InitEvent.certificate_store,
          InitEvent.certificate_store], by simp, by simp, rfl, rfl, rfl, rfl⟩
    · rw [certificate_initialize_no_key _ _ _ _ _ _ _ _ _ _ _ _ _ hpast hder hkey]
      exact ⟨[InitEvent.certificate_store, InitEvent.certificate_store], by simp, by simp,
        rfl, rfl, rfl, rfl⟩
  · rw [certificate_initialize_der_failure _ _ _ _ _ _ _ _ _ _ _ _ _ hpast hder]
    exact ⟨[], by simp, by simp, rfl, rfl, rfl, rfl⟩

/-- When the certificate parser leaves the raw data fields alone, they are, after its call,
what the first half of the initialiser stored. -/
theorem derResult_raw_fields (p : ExternalParsers) (certificate_data : Nat)
    (certificate_bytes : Nat → UCHAR) (length raw_data_buffer buffer_size : Nat)
    (hkeep : ParserKeepsRawFields p) :
    (derResult p certificate_data certificate_bytes length raw_data_buffer
        buffer_size).2.nx_secure_x509_certificate_raw_data
      = rawReference certificate_data raw_data_buffer ∧
    (derResult p certificate_data certificate_bytes length raw_data_buffer
        buffer_size).2.nx_secure_x509_certificate_raw_buffer_size
      = rawCapacity length raw_data_buffer buffer_size ∧
    (derResult p certificate_data certificate_bytes length raw_data_buffer
        buffer_size).2.nx_secure_x509_certificate_raw_data_length = length :=
  hkeep (rawReference certificate_data raw_data_buffer) (bytesAt certificate_bytes length)
    length (establishedCertificate certificate_data length raw_data_buffer buffer_size)

/-- The sample certificate parser leaves the raw data fields as they are. -/
theorem sampleParsers_keeps_raw_fields : ParserKeepsRawFields sampleParsers := by
  intro raw_data bytes length cert
  simp only [sampleParsers]
  split <;> exact ⟨rfl, rfl, rfl⟩

/-- The sample certificate parser leaves the identity flag as it is. -/
theorem sampleParsers_keeps_flag : ParserKeepsFlag sampleParsers := by
  intro raw_data bytes length cert
  simp only [sampleParsers]
  split <;> rfl

/-- The sample certificate parser leaves the next-certificate link as it is. -/
theorem sampleParsers_keeps_link : ParserKeepsLink sampleParsers := by
  intro raw_data bytes length cert
  simp only [sampleParsers]
  split <;> rfl

/-! ## The certificate initialiser: the claims, continued -/

/-- C12: in a call that gets past the capacity check, with a certificate parser that leaves
the raw data fields alone: without backing buffer the raw data reference is the caller's
certificate data pointer, the capacity is the length and nothing is copied; with a backing
buffer the raw data reference is the buffer, the capacity is the buffer size, the first
`length` bytes of the buffer are the certificate bytes and the rest of the buffer is as it
was; in both cases the raw data length is the length, and the certificate parser is called
once, on that reference and that length. -/
theorem certificate_initialize_ownership (k : X509Constants) (p : ExternalParsers)
    (certificate : NX_SECURE_X509_CERT)
    (certificate_data : Nat) (certificate_bytes : Nat → UCHAR) (length : Nat)
    (raw_data_buffer : Nat) (raw_buffer : List UCHAR) (buffer_size : Nat)
    (private_key : Nat) (private_key_bytes : Nat → UCHAR) (priv_len : Nat)
    (private_key_type : Nat)
    (hpast : pastCapacityCheck length raw_data_buffer buffer_size)
    (hkeep : ParserKeepsRawFields p) :
    (raw_data_buffer = NX_NULL →
      ( _nx_secure_x509_certificate_initialize k p certificate certificate_data certificate_bytes
        length raw_data_buffer raw_buffer buffer_size private_key private_key_bytes priv_len
        private_key_type).certificate.nx_secure_x509_certificate_raw_data = certificate_data ∧
      ( _nx_secure_x509_certificate_initialize k p certificate certificate_data certificate_bytes
        length raw_data_buffer raw_buffer buffer_size private_key private_key_bytes priv_len
        private_key_type).certificate.nx_secure_x509_certificate_raw_buffer_size = length ∧
      ( _nx_secure_x509_certificate_initialize k p certificate certificate_data certificate_bytes
        length raw_data_buffer raw_buffer buffer_size private_key private_key_bytes priv_len
        private_key_type).raw_buffer = raw_buffer ∧
      ∀ n, InitEvent.raw_buffer_copy n ∉ ( _nx_secure_x509_certificate_initialize k p certificate certificate_data certificate_bytes
        length raw_data_buffer raw_buffer buffer_size private_key private_key_bytes priv_len
        private_key_type).trace) ∧
    (raw_data_buffer ≠ NX_NULL →
      ( _nx_secure_x509_certificate_initialize k p certificate certificate_data certificate_bytes
        length raw_data_buffer raw_buffer buffer_size private_key private_key_bytes priv_len
        private_key_type).certificate.nx_secure_x509_certificate_raw_data = raw_data_buffer ∧
      ( _nx_secure_x509_certificate_initialize k p certificate certificate_data certificate_bytes
        length raw_data_buffer raw_buffer buffer_size private_key private_key_bytes priv_len
        private_key_type).certificate.nx_secure_x509_certificate_raw_buffer_size = buffer_size ∧
      ( _nx_secure_x509_certificate_initialize k p certificate certificate_data certificate_bytes
        length raw_data_buffer raw_buffer buffer_size private_key private_key_bytes priv_len
        private_key_type).raw_buffer.take length = bytesAt certificate_bytes length ∧
      ( _nx_secure_x509_certificate_initialize k p certificate certificate_data certificate_bytes
        length raw_data_buffer raw_buffer buffer_size private_key private_key_bytes priv_len
        private_key_type).raw_buffer.drop length = raw_buffer.drop length) ∧
    ( _nx_secure_x509_certificate_initialize k p certificate certificate_data certificate_bytes
        length raw_data_buffer raw_buffer buffer_size private_key private_key_bytes priv_len
        private_key_type).certificate.nx_secure_x509_certificate_raw_data_length = length ∧
    ( _nx_secure_x509_certificate_initialize k p certificate certificate_data certificate_bytes
        length raw_data_buffer raw_buffer buffer_size private_key private_key_bytes priv_len
        private_key_type).trace.count
        (InitEvent.certificate_parse (rawReference certificate_data raw_data_buffer) length) = 1 ∧
    ∀ a b, InitEvent.certificate_parse a b ∈ ( _nx_secure_x509_certificate_initialize k p certificate certificate_data certificate_bytes
        length raw_data_buffer raw_buffer buffer_size private_key private_key_bytes priv_len
        private_key_type).trace →
      a = rawReference certificate_data raw_data_buffer ∧ b = length := by
  obtain ⟨tail, htrace, htail, hbuf, href, hcap, hlen⟩ := certificate_initialize_shape k p certificate certificate_data certificate_bytes length
      raw_data_buffer raw_buffer buffer_size private_key private_key_bytes priv_len
      private_key_type hpast
  obtain ⟨hk1, hk2, hk3⟩ := derResult_raw_fields p certificate_data certificate_bytes length
    raw_data_buffer buffer_size hkeep
  have hcount : ∀ ev, ev ≠ InitEvent.certificate_store →
      ev ≠ InitEvent.rsa_private_key_parse private_key priv_len → ev ∉ tail := by
    intro ev h1 h2 hmem
    rcases htail ev hmem with h | h
    · exact h1 h
    · exact h2 h
  rw [htrace, hbuf, href, hcap, hlen, hk1, hk2, hk3]
  refine ⟨?_, ?_, rfl, ?_, ?_⟩
  · intro hnull
    refine ⟨by simp [rawReference, hnull], by simp [rawCapacity, hnull],
      by simp [establishedBuffer, hnull], ?_⟩
    intro n hmem
    simp only [establishedTrace, hnull, if_true, List.append_nil, List.mem_append,
      List.mem_cons, List.mem_singleton, reduceCtorEq, List.not_mem_nil, or_false,
      false_or] at hmem
    exact hcount _ (by simp) (by simp) hmem
  · intro hbuffer
    refine ⟨by simp [rawReference, hbuffer], by simp [rawCapacity, hbuffer], ?_, ?_⟩
    · simp only [establishedBuffer, hbuffer, if_false]
      exact NX_SECURE_MEMCPY_take _ _ _
    · simp [establishedBuffer, hbuffer, NX_SECURE_MEMCPY]
  · have h0 : tail.count (InitEvent.certificate_parse (rawReference certificate_data raw_data_buffer) length) = 0 :=
      List.count_eq_zero.mpr (hcount _ (by simp) (by simp))
    simp only [establishedTrace]
    split <;> simp [List.count_cons, h0]
  · intro a b hmem
    have hne : InitEvent.certificate_parse a b ∉ tail := hcount _ (by simp) (by simp)
    simp only [establishedTrace] at hmem
    split at hmem <;> simpa [hne] using hmem

set_option maxRecDepth 8192 in
/-- Scenario C: no backing buffer, length 500, data that parses, no private key: success,
identity flag false, raw data reference equal to the caller's pointer 0x1000, capacity 500.
With a backing buffer of 8 bytes and length 6, the reference is the buffer and the buffer
holds the six certificate bytes followed by its two old bytes. -/
theorem certificate_initialize_ownership_witness :
    (( _nx_secure_x509_certificate_initialize sampleX509Constants sampleParsers usedCertificate 0x1000
        sampleCertificateBytes 500 NX_NULL [] 0 NX_NULL (memOf []) 0 0).status = NX_SUCCESS ∧
     ( _nx_secure_x509_certificate_initialize sampleX509Constants sampleParsers usedCertificate 0x1000
        sampleCertificateBytes 500 NX_NULL [] 0 NX_NULL (memOf []) 0 0).certificate.nx_secure_x509_certificate_is_identity_cert = false ∧
     ( _nx_secure_x509_certificate_initialize sampleX509Constants sampleParsers usedCertificate 0x1000
        sampleCertificateBytes 500 NX_NULL [] 0 NX_NULL (memOf []) 0 0).certificate.nx_secure_x509_certificate_raw_data = 0x1000 ∧
     ( _nx_secure_x509_certificate_initialize sampleX509Constants sampleParsers usedCertificate 0x1000
        sampleCertificateBytes 500 NX_NULL [] 0 NX_NULL (memOf []) 0 0).certificate.nx_secure_x509_certificate_raw_buffer_size = 500 ∧
     ( _nx_secure_x509_certificate_initialize sampleX509Constants sampleParsers usedCertificate 0x1000
        sampleCertificateBytes 500 NX_NULL [] 0 NX_NULL (memOf []) 0 0).certificate.nx_secure_x509_certificate_raw_data_length = 500) ∧
    (( _nx_secure_x509_certificate_initialize sampleX509Constants sampleParsers usedCertificate 0x1000
        sampleCertificateBytes 6 0x2000 (List.replicate 8 0xFF) 8 NX_NULL (memOf []) 0 0).certificate.nx_secure_x509_certificate_raw_data = 0x2000 ∧
     ( _nx_secure_x509_certificate_initialize sampleX509Constants sampleParsers usedCertificate 0x1000
        sampleCertificateBytes 6 0x2000 (List.replicate 8 0xFF) 8 NX_NULL (memOf []) 0 0).raw_buffer = [0x30, 0x82, 0x01, 0xF0, 0x30, 0x82, 0xFF, 0xFF]) :=
  ⟨⟨by decide, by decide,
    ((certificate_initialize_ownership sampleX509Constants sampleParsers usedCertificate 0x1000
        sampleCertificateBytes 500 NX_NULL [] 0 NX_NULL (memOf []) 0 0 (by decide) sampleParsers_keeps_raw_fields).1
      rfl).1,
    ((certificate_initialize_ownership sampleX509Constants sampleParsers usedCertificate 0x1000
        sampleCertificateBytes 500 NX_NULL [] 0 NX_NULL (memOf []) 0 0 (by decide) sampleParsers_keeps_raw_fields).1
      rfl).2.1,
    (certificate_initialize_ownership sampleX509Constants sampleParsers usedCertificate 0x1000
        sampleCertificateBytes 500 NX_NULL [] 0 NX_NULL (memOf []) 0 0 (by decide) sampleParsers_keeps_raw_fields).2.2.1⟩,
   ⟨((certificate_initialize_ownership sampleX509Constants sampleParsers usedCertificate 0x1000
        sampleCertificateBytes 6 0x2000 (List.replicate 8 0xFF) 8 NX_NULL (memOf []) 0 0 (by decide) sampleParsers_keeps_raw_fields).2.1
      (by decide)).1,
    by decide⟩⟩

/-- C13: in a call that gets past the capacity check, when the certificate parser returns
a status other than zero, whichever it is, the initialiser returns
`NX_SECURE_TLS_INVALID_CERTIFICATE`, the certificate is as the parser left it (no key type,
no key, no identity flag stored by the initialiser, so the flag is false when the parser
leaves it alone), the events after the first half are the certificate parse and the release
(no RSA parse), and the outcome does not depend on the key arguments. -/
theorem certificate_initialize_invalid_certificate (k : X509Constants) (p : ExternalParsers)
    (certificate : NX_SECURE_X509_CERT)
    (certificate_data : Nat) (certificate_bytes : Nat → UCHAR) (length : Nat)
    (raw_data_buffer : Nat) (raw_buffer : List UCHAR) (buffer_size : Nat)
    (private_key : Nat) (private_key_bytes : Nat → UCHAR) (priv_len : Nat)
    (private_key_type : Nat)
    (hpast : pastCapacityCheck length raw_data_buffer buffer_size)
    (hder : (derResult p certificate_data certificate_bytes length raw_data_buffer buffer_size).1 ≠ 0) :
    ( _nx_secure_x509_certificate_initialize k p certificate certificate_data certificate_bytes
        length raw_data_buffer raw_buffer buffer_size private_key private_key_bytes priv_len
        private_key_type).status = k.NX_SECURE_TLS_INVALID_CERTIFICATE ∧
    ( _nx_secure_x509_certificate_initialize k p certificate certificate_data certificate_bytes
        length raw_data_buffer raw_buffer buffer_size private_key private_key_bytes priv_len
        private_key_type).certificate = (derResult p certificate_data certificate_bytes length raw_data_buffer buffer_size).2 ∧
    (ParserKeepsFlag p →
      ( _nx_secure_x509_certificate_initialize k p certificate certificate_data certificate_bytes
        length raw_data_buffer raw_buffer buffer_size private_key private_key_bytes priv_len
        private_key_type).certificate.nx_secure_x509_certificate_is_identity_cert = false) ∧
    ( _nx_secure_x509_certificate_initialize k p certificate certificate_data certificate_bytes
        length raw_data_buffer raw_buffer buffer_size private_key private_key_bytes priv_len
        private_key_type).trace
      = establishedTrace length raw_data_buffer ++
          [InitEvent.certificate_parse (rawReference certificate_data raw_data_buffer) length, InitEvent.tx_mutex_put] ∧
    ∀ (private_key' : Nat) (private_key_bytes' : Nat → UCHAR)
      (priv_len' private_key_type' : Nat),
      _nx_secure_x509_certificate_initialize k p certificate certificate_data certificate_bytes
        length raw_data_buffer raw_buffer buffer_size private_key' private_key_bytes' priv_len'
        private_key_type'
      = ( _nx_secure_x509_certificate_initialize k p certificate certificate_data certificate_bytes
        length raw_data_buffer raw_buffer buffer_size private_key private_key_bytes priv_len
        private_key_type) := by
  rw [certificate_initialize_der_failure _ _ _ _ _ _ _ _ _ _ _ _ _ hpast hder]
  refine ⟨rfl, rfl, ?_, rfl, ?_⟩
  · intro hflag
    exact hflag (rawReference certificate_data raw_data_buffer) (bytesAt certificate_bytes length)
      length (establishedCertificate certificate_data length raw_data_buffer buffer_size)
  · intro private_key' private_key_bytes' priv_len' private_key_type'
    exact certificate_initialize_der_failure _ _ _ _ _ _ _ _ _ _ _ _ _ hpast hder

/-- Certificate data that does not start with the DER sequence tag, with an RSA key
supplied: the sample parser fails with 0x181 and the initialiser returns
`NX_SECURE_TLS_INVALID_CERTIFICATE` (0x112), with identity flag false. -/
theorem certificate_initialize_invalid_certificate_witness :
    ( _nx_secure_x509_certificate_initialize sampleX509Constants sampleParsers usedCertificate 0x1000
        (memOf [0x31, 0x00]) 2 NX_NULL [] 0 0x6000 (memOf [1, 2, 3]) 3 1).status = 0x112 ∧
    ( _nx_secure_x509_certificate_initialize sampleX509Constants sampleParsers usedCertificate 0x1000
        (memOf [0x31, 0x00]) 2 NX_NULL [] 0 0x6000 (memOf [1, 2, 3]) 3 1).certificate.nx_secure_x509_certificate_is_identity_cert = false :=
  ⟨(certificate_initialize_invalid_certificate sampleX509Constants sampleParsers usedCertificate 0x1000
        (memOf [0x31, 0x00]) 2 NX_NULL [] 0 0x6000 (memOf [1, 2, 3]) 3 1 (by decide) (by decide)).1,
   (certificate_initialize_invalid_certificate sampleX509Constants sampleParsers usedCertificate 0x1000
        (memOf [0x31, 0x00]) 2 NX_NULL [] 0 0x6000 (memOf [1, 2, 3]) 3 1 (by decide) (by decide)).2.2.1
      sampleParsers_keeps_flag⟩

/-- C14: when the certificate parse succeeds, a private key is supplied (pointer not null,
length positive), the mask is 0xFFFF0000, and the key type has its high 16 bits zero and is
not the RSA type (it may be the value `NX_SECURE_X509_KEY_TYPE_NONE`), the initialiser
returns `NX_SECURE_X509_INVALID_PRIVATE_KEY_TYPE` and the RSA parser is not called. -/
theorem certificate_initialize_invalid_key_type (k : X509Constants) (p : ExternalParsers)
    (certificate : NX_SECURE_X509_CERT)
    (certificate_data : Nat) (certificate_bytes : Nat → UCHAR) (length : Nat)
    (raw_data_buffer : Nat) (raw_buffer : List UCHAR) (buffer_size : Nat)
    (private_key : Nat) (private_key_bytes : Nat → UCHAR) (priv_len : Nat)
    (private_key_type : Nat)
    (hpast : pastCapacityCheck length raw_data_buffer buffer_size)
    (hder : (derResult p certificate_data certificate_bytes length raw_data_buffer buffer_size).1 = 0)
    (hkey : keySupplied private_key priv_len)
    (hmask : k.NX_SECURE_X509_KEY_TYPE_USER_DEFINED_MASK = 0xFFFF0000)
    (hknown : highHalf private_key_type = 0)
    (hother : private_key_type ≠ k.NX_SECURE_X509_KEY_TYPE_RSA_PKCS1_DER) :
    ( _nx_secure_x509_certificate_initialize k p certificate certificate_data certificate_bytes
        length raw_data_buffer raw_buffer buffer_size private_key private_key_bytes priv_len
        private_key_type).status = k.NX_SECURE_X509_INVALID_PRIVATE_KEY_TYPE ∧
    ∀ a b, InitEvent.rsa_private_key_parse a b ∉ ( _nx_secure_x509_certificate_initialize k p certificate certificate_data certificate_bytes
        length raw_data_buffer raw_buffer buffer_size private_key private_key_bytes priv_len
        private_key_type).trace := by
  have hk := (user_defined_test_iff k private_key_type hmask).mpr hknown
  rw [certificate_initialize_other_key _ _ _ _ _ _ _ _ _ _ _ _ _ hpast hder hkey hk hother]
  split
  · refine ⟨rfl, ?_⟩
    intro a b
    simp only [establishedTrace]
    split <;> simp
  · rename_i hzero
    refine ⟨?_, ?_⟩
    · simp only [ne_eq, not_not] at hzero
      rw [hzero]
      rfl
    · intro a b
      simp only [establishedTrace]
      split <;> simp

/-- A key of type `NX_SECURE_X509_KEY_TYPE_NONE` (0) supplied with a certificate that
parses: the initialiser returns `NX_SECURE_X509_INVALID_PRIVATE_KEY_TYPE` (0x18B). -/
theorem certificate_initialize_invalid_key_type_witness :
    ( _nx_secure_x509_certificate_initialize sampleX509Constants sampleParsers usedCertificate 0x1000
        sampleCertificateBytes 6 NX_NULL [] 0 0x6000 (memOf [1, 2, 3]) 3 0).status = 0x18B ∧
    sampleX509Constants.NX_SECURE_X509_KEY_TYPE_NONE = 0 :=
  ⟨(certificate_initialize_invalid_key_type sampleX509Constants sampleParsers usedCertificate 0x1000
        sampleCertificateBytes 6 NX_NULL [] 0 0x6000 (memOf [1, 2, 3]) 3 0 (by decide) (by decide) (by decide) rfl
      (by decide) (by decide)).1,
   rfl⟩

/-- C15: when the certificate parse succeeds, a private key is supplied (pointer not null,
length positive) and the key type is the RSA type (a built-in type: the mask is 0xFFFF0000
and the high 16 bits of the RSA tag are zero), the RSA parser is called on the key pointer
and length, and the initialiser returns the status the RSA parser returns on the key bytes
and length: a failure status as it is (the identity flag is then as the certificate parser
left it), and on parser success `NX_SUCCESS` with the identity flag true. -/
theorem certificate_initialize_rsa_status (k : X509Constants) (p : ExternalParsers)
    (certificate : NX_SECURE_X509_CERT)
    (certificate_data : Nat) (certificate_bytes : Nat → UCHAR) (length : Nat)
    (raw_data_buffer : Nat) (raw_buffer : List UCHAR) (buffer_size : Nat)
    (private_key : Nat) (private_key_bytes : Nat → UCHAR) (priv_len : Nat)
    (private_key_type : Nat)
    (hpast : pastCapacityCheck length raw_data_buffer buffer_size)
    (hder : (derResult p certificate_data certificate_bytes length raw_data_buffer buffer_size).1 = 0)
    (hkey : keySupplied private_key priv_len)
    (hmask : k.NX_SECURE_X509_KEY_TYPE_USER_DEFINED_MASK = 0xFFFF0000)
    (hbuiltin : highHalf k.NX_SECURE_X509_KEY_TYPE_RSA_PKCS1_DER = 0)
    (hrsa : private_key_type = k.NX_SECURE_X509_KEY_TYPE_RSA_PKCS1_DER) :
    ( _nx_secure_x509_certificate_initialize k p certificate certificate_data certificate_bytes
        length raw_data_buffer raw_buffer buffer_size private_key private_key_bytes priv_len
        private_key_type).status = (rsaResult p private_key private_key_bytes priv_len).1 ∧
    ((rsaResult p private_key private_key_bytes priv_len).1 = 0 →
      ( _nx_secure_x509_certificate_initialize k p certificate certificate_data certificate_bytes
        length raw_data_buffer raw_buffer buffer_size private_key private_key_bytes priv_len
        private_key_type).status = NX_SUCCESS ∧
      ( _nx_secure_x509_certificate_initialize k p certificate certificate_data certificate_bytes
        length raw_data_buffer raw_buffer buffer_size private_key private_key_bytes priv_len
        private_key_type).certificate.nx_secure_x509_certificate_is_identity_cert = true) ∧
    ((rsaResult p private_key private_key_bytes priv_len).1 ≠ 0 →
      ( _nx_secure_x509_certificate_initialize k p certificate certificate_data certificate_bytes
        length raw_data_buffer raw_buffer buffer_size private_key private_key_bytes priv_len
        private_key_type).certificate.nx_secure_x509_certificate_is_identity_cert
        = (derResult p certificate_data certificate_bytes length raw_data_buffer buffer_size).2.nx_secure_x509_certificate_is_identity_cert) ∧
    InitEvent.rsa_private_key_parse private_key priv_len ∈ ( _nx_secure_x509_certificate_initialize k p certificate certificate_data certificate_bytes
        length raw_data_buffer raw_buffer buffer_size private_key private_key_bytes priv_len
        private_key_type).trace := by
  have hk := (user_defined_test_iff k private_key_type hmask).mpr (hrsa ▸ hbuiltin)
  rw [certificate_initialize_rsa_key _ _ _ _ _ _ _ _ _ _ _ _ _ hpast hder hkey hk hrsa]
  split
  · rename_i hfail
    exact ⟨rfl, fun h => absurd h hfail, fun _ => rfl, by simp⟩
  · rename_i hok
    simp only [ne_eq, not_not] at hok
    exact ⟨hok.symm ▸ rfl, fun _ => ⟨rfl, rfl⟩, fun h => absurd hok h, by simp⟩

/-- An RSA key supplied with a certificate that parses: with an RSA parser that accepts,
success and identity flag true; with one that fails with 0x187, the initialiser returns
0x187. -/
theorem certificate_initialize_rsa_status_witness :
    (( _nx_secure_x509_certificate_initialize sampleX509Constants sampleParsers usedCertificate 0x1000
        sampleCertificateBytes 6 NX_NULL [] 0 0x6000 (memOf [1, 2, 3]) 3 1).status = NX_SUCCESS ∧
     ( _nx_secure_x509_certificate_initialize sampleX509Constants sampleParsers usedCertificate 0x1000
        sampleCertificateBytes 6 NX_NULL [] 0 0x6000 (memOf [1, 2, 3]) 3 1).certificate.nx_secure_x509_certificate_is_identity_cert = true) ∧
    ( _nx_secure_x509_certificate_initialize sampleX509Constants unrulyParsers usedCertificate 0x1000
        sampleCertificateBytes 6 NX_NULL [] 0 0x6000 (memOf [1, 2, 3]) 3 1).status = 0x187 :=
  ⟨(certificate_initialize_rsa_status sampleX509Constants sampleParsers usedCertificate 0x1000
        sampleCertificateBytes 6 NX_NULL [] 0 0x6000 (memOf [1, 2, 3]) 3 1 (by decide) (by decide) (by decide) rfl
      (by decide) (by decide)).2.1 (by decide),
   (certificate_initialize_rsa_status sampleX509Constants unrulyParsers usedCertificate 0x1000
        sampleCertificateBytes 6 NX_NULL [] 0 0x6000 (memOf [1, 2, 3]) 3 1 (by decide) (by decide) (by decide) rfl
      (by decide) (by decide)).1⟩

/-- C16 as stated fails at key length 0: with a certificate that parses, a key pointer
supplied, a key type 0x10001 with high 16 bits not zero and key length 0, the initialiser
returns `NX_SUCCESS` but stores no key (the key union stays zeroed), records no key type (it
stays 0) and leaves the identity flag false. -/
theorem certificate_initialize_user_key_length_zero :
    highHalf 0x10001 ≠ 0 ∧
    ( _nx_secure_x509_certificate_initialize sampleX509Constants sampleParsers usedCertificate 0x1000
        sampleCertificateBytes 6 NX_NULL [] 0 0x6000 (memOf [1, 2, 3]) 0 0x10001).status = NX_SUCCESS ∧
    ( _nx_secure_x509_certificate_initialize sampleX509Constants sampleParsers usedCertificate 0x1000
        sampleCertificateBytes 6 NX_NULL [] 0 0x6000 (memOf [1, 2, 3]) 0 0x10001).certificate.nx_secure_x509_private_key
      ≠ NX_SECURE_X509_PRIVATE_KEY.user_key 0x6000 0 ∧
    ( _nx_secure_x509_certificate_initialize sampleX509Constants sampleParsers usedCertificate 0x1000
        sampleCertificateBytes 6 NX_NULL [] 0 0x6000 (memOf [1, 2, 3]) 0 0x10001).certificate.nx_secure_x509_private_key = NX_SECURE_X509_PRIVATE_KEY.zeroed ∧
    ( _nx_secure_x509_certificate_initialize sampleX509Constants sampleParsers usedCertificate 0x1000
        sampleCertificateBytes 6 NX_NULL [] 0 0x6000 (memOf [1, 2, 3]) 0 0x10001).certificate.nx_secure_x509_private_key_type ≠ 0x10001 ∧
    ( _nx_secure_x509_certificate_initialize sampleX509Constants sampleParsers usedCertificate 0x1000
        sampleCertificateBytes 6 NX_NULL [] 0 0x6000 (memOf [1, 2, 3]) 0 0x10001).certificate.nx_secure_x509_certificate_is_identity_cert = false := by
  decide

/-- C16, amended: when the certificate parse succeeds, the key pointer is supplied, the mask
is 0xFFFF0000 and the key type has high 16 bits that are not zero: for every positive key
length the initialiser returns `NX_SUCCESS`, stores key pointer and key length in the member
`user_key`, records the key type, sets the identity flag and calls no RSA parser; for key
length 0 it returns `NX_SUCCESS` as for a call without key: nothing of the key is stored and
the identity flag is false. -/
theorem certificate_initialize_user_defined_key (k : X509Constants) (p : ExternalParsers)
    (certificate : NX_SECURE_X509_CERT)
    (certificate_data : Nat) (certificate_bytes : Nat → UCHAR) (length : Nat)
    (raw_data_buffer : Nat) (raw_buffer : List UCHAR) (buffer_size : Nat)
    (private_key : Nat) (private_key_bytes : Nat → UCHAR) (priv_len : Nat)
    (private_key_type : Nat)
    (hpast : pastCapacityCheck length raw_data_buffer buffer_size)
    (hder : (derResult p certificate_data certificate_bytes length raw_data_buffer buffer_size).1 = 0)
    (hptr : private_key ≠ NX_NULL)
    (hmask : k.NX_SECURE_X509_KEY_TYPE_USER_DEFINED_MASK = 0xFFFF0000)
    (huser : highHalf private_key_type ≠ 0) :
    (0 < priv_len →
      ( _nx_secure_x509_certificate_initialize k p certificate certificate_data certificate_bytes
        length raw_data_buffer raw_buffer buffer_size private_key private_key_bytes priv_len
        private_key_type).status = NX_SUCCESS ∧
      ( _nx_secure_x509_certificate_initialize k p certificate certificate_data certificate_bytes
        length raw_data_buffer raw_buffer buffer_size private_key private_key_bytes priv_len
        private_key_type).certificate.nx_secure_x509_private_key
        = NX_SECURE_X509_PRIVATE_KEY.user_key private_key priv_len ∧
      ( _nx_secure_x509_certificate_initialize k p certificate certificate_data certificate_bytes
        length raw_data_buffer raw_buffer buffer_size private_key private_key_bytes priv_len
        private_key_type).certificate.nx_secure_x509_private_key_type = private_key_type ∧
      ( _nx_secure_x509_certificate_initialize k p certificate certificate_data certificate_bytes
        length raw_data_buffer raw_buffer buffer_size private_key private_key_bytes priv_len
        private_key_type).certificate.nx_secure_x509_certificate_is_identity_cert = true ∧
      ∀ a b, InitEvent.rsa_private_key_parse a b ∉ ( _nx_secure_x509_certificate_initialize k p certificate certificate_data certificate_bytes
        length raw_data_buffer raw_buffer buffer_size private_key private_key_bytes priv_len
        private_key_type).trace) ∧
    (priv_len = 0 →
      ( _nx_secure_x509_certificate_initialize k p certificate certificate_data certificate_bytes
        length raw_data_buffer raw_buffer buffer_size private_key private_key_bytes priv_len
        private_key_type).status = NX_SUCCESS ∧
      ( _nx_secure_x509_certificate_initialize k p certificate certificate_data certificate_bytes
        length raw_data_buffer raw_buffer buffer_size private_key private_key_bytes priv_len
        private_key_type).certificate
        = { (derResult p certificate_data certificate_bytes length raw_data_buffer buffer_size).2 with
            nx_secure_x509_certificate_is_identity_cert := false
            nx_secure_x509_next_certificate := NX_NULL }) := by
  constructor
  · intro hlen
    have hk : private_key_type &&& k.NX_SECURE_X509_KEY_TYPE_USER_DEFINED_MASK ≠ 0 :=
      fun h => huser ((user_defined_test_iff k private_key_type hmask).mp h)
    rw [certificate_initialize_user_key _ _ _ _ _ _ _ _ _ _ _ _ _ hpast hder ⟨hptr, hlen⟩ hk]
    refine ⟨rfl, rfl, rfl, rfl, ?_⟩
    intro a b
    simp only [establishedTrace]
    split <;> simp
  · intro hzero
    have hkey : ¬ keySupplied private_key priv_len := by
      simp [keySupplied, hzero]
    rw [certificate_initialize_no_key _ _ _ _ _ _ _ _ _ _ _ _ _ hpast hder hkey]
    exact ⟨rfl, rfl⟩

/-- A key of the user-defined type 0x10001 and length 3 supplied with a certificate that
parses: success, the member `user_key` holds pointer 0x6000 and length 3, the type is
recorded and the identity flag is true. -/
theorem certificate_initialize_user_defined_key_witness :
    ( _nx_secure_x509_certificate_initialize sampleX509Constants sampleParsers usedCertificate 0x1000
        sampleCertificateBytes 6 NX_NULL [] 0 0x6000 (memOf [1, 2, 3]) 3 0x10001).status = NX_SUCCESS ∧
    ( _nx_secure_x509_certificate_initialize sampleX509Constants sampleParsers usedCertificate 0x1000
        sampleCertificateBytes 6 NX_NULL [] 0 0x6000 (memOf [1, 2, 3]) 3 0x10001).certificate.nx_secure_x509_private_key
      = NX_SECURE_X509_PRIVATE_KEY.user_key 0x6000 3 ∧
    ( _nx_secure_x509_certificate_initialize sampleX509Constants sampleParsers usedCertificate 0x1000
        sampleCertificateBytes 6 NX_NULL [] 0 0x6000 (memOf [1, 2, 3]) 3 0x10001).certificate.nx_secure_x509_private_key_type = 0x10001 ∧
    ( _nx_secure_x509_certificate_initialize sampleX509Constants sampleParsers usedCertificate 0x1000
        sampleCertificateBytes 6 NX_NULL [] 0 0x6000 (memOf [1, 2, 3]) 3 0x10001).certificate.nx_secure_x509_certificate_is_identity_cert = true :=
  ⟨((certificate_initialize_user_defined_key sampleX509Constants sampleParsers usedCertificate 0x1000
        sampleCertificateBytes 6 NX_NULL [] 0 0x6000 (memOf [1, 2, 3]) 3 0x10001 (by decide) (by decide) (by decide) rfl
      (by decide)).1 (by decide)).1,
   ((certificate_initialize_user_defined_key sampleX509Constants sampleParsers usedCertificate 0x1000
        sampleCertificateBytes 6 NX_NULL [] 0 0x6000 (memOf [1, 2, 3]) 3 0x10001 (by decide) (by decide) (by decide) rfl
      (by decide)).1 (by decide)).2.1,
   ((certificate_initialize_user_defined_key sampleX509Constants sampleParsers usedCertificate 0x1000
        sampleCertificateBytes 6 NX_NULL [] 0 0x6000 (memOf [1, 2, 3]) 3 0x10001 (by decide) (by decide) (by decide) rfl
      (by decide)).1 (by decide)).2.2.1,
   ((certificate_initialize_user_defined_key sampleX509Constants sampleParsers usedCertificate 0x1000
        sampleCertificateBytes 6 NX_NULL [] 0 0x6000 (memOf [1, 2, 3]) 3 0x10001 (by decide) (by decide) (by decide) rfl
      (by decide)).1 (by decide)).2.2.2.1⟩

/-- C17: when the certificate parser leaves the identity flag alone and the two failure
codes `NX_SECURE_TLS_INSUFFICIENT_CERT_SPACE` and `NX_SECURE_TLS_INVALID_CERTIFICATE` are not
zero, the identity flag after the call is true exactly when the call returned `NX_SUCCESS`
and a private key was supplied (pointer not null, length positive); so it is false after
every failure return and after a success without key. -/
theorem certificate_initialize_identity_flag (k : X509Constants) (p : ExternalParsers)
    (certificate : NX_SECURE_X509_CERT)
    (certificate_data : Nat) (certificate_bytes : Nat → UCHAR) (length : Nat)
    (raw_data_buffer : Nat) (raw_buffer : List UCHAR) (buffer_size : Nat)
    (private_key : Nat) (private_key_bytes : Nat → UCHAR) (priv_len : Nat)
    (private_key_type : Nat)
    (hflag : ParserKeepsFlag p)
    (hspace : k.NX_SECURE_TLS_INSUFFICIENT_CERT_SPACE ≠ 0)
    (hcert : k.NX_SECURE_TLS_INVALID_CERTIFICATE ≠ 0) :
    ( _nx_secure_x509_certificate_initialize k p certificate certificate_data certificate_bytes
        length raw_data_buffer raw_buffer buffer_size private_key private_key_bytes priv_len
        private_key_type).certificate.nx_secure_x509_certificate_is_identity_cert = true ↔
      (( _nx_secure_x509_certificate_initialize k p certificate certificate_data certificate_bytes
        length raw_data_buffer raw_buffer buffer_size private_key private_key_bytes priv_len
        private_key_type).status = NX_SUCCESS ∧ keySupplied private_key priv_len) := by
  have hf : (derResult p certificate_data certificate_bytes length raw_data_buffer buffer_size).2.nx_secure_x509_certificate_is_identity_cert = false :=
    hflag (rawReference certificate_data raw_data_buffer) (bytesAt certificate_bytes length)
      length (establishedCertificate certificate_data length raw_data_buffer buffer_size)
  by_cases hpast : pastCapacityCheck length raw_data_buffer buffer_size
  · by_cases hder : (derResult p certificate_data certificate_bytes length raw_data_buffer buffer_size).1 = 0
    · by_cases hkey : keySupplied private_key priv_len
      · by_cases hknown :
            private_key_type &&& k.NX_SECURE_X509_KEY_TYPE_USER_DEFINED_MASK = 0
        · by_cases hrsa : private_key_type = k.NX_SECURE_X509_KEY_TYPE_RSA_PKCS1_DER
          · rw [certificate_initialize_rsa_key _ _ _ _ _ _ _ _ _ _ _ _ _
                hpast hder hkey hknown hrsa]
            split
            · rename_i hfail
              simp [hf, NX_SUCCESS, hfail]
            · simp [NX_SUCCESS, hkey]
          · rw [certificate_initialize_other_key _ _ _ _ _ _ _ _ _ _ _ _ _
                hpast hder hkey hknown hrsa]
            split
            · rename_i hfail
              simp [hf, NX_SUCCESS, hfail]
            · simp [NX_SUCCESS, hkey]
        · rw [certificate_initialize_user_key _ _ _ _ _ _ _ _ _ _ _ _ _ hpast hder hkey hknown]
          simp [NX_SUCCESS, hkey]
      · rw [certificate_initialize_no_key _ _ _ _ _ _ _ _ _ _ _ _ _ hpast hder hkey]
        simp [hkey]
    · rw [certificate_initialize_der_failure _ _ _ _ _ _ _ _ _ _ _ _ _ hpast hder]
      simp [hf, NX_SUCCESS, hcert]
  · rw [certificate_initialize_no_space _ _ _ _ _ _ _ _ _ _ _ _ _ hpast]
    simp [NX_SECURE_X509_CERT.zero, NX_SUCCESS, hspace]

/-- The flag at sample inputs: true after a success with an RSA key; false after a success
without key, after the failure on a key of type `NX_SECURE_X509_KEY_TYPE_NONE`, and after
the failure of the capacity check. -/
theorem certificate_initialize_identity_flag_witness :
    ( _nx_secure_x509_certificate_initialize sampleX509Constants sampleParsers usedCertificate 0x1000
        sampleCertificateBytes 6 NX_NULL [] 0 0x6000 (memOf [1, 2, 3]) 3 1).certificate.nx_secure_x509_certificate_is_identity_cert = true ∧
    ¬ ( _nx_secure_x509_certificate_initialize sampleX509Constants sampleParsers usedCertificate 0x1000
        sampleCertificateBytes 6 NX_NULL [] 0 NX_NULL (memOf [1, 2, 3]) 0 1).certificate.nx_secure_x509_certificate_is_identity_cert = true ∧
    ¬ ( _nx_secure_x509_certificate_initialize sampleX509Constants sampleParsers usedCertificate 0x1000
        sampleCertificateBytes 6 NX_NULL [] 0 0x6000 (memOf [1, 2, 3]) 3 0).certificate.nx_secure_x509_certificate_is_identity_cert = true ∧
    ¬ ( _nx_secure_x509_certificate_initialize sampleX509Constants sampleParsers usedCertificate 0x1000
        sampleCertificateBytes 500 0x2000 (List.replicate 10 0) 10 0x6000 (memOf [1, 2, 3]) 3 1).certificate.nx_secure_x509_certificate_is_identity_cert = true :=
  ⟨(certificate_initialize_identity_flag sampleX509Constants sampleParsers usedCertificate 0x1000
        sampleCertificateBytes 6 NX_NULL [] 0 0x6000 (memOf [1, 2, 3]) 3 1 sampleParsers_keeps_flag (by decide)
      (by decide)).mpr (by decide),
   fun h => absurd ((certificate_initialize_identity_flag sampleX509Constants sampleParsers usedCertificate 0x1000
        sampleCertificateBytes 6 NX_NULL [] 0 NX_NULL (memOf [1, 2, 3]) 0 1
      sampleParsers_keeps_flag (by decide) (by decide)).mp h).2 (by decide),
   fun h => absurd ((certificate_initialize_identity_flag sampleX509Constants sampleParsers usedCertificate 0x1000
        sampleCertificateBytes 6 NX_NULL [] 0 0x6000 (memOf [1, 2, 3]) 3 0
      sampleParsers_keeps_flag (by decide) (by decide)).mp h).1 (by decide),
   fun h => absurd ((certificate_initialize_identity_flag sampleX509Constants sampleParsers usedCertificate 0x1000
        sampleCertificateBytes 500 0x2000 (List.replicate 10 0) 10 0x6000 (memOf [1, 2, 3]) 3 1
      sampleParsers_keeps_flag (by decide) (by decide)).mp h).1 (by decide)⟩

/-- C18: with the protection modelled by the events `tx_mutex_get` and `tx_mutex_put`, on
every input, whichever return path is taken, the events of a call start with the one
acquisition and end with the one release: the acquisition is the first event, the release
the last one (after every store into the certificate, the copy and every parser call), and
each occurs exactly once. -/
theorem certificate_initialize_protection (k : X509Constants) (p : ExternalParsers)
    (certificate : NX_SECURE_X509_CERT)
    (certificate_data : Nat) (certificate_bytes : Nat → UCHAR) (length : Nat)
    (raw_data_buffer : Nat) (raw_buffer : List UCHAR) (buffer_size : Nat)
    (private_key : Nat) (private_key_bytes : Nat → UCHAR) (priv_len : Nat)
    (private_key_type : Nat) :
    ( _nx_secure_x509_certificate_initialize k p certificate certificate_data certificate_bytes
        length raw_data_buffer raw_buffer buffer_size private_key private_key_bytes priv_len
        private_key_type).trace.head? = some InitEvent.tx_mutex_get ∧
    ( _nx_secure_x509_certificate_initialize k p certificate certificate_data certificate_bytes
        length raw_data_buffer raw_buffer buffer_size private_key private_key_bytes priv_len
        private_key_type).trace.getLast? = some InitEvent.tx_mutex_put ∧
    ( _nx_secure_x509_certificate_initialize k p certificate certificate_data certificate_bytes
        length raw_data_buffer raw_buffer buffer_size private_key private_key_bytes priv_len
        private_key_type).trace.count InitEvent.tx_mutex_get = 1 ∧
    ( _nx_secure_x509_certificate_initialize k p certificate certificate_data certificate_bytes
        length raw_data_buffer raw_buffer buffer_size private_key private_key_bytes priv_len
        private_key_type).trace.count InitEvent.tx_mutex_put = 1 := by
  by_cases hpast : pastCapacityCheck length raw_data_buffer buffer_size
  · obtain ⟨tail, htrace, htail, -⟩ := certificate_initialize_shape k p certificate certificate_data certificate_bytes length
      raw_data_buffer raw_buffer buffer_size private_key private_key_bytes priv_len
      private_key_type hpast
    have hnot : ∀ ev, ev ≠ InitEvent.certificate_store →
        ev ≠ InitEvent.rsa_private_key_parse private_key priv_len → tail.count ev = 0 := by
      intro ev h1 h2
      refine List.count_eq_zero.mpr (fun hmem => ?_)
      rcases htail ev hmem with h | h
      · exact h1 h
      · exact h2 h
    have hget := hnot InitEvent.tx_mutex_get (by simp) (by simp)
    have hput := hnot InitEvent.tx_mutex_put (by simp) (by simp)
    rw [htrace]
    refine ⟨?_, List.getLast?_concat _, ?_, ?_⟩
    · simp [establishedTrace]
    · simp only [establishedTrace]
      split <;> simp [List.count_cons, hget]
    · simp only [establishedTrace]
      split <;> simp [List.count_cons, hput]
  · rw [certificate_initialize_no_space _ _ _ _ _ _ _ _ _ _ _ _ _ hpast]
    simp [List.count_cons]

/-- The events of the success with an RSA key and without backing buffer, in full. -/
theorem certificate_initialize_protection_witness :
    ( _nx_secure_x509_certificate_initialize sampleX509Constants sampleParsers usedCertificate 0x1000
        sampleCertificateBytes 6 NX_NULL [] 0 0x6000 (memOf [1, 2, 3]) 3 1).trace
      = [InitEvent.tx_mutex_get, InitEvent.certificate_store, InitEvent.certificate_store,
         InitEvent.certificate_store, InitEvent.certificate_store,
         InitEvent.certificate_parse 0x1000 6, InitEvent.certificate_store,
         InitEvent.rsa_private_key_parse 0x6000 3, InitEvent.certificate_store,
         InitEvent.certificate_store, InitEvent.tx_mutex_put] ∧
    ( _nx_secure_x509_certificate_initialize sampleX509Constants sampleParsers usedCertificate 0x1000
        sampleCertificateBytes 6 NX_NULL [] 0 0x6000 (memOf [1, 2, 3]) 3 1).trace.count InitEvent.tx_mutex_put = 1 :=
  ⟨by decide, (certificate_initialize_protection sampleX509Constants sampleParsers usedCertificate 0x1000
        sampleCertificateBytes 6 NX_NULL [] 0 0x6000 (memOf [1, 2, 3]) 3 1).2.2.2⟩

/-- C19: whatever the certificate held before the call (a chain link included) and whatever
the input: when `NX_SECURE_TLS_INVALID_CERTIFICATE` is not zero, the next-certificate link is
null after every return of `NX_SUCCESS`, whatever the parsers wrote; and when the
certificate parser leaves the link alone, the link is null after every return. -/
theorem certificate_initialize_unlinks (k : X509Constants) (p : ExternalParsers)
    (certificate : NX_SECURE_X509_CERT)
    (certificate_data : Nat) (certificate_bytes : Nat → UCHAR) (length : Nat)
    (raw_data_buffer : Nat) (raw_buffer : List UCHAR) (buffer_size : Nat)
    (private_key : Nat) (private_key_bytes : Nat → UCHAR) (priv_len : Nat)
    (private_key_type : Nat)
    (hcert : k.NX_SECURE_TLS_INVALID_CERTIFICATE ≠ 0) :
    (( _nx_secure_x509_certificate_initialize k p certificate certificate_data certificate_bytes
        length raw_data_buffer raw_buffer buffer_size private_key private_key_bytes priv_len
        private_key_type).status = NX_SUCCESS →
      ( _nx_secure_x509_certificate_initialize k p certificate certificate_data certificate_bytes
        length raw_data_buffer raw_buffer buffer_size private_key private_key_bytes priv_len
        private_key_type).certificate.nx_secure_x509_next_certificate = NX_NULL) ∧
    (ParserKeepsLink p →
      ( _nx_secure_x509_certificate_initialize k p certificate certificate_data certificate_bytes
        length raw_data_buffer raw_buffer buffer_size private_key private_key_bytes priv_len
        private_key_type).certificate.nx_secure_x509_next_certificate = NX_NULL) := by
  constructor
  · by_cases hpast : pastCapacityCheck length raw_data_buffer buffer_size
    · by_cases hder : (derResult p certificate_data certificate_bytes length raw_data_buffer buffer_size).1 = 0
      · by_cases hkey : keySupplied private_key priv_len
        · by_cases hknown :
              private_key_type &&& k.NX_SECURE_X509_KEY_TYPE_USER_DEFINED_MASK = 0
          · by_cases hrsa : private_key_type = k.NX_SECURE_X509_KEY_TYPE_RSA_PKCS1_DER
            · rw [certificate_initialize_rsa_key _ _ _ _ _ _ _ _ _ _ _ _ _
                  hpast hder hkey hknown hrsa]
              split
              · rename_i hfail
                intro h
                exact absurd h hfail
              · intro _
                rfl
            · rw [certificate_initialize_other_key _ _ _ _ _ _ _ _ _ _ _ _ _
                  hpast hder hkey hknown hrsa]
              split
              · rename_i hfail
                intro h
                exact absurd h hfail
              · intro _
                rfl
          · rw [certificate_initialize_user_key _ _ _ _ _ _ _ _ _ _ _ _ _ hpast hder hkey hknown]
            intro _
            rfl
        · rw [certificate_initialize_no_key _ _ _ _ _ _ _ _ _ _ _ _ _ hpast hder hkey]
          intro _
          rfl
      · rw [certificate_initialize_der_failure _ _ _ _ _ _ _ _ _ _ _ _ _ hpast hder]
        intro h
        exact absurd h hcert
    · rw [certificate_initialize_no_space _ _ _ _ _ _ _ _ _ _ _ _ _ hpast]
      intro _
      rfl
  · intro hlink
    have hl : (derResult p certificate_data certificate_bytes length raw_data_buffer buffer_size).2.nx_secure_x509_next_certificate = NX_NULL :=
      hlink (rawReference certificate_data raw_data_buffer) (bytesAt certificate_bytes length)
        length (establishedCertificate certificate_data length raw_data_buffer buffer_size)
    by_cases hpast : pastCapacityCheck length raw_data_buffer buffer_size
    · by_cases hder : (derResult p certificate_data certificate_bytes length raw_data_buffer buffer_size).1 = 0
      · by_cases hkey : keySupplied private_key priv_len
        · by_cases hknown :
              private_key_type &&& k.NX_SECURE_X509_KEY_TYPE_USER_DEFINED_MASK = 0
          · by_cases hrsa : private_key_type = k.NX_SECURE_X509_KEY_TYPE_RSA_PKCS1_DER
            · rw [certificate_initialize_rsa_key _ _ _ _ _ _ _ _ _ _ _ _ _
                  hpast hder hkey hknown hrsa]
              split
              · exact hl
              · rfl
            · rw [certificate_initialize_other_key _ _ _ _ _ _ _ _ _ _ _ _ _
                  hpast hder hkey hknown hrsa]
              split
              · exact hl
              · rfl
          · rw [certificate_initialize_user_key _ _ _ _ _ _ _ _ _ _ _ _ _ hpast hder hkey hknown]
        · rw [certificate_initialize_no_key _ _ _ _ _ _ _ _ _ _ _ _ _ hpast hder hkey]
      · rw [certificate_initialize_der_failure _ _ _ _ _ _ _ _ _ _ _ _ _ hpast hder]
        exact hl
    · rw [certificate_initialize_no_space _ _ _ _ _ _ _ _ _ _ _ _ _ hpast]
      rfl

/-- A certificate linked into a chain (link 0x5000) is initialised with a certificate
parser that sets the link to 0x8000: after the success the link is null. -/
theorem certificate_initialize_unlinks_witness :
    usedCertificate.nx_secure_x509_next_certificate = 0x5000 ∧
    ( _nx_secure_x509_certificate_initialize sampleX509Constants unrulyParsers usedCertificate 0x1000
        sampleCertificateBytes 6 NX_NULL [] 0 NX_NULL (memOf [1, 2, 3]) 0 0).status = NX_SUCCESS ∧
    ( _nx_secure_x509_certificate_initialize sampleX509Constants unrulyParsers usedCertificate 0x1000
        sampleCertificateBytes 6 NX_NULL [] 0 NX_NULL (memOf [1, 2, 3]) 0 0).certificate.nx_secure_x509_next_certificate = NX_NULL :=
  ⟨rfl, by decide,
   (certificate_initialize_unlinks sampleX509Constants unrulyParsers usedCertificate 0x1000
        sampleCertificateBytes 6 NX_NULL [] 0 NX_NULL (memOf [1, 2, 3]) 0 0 (by decide)).1 (by decide)⟩

/-! ## The SNI decoder: what is read -/

/-- The first SNI extension splits the list at its position. -/
theorem firstSni_eq_some_index (c : NxConstants) (l : List NX_SECURE_TLS_HELLO_EXTENSION)
    (r : NX_SECURE_TLS_HELLO_EXTENSION) (h : firstSni c l = some r) :
    r.nx_secure_tls_extension_id = c.NX_SECURE_TLS_EXTENSION_SERVER_NAME_INDICATION ∧
    ∃ pre suf, l = pre ++ r :: suf ∧ pre.length = firstSniIndex c l ∧
      ∀ e ∈ pre, e.nx_secure_tls_extension_id ≠ c.NX_SECURE_TLS_EXTENSION_SERVER_NAME_INDICATION := by
  induction l with
  | nil => simp [firstSni] at h
  | cons e rest ih =>
    by_cases he : e.nx_secure_tls_extension_id = c.NX_SECURE_TLS_EXTENSION_SERVER_NAME_INDICATION
    · simp only [firstSni, List.find?_cons, he, decide_True, Option.some.injEq] at h
      subst h
      exact ⟨he, [], rest, rfl, by simp [firstSniIndex, List.findIdx_cons, he], by simp⟩
    · have h2 : firstSni c rest = some r := by
        simpa [firstSni, List.find?_cons, he] using h
      obtain ⟨hr, pre, suf, hl, hidx, hpre⟩ := ih h2
      refine ⟨hr, e :: pre, suf, by simp [hl], ?_, ?_⟩
      · simp only [firstSniIndex] at hidx
        simp [firstSniIndex, List.findIdx_cons, he, hidx]
      · intro x hx
        rcases List.mem_cons.mp hx with hx | hx
        · exact hx ▸ he
        · exact hpre x hx

/-- The decoder run on a list is the loop body run on its first SNI extension at the
position of that extension, which is a position of the list. -/
theorem sni_parse_of_firstSni_index (c : NxConstants) (l : List NX_SECURE_TLS_HELLO_EXTENSION)
    (r : NX_SECURE_TLS_HELLO_EXTENSION) (d : NX_SECURE_X509_DNS_NAME)
    (h : firstSni c l = some r) :
    r.nx_secure_tls_extension_id = c.NX_SECURE_TLS_EXTENSION_SERVER_NAME_INDICATION ∧
    l[firstSniIndex c l]? = some r ∧
    _nx_secure_tls_session_sni_extension_parse c l d
      = sni_extension_loop c [r] (firstSniIndex c l) d := by
  obtain ⟨hr, pre, suf, hl, hidx, hpre⟩ := firstSni_eq_some_index c l r h
  refine ⟨hr, ?_, ?_⟩
  · rw [← hidx, hl, List.getElem?_append_right (Nat.le_refl _), Nat.sub_self]
    simp
  · rw [← hidx, _nx_secure_tls_session_sni_extension_parse]
    conv_lhs => rw [hl]
    rw [sni_extension_loop_skip_all c pre _ hpre, sni_extension_loop_hit c r suf _ d hr,
      Nat.zero_add]

/-- Every dereference of a rejected or accepted first SNI extension at position `i` is of
extension `i` and at an offset below its declared length plus 5. -/
theorem sni_extension_loop_reads_bound (c : NxConstants) (r : NX_SECURE_TLS_HELLO_EXTENSION)
    (i : Nat) (d : NX_SECURE_X509_DNS_NAME)
    (hr : r.nx_secure_tls_extension_id = c.NX_SECURE_TLS_EXTENSION_SERVER_NAME_INDICATION) :
    ∀ q ∈ (sni_extension_loop c [r] i d).reads,
      q.1 = i ∧ q.2 < r.nx_secure_tls_extension_data_length + 5 := by
  intro q hq
  by_cases hrej : sniRejected c r
  · rw [sni_extension_loop_rejected c r i d hr hrej] at hq
    simp only [List.mem_cons, List.mem_singleton, List.not_mem_nil, or_false] at hq
    rcases hq with h | h | h | h | h <;> subst h <;> exact ⟨rfl, by simp⟩
  · rw [sni_extension_loop_accepted c r i d hr hrej] at hq
    have hle : wireNameLength r ≤ r.nx_secure_tls_extension_data_length := by
      simp only [sniRejected] at hrej
      omega
    simp only [List.mem_append, List.mem_cons, List.mem_singleton, List.not_mem_nil, or_false,
      List.mem_map, List.mem_range] at hq
    rcases hq with (h | h | h | h | h) | ⟨k, hk, h⟩
    · subst h; exact ⟨rfl, by simp⟩
    · subst h; exact ⟨rfl, by simp⟩
    · subst h; exact ⟨rfl, by simp⟩
    · subst h; exact ⟨rfl, by simp⟩
    · subst h; exact ⟨rfl, by simp⟩
    · subst h
      refine ⟨rfl, ?_⟩
      show 5 + k < r.nx_secure_tls_extension_data_length + 5
      omega

/-! ## The remaining claims -/

/-- C21: what the decoder reads.  Without SNI extension no payload is read.  With a first
SNI extension, at position `i` of the sequence, declaring `D` payload bytes and carrying name
length `K`: on a return other than `NX_SUCCESS` the dereferences are the offsets 0 to 4 of
extension `i`; on `NX_SUCCESS` they are those followed by the offsets 5 to 5 + min(K, MAX) - 1
of extension `i`, and then `K` is at most the list length and the list length at most `D`; in
every case each dereference is of extension `i` (no other payload is read) and at an offset
below `D + 5`, hence inside any payload buffer of at least `D + 5` bytes. -/
theorem sni_parse_reads (c : NxConstants) (extensions : List NX_SECURE_TLS_HELLO_EXTENSION)
    (dns_name : NX_SECURE_X509_DNS_NAME) :
    (firstSni c extensions = none → ( _nx_secure_tls_session_sni_extension_parse c extensions dns_name).reads = []) ∧
    ∀ r, firstSni c extensions = some r →
      extensions[firstSniIndex c extensions]? = some r ∧
      (( _nx_secure_tls_session_sni_extension_parse c extensions dns_name).status ≠ SniStatus.NX_SUCCESS →
        ( _nx_secure_tls_session_sni_extension_parse c extensions dns_name).reads = headerReads (firstSniIndex c extensions)) ∧
      (( _nx_secure_tls_session_sni_extension_parse c extensions dns_name).status = SniStatus.NX_SUCCESS →
        ( _nx_secure_tls_session_sni_extension_parse c extensions dns_name).reads
          = headerReads (firstSniIndex c extensions) ++
            nameReads (firstSniIndex c extensions)
              (min (wireNameLength r) c.NX_SECURE_X509_DNS_NAME_MAX) ∧
        wireNameLength r ≤ wireListLength r ∧
        wireListLength r ≤ r.nx_secure_tls_extension_data_length) ∧
      (∀ q ∈ ( _nx_secure_tls_session_sni_extension_parse c extensions dns_name).reads,
        q.1 = firstSniIndex c extensions ∧ q.2 < r.nx_secure_tls_extension_data_length + 5) ∧
      ∀ size, r.nx_secure_tls_extension_data_length + 5 ≤ size →
        ∀ q ∈ ( _nx_secure_tls_session_sni_extension_parse c extensions dns_name).reads, q.2 < size := by
  constructor
  · intro hnone
    rw [_nx_secure_tls_session_sni_extension_parse,
      sni_extension_loop_none c extensions (firstSni_eq_none c extensions hnone) 0 dns_name]
  · intro r hfirst
    obtain ⟨hr, hget, hrun⟩ := sni_parse_of_firstSni_index c extensions r dns_name hfirst
    have hbound := sni_extension_loop_reads_bound c r (firstSniIndex c extensions) dns_name hr
    rw [hrun]
    refine ⟨hget, ?_, ?_, hbound, ?_⟩
    · intro hstatus
      by_cases hrej : sniRejected c r
      · rw [sni_extension_loop_rejected c r _ dns_name hr hrej]
        rfl
      · rw [sni_extension_loop_accepted c r _ dns_name hr hrej] at hstatus
        exact absurd rfl hstatus
    · intro hstatus
      by_cases hrej : sniRejected c r
      · rw [sni_extension_loop_rejected c r _ dns_name hr hrej] at hstatus
        simp at hstatus
      · rw [sni_extension_loop_accepted c r _ dns_name hr hrej]
        simp only [sniRejected] at hrej
        exact ⟨rfl, by omega, by omega⟩
    · intro size hsize q hq
      have := (hbound q hq).2
      omega

/-- The reads at sample inputs.  Scenario A behind an extension of another type: offsets 0
to 11 of extension 1, all below 12 + 5.  Scenario B: offsets 0 to 4 of extension 0.  The
extension declaring 7 bytes with name length 7: offsets 0 to 11, below 7 + 5. -/
theorem sni_parse_reads_witness :
    ( _nx_secure_tls_session_sni_extension_parse sampleConstants
        [otherExtension, scenarioA_sni] emptyName).reads
      = headerReads 1 ++ nameReads 1 7 ∧
    ( _nx_secure_tls_session_sni_extension_parse sampleConstants
        [scenarioB_sni, scenarioA_sni] emptyName).reads = headerReads 0 ∧
    ∀ q ∈ ( _nx_secure_tls_session_sni_extension_parse sampleConstants
        [overreadSni] emptyName).reads, q.2 < 12 :=
  ⟨((((sni_parse_reads sampleConstants [otherExtension, scenarioA_sni] emptyName).2
      scenarioA_sni rfl).2.2.1) (by decide)).1,
   ((sni_parse_reads sampleConstants [scenarioB_sni, scenarioA_sni] emptyName).2
      scenarioB_sni rfl).2.1 (by decide),
   ((sni_parse_reads sampleConstants [overreadSni] emptyName).2
      overreadSni rfl).2.2.2.2 12 (by decide)⟩

/-- C22: the order in which the initialiser decides its errors.  When a backing buffer is
supplied with capacity below the length, the status is
`NX_SECURE_TLS_INSUFFICIENT_CERT_SPACE` whatever the parsers, the certificate bytes and the
key arguments.  Otherwise, when the certificate parser fails, the status is
`NX_SECURE_TLS_INVALID_CERTIFICATE` whatever the key arguments.  A status that is none of
`NX_SUCCESS` and these two codes is returned only when the capacity check was passed, the
certificate parse succeeded and a key was supplied, and it is then
`NX_SECURE_X509_INVALID_PRIVATE_KEY_TYPE` or the status of the RSA parser; and the RSA parser
is called only when the capacity check was passed and the certificate parse succeeded. -/
theorem certificate_initialize_error_precedence (k : X509Constants) (p : ExternalParsers)
    (certificate : NX_SECURE_X509_CERT)
    (certificate_data : Nat) (certificate_bytes : Nat → UCHAR) (length : Nat)
    (raw_data_buffer : Nat) (raw_buffer : List UCHAR) (buffer_size : Nat)
    (private_key : Nat) (private_key_bytes : Nat → UCHAR) (priv_len : Nat)
    (private_key_type : Nat) :
    (raw_data_buffer ≠ NX_NULL → buffer_size < length →
      ∀ (p' : ExternalParsers) (certificate_bytes' : Nat → UCHAR) (private_key' : Nat)
        (private_key_bytes' : Nat → UCHAR) (priv_len' private_key_type' : Nat),
        ( _nx_secure_x509_certificate_initialize k p' certificate certificate_data
          certificate_bytes' length raw_data_buffer raw_buffer buffer_size private_key'
          private_key_bytes' priv_len' private_key_type').status
        = k.NX_SECURE_TLS_INSUFFICIENT_CERT_SPACE) ∧
    (pastCapacityCheck length raw_data_buffer buffer_size →
      (derResult p certificate_data certificate_bytes length raw_data_buffer buffer_size).1 ≠ 0 →
      ∀ (private_key' : Nat) (private_key_bytes' : Nat → UCHAR)
        (priv_len' private_key_type' : Nat),
        ( _nx_secure_x509_certificate_initialize k p certificate certificate_data
          certificate_bytes length raw_data_buffer raw_buffer buffer_size private_key'
          private_key_bytes' priv_len' private_key_type').status
        = k.NX_SECURE_TLS_INVALID_CERTIFICATE) ∧
    (( _nx_secure_x509_certificate_initialize k p certificate certificate_data certificate_bytes
        length raw_data_buffer raw_buffer buffer_size private_key private_key_bytes priv_len
        private_key_type).status ≠ NX_SUCCESS →
      ( _nx_secure_x509_certificate_initialize k p certificate certificate_data certificate_bytes
        length raw_data_buffer raw_buffer buffer_size private_key private_key_bytes priv_len
        private_key_type).status ≠ k.NX_SECURE_TLS_INSUFFICIENT_CERT_SPACE →
      ( _nx_secure_x509_certificate_initialize k p certificate certificate_data certificate_bytes
        length raw_data_buffer raw_buffer buffer_size private_key private_key_bytes priv_len
        private_key_type).status ≠ k.NX_SECURE_TLS_INVALID_CERTIFICATE →
      pastCapacityCheck length raw_data_buffer buffer_size ∧
      (derResult p certificate_data certificate_bytes length raw_data_buffer buffer_size).1 = 0 ∧
      keySupplied private_key priv_len ∧
      (( _nx_secure_x509_certificate_initialize k p certificate certificate_data certificate_bytes
        length raw_data_buffer raw_buffer buffer_size private_key private_key_bytes priv_len
        private_key_type).status = k.NX_SECURE_X509_INVALID_PRIVATE_KEY_TYPE ∨
       ( _nx_secure_x509_certificate_initialize k p certificate certificate_data certificate_bytes
        length raw_data_buffer raw_buffer buffer_size private_key private_key_bytes priv_len
        private_key_type).status = (rsaResult p private_key private_key_bytes priv_len).1)) ∧
    (∀ a b, InitEvent.rsa_private_key_parse a b ∈ ( _nx_secure_x509_certificate_initialize k p certificate certificate_data certificate_bytes
        length raw_data_buffer raw_buffer buffer_size private_key private_key_bytes priv_len
        private_key_type).trace →
      pastCapacityCheck length raw_data_buffer buffer_size ∧
      (derResult p certificate_data certificate_bytes length raw_data_buffer buffer_size).1 = 0) := by
  refine ⟨?_, ?_, ?_, ?_⟩
  · intro hbuf hcap p' certificate_bytes' private_key' private_key_bytes' priv_len'
      private_key_type'
    have hfail : ¬ pastCapacityCheck length raw_data_buffer buffer_size := by
      simp only [pastCapacityCheck, not_or, not_le]
      exact ⟨hbuf, hcap⟩
    rw [certificate_initialize_no_space _ _ _ _ _ _ _ _ _ _ _ _ _ hfail]
  · intro hpast hder private_key' private_key_bytes' priv_len' private_key_type'
    rw [certificate_initialize_der_failure _ _ _ _ _ _ _ _ _ _ _ _ _ hpast hder]
  · intro h1 h2 h3
    by_cases hpast : pastCapacityCheck length raw_data_buffer buffer_size
    · by_cases hder : (derResult p certificate_data certificate_bytes length raw_data_buffer buffer_size).1 = 0
      · by_cases hkey : keySupplied private_key priv_len
        · refine ⟨hpast, hder, hkey, ?_⟩
          by_cases hknown :
              private_key_type &&& k.NX_SECURE_X509_KEY_TYPE_USER_DEFINED_MASK = 0
          · by_cases hrsa : private_key_type = k.NX_SECURE_X509_KEY_TYPE_RSA_PKCS1_DER
            · rw [certificate_initialize_rsa_key _ _ _ _ _ _ _ _ _ _ _ _ _
                hpast hder hkey hknown hrsa] at h1 ⊢
              split
              · exact Or.inr rfl
              · rename_i hok
                rw [if_neg hok] at h1
                exact absurd rfl h1
            · rw [certificate_initialize_other_key _ _ _ _ _ _ _ _ _ _ _ _ _
                hpast hder hkey hknown hrsa] at h1 ⊢
              split
              · exact Or.inl rfl
              · rename_i hok
                rw [if_neg hok] at h1
                exact absurd rfl h1
          · rw [certificate_initialize_user_key _ _ _ _ _ _ _ _ _ _ _ _ _ hpast hder hkey hknown] at h1
            exact absurd rfl h1
        · rw [certificate_initialize_no_key _ _ _ _ _ _ _ _ _ _ _ _ _ hpast hder hkey] at h1
          exact absurd rfl h1
      · rw [certificate_initialize_der_failure _ _ _ _ _ _ _ _ _ _ _ _ _ hpast hder] at h3
        exact absurd rfl h3
    · rw [certificate_initialize_no_space _ _ _ _ _ _ _ _ _ _ _ _ _ hpast] at h2
      exact absurd rfl h2
  · intro a b hmem
    by_cases hpast : pastCapacityCheck length raw_data_buffer buffer_size
    · by_cases hder : (derResult p certificate_data certificate_bytes length raw_data_buffer buffer_size).1 = 0
      · exact ⟨hpast, hder⟩
      · rw [certificate_initialize_der_failure _ _ _ _ _ _ _ _ _ _ _ _ _ hpast hder] at hmem
        simp only [establishedTrace] at hmem
        split at hmem <;> simp at hmem
    · rw [certificate_initialize_no_space _ _ _ _ _ _ _ _ _ _ _ _ _ hpast] at hmem
      simp at hmem

/-- Three calls with the same key of the invalid type `NX_SECURE_X509_KEY_TYPE_NONE`: with
a backing buffer too small and data that does not parse, the status is that of the capacity
check (0x12D); without buffer and data that does not parse, that of the certificate parse
(0x112); with data that parses, that of the key type (0x18B). -/
theorem certificate_initialize_error_precedence_witness :
    ( _nx_secure_x509_certificate_initialize sampleX509Constants sampleParsers usedCertificate 0x1000
        (memOf [0x31, 0x00]) 6 0x2000 (List.replicate 4 0) 4 0x6000 (memOf [1, 2, 3]) 3 0).status = 0x12D ∧
    ( _nx_secure_x509_certificate_initialize sampleX509Constants sampleParsers usedCertificate 0x1000
        (memOf [0x31, 0x00]) 6 NX_NULL [] 0 0x6000 (memOf [1, 2, 3]) 3 0).status = 0x112 ∧
    ( _nx_secure_x509_certificate_initialize sampleX509Constants sampleParsers usedCertificate 0x1000
        sampleCertificateBytes 6 NX_NULL [] 0 0x6000 (memOf [1, 2, 3]) 3 0).status = 0x18B ∧
    (pastCapacityCheck 6 NX_NULL 0 ∧
     (derResult sampleParsers 0x1000 sampleCertificateBytes 6 NX_NULL 0).1 = 0 ∧
     keySupplied 0x6000 3 ∧
     (( _nx_secure_x509_certificate_initialize sampleX509Constants sampleParsers usedCertificate 0x1000
        sampleCertificateBytes 6 NX_NULL [] 0 0x6000 (memOf [1, 2, 3]) 3 0).status
        = sampleX509Constants.NX_SECURE_X509_INVALID_PRIVATE_KEY_TYPE ∨
      ( _nx_secure_x509_certificate_initialize sampleX509Constants sampleParsers usedCertificate 0x1000
        sampleCertificateBytes 6 NX_NULL [] 0 0x6000 (memOf [1, 2, 3]) 3 0).status
        = (rsaResult sampleParsers 0x6000 (memOf [1, 2, 3]) 3).1)) :=
  ⟨(certificate_initialize_error_precedence sampleX509Constants sampleParsers usedCertificate 0x1000
        (memOf [0x31, 0x00]) 6 0x2000 (List.replicate 4 0) 4 0x6000 (memOf [1, 2, 3]) 3 0).1
      (by decide) (by decide) sampleParsers (memOf [0x31, 0x00]) 0x6000 (memOf [1, 2, 3]) 3 0,
   (certificate_initialize_error_precedence sampleX509Constants sampleParsers usedCertificate 0x1000
        (memOf [0x31, 0x00]) 6 NX_NULL [] 0 0x6000 (memOf [1, 2, 3]) 3 0).2.1
      (by decide) (by decide) 0x6000 (memOf [1, 2, 3]) 3 0,
   by decide,
   (certificate_initialize_error_precedence sampleX509Constants sampleParsers usedCertificate 0x1000
        sampleCertificateBytes 6 NX_NULL [] 0 0x6000 (memOf [1, 2, 3]) 3 0).2.2.1
      (by decide) (by decide) (by decide)⟩

/-- The sample certificate parser leaves the key type field as it is. -/
theorem sampleParsers_keeps_key_type : ParserKeepsKeyType sampleParsers := by
  intro raw_data bytes length cert
  simp only [sampleParsers]
  split <;> rfl

/-- C23: when no private key is supplied (the key pointer is null or the key length is 0),
the key type argument plays no part: for any other key type the whole outcome (status,
certificate, backing buffer, events) is the same; the status is
`NX_SECURE_TLS_INSUFFICIENT_CERT_SPACE`, `NX_SECURE_TLS_INVALID_CERTIFICATE` or `NX_SUCCESS`
(no key type error, whatever the tag); the RSA parser is not called; and the key type field
of the certificate is not stored to: it is zero after a failed capacity check, as the
certificate parser left it otherwise, hence zero when that parser leaves it alone. -/
theorem certificate_initialize_key_type_ignored (k : X509Constants) (p : ExternalParsers)
    (certificate : NX_SECURE_X509_CERT)
    (certificate_data : Nat) (certificate_bytes : Nat → UCHAR) (length : Nat)
    (raw_data_buffer : Nat) (raw_buffer : List UCHAR) (buffer_size : Nat)
    (private_key : Nat) (private_key_bytes : Nat → UCHAR) (priv_len : Nat)
    (private_key_type : Nat)
    (hno : private_key = NX_NULL ∨ priv_len = 0) :
    (∀ private_key_type' : Nat,
      _nx_secure_x509_certificate_initialize k p certificate certificate_data certificate_bytes
        length raw_data_buffer raw_buffer buffer_size private_key private_key_bytes priv_len
        private_key_type'
      = ( _nx_secure_x509_certificate_initialize k p certificate certificate_data certificate_bytes
        length raw_data_buffer raw_buffer buffer_size private_key private_key_bytes priv_len
        private_key_type)) ∧
    (( _nx_secure_x509_certificate_initialize k p certificate certificate_data certificate_bytes
        length raw_data_buffer raw_buffer buffer_size private_key private_key_bytes priv_len
        private_key_type).status = k.NX_SECURE_TLS_INSUFFICIENT_CERT_SPACE ∨
     ( _nx_secure_x509_certificate_initialize k p certificate certificate_data certificate_bytes
        length raw_data_buffer raw_buffer buffer_size private_key private_key_bytes priv_len
        private_key_type).status = k.NX_SECURE_TLS_INVALID_CERTIFICATE ∨
     ( _nx_secure_x509_certificate_initialize k p certificate certificate_data certificate_bytes
        length raw_data_buffer raw_buffer buffer_size private_key private_key_bytes priv_len
        private_key_type).status = NX_SUCCESS) ∧
    (∀ a b, InitEvent.rsa_private_key_parse a b ∉ ( _nx_secure_x509_certificate_initialize k p certificate certificate_data certificate_bytes
        length raw_data_buffer raw_buffer buffer_size private_key private_key_bytes priv_len
        private_key_type).trace) ∧
    (¬ pastCapacityCheck length raw_data_buffer buffer_size →
      ( _nx_secure_x509_certificate_initialize k p certificate certificate_data certificate_bytes
        length raw_data_buffer raw_buffer buffer_size private_key private_key_bytes priv_len
        private_key_type).certificate.nx_secure_x509_private_key_type = 0) ∧
    (pastCapacityCheck length raw_data_buffer buffer_size →
      ( _nx_secure_x509_certificate_initialize k p certificate certificate_data certificate_bytes
        length raw_data_buffer raw_buffer buffer_size private_key private_key_bytes priv_len
        private_key_type).certificate.nx_secure_x509_private_key_type
        = (derResult p certificate_data certificate_bytes length raw_data_buffer buffer_size).2.nx_secure_x509_private_key_type) ∧
    (ParserKeepsKeyType p →
      ( _nx_secure_x509_certificate_initialize k p certificate certificate_data certificate_bytes
        length raw_data_buffer raw_buffer buffer_size private_key private_key_bytes priv_len
        private_key_type).certificate.nx_secure_x509_private_key_type = 0) := by
  have hkey : ¬ keySupplied private_key priv_len := by
    simp only [keySupplied, not_and]
    intro hptr
    rcases hno with h | h
    · exact absurd h hptr
    · omega
  by_cases hpast : pastCapacityCheck length raw_data_buffer buffer_size
  · by_cases hder : (derResult p certificate_data certificate_bytes length raw_data_buffer buffer_size).1 = 0
    · refine ⟨?_, ?_, ?_, fun h => absurd hpast h, ?_, ?_⟩
      · intro private_key_type'
        rw [certificate_initialize_no_key k p certificate certificate_data certificate_bytes
            length raw_data_buffer raw_buffer buffer_size private_key private_key_bytes
            priv_len private_key_type' hpast hder hkey,
          certificate_initialize_no_key k p certificate certificate_data certificate_bytes
            length raw_data_buffer raw_buffer buffer_size private_key private_key_bytes
            priv_len private_key_type hpast hder hkey]
      · rw [certificate_initialize_no_key _ _ _ _ _ _ _ _ _ _ _ _ _ hpast hder hkey]
        exact Or.inr (Or.inr rfl)
      · intro a b
        rw [certificate_initialize_no_key _ _ _ _ _ _ _ _ _ _ _ _ _ hpast hder hkey]
        simp only [establishedTrace]
        split <;> simp
      · intro _
        rw [certificate_initialize_no_key _ _ _ _ _ _ _ _ _ _ _ _ _ hpast hder hkey]
      · intro hkeep
        rw [certificate_initialize_no_key _ _ _ _ _ _ _ _ _ _ _ _ _ hpast hder hkey]
        exact hkeep (rawReference certificate_data raw_data_buffer)
          (bytesAt certificate_bytes length) length
          (establishedCertificate certificate_data length raw_data_buffer buffer_size)
    · refine ⟨?_, ?_, ?_, fun h => absurd hpast h, ?_, ?_⟩
      · intro private_key_type'
        rw [certificate_initialize_der_failure k p certificate certificate_data
            certificate_bytes length raw_data_buffer raw_buffer buffer_size private_key
            private_key_bytes priv_len private_key_type' hpast hder,
          certificate_initialize_der_failure k p certificate certificate_data
            certificate_bytes length raw_data_buffer raw_buffer buffer_size private_key
            private_key_bytes priv_len private_key_type hpast hder]
      · rw [certificate_initialize_der_failure _ _ _ _ _ _ _ _ _ _ _ _ _ hpast hder]
        exact Or.inr (Or.inl rfl)
      · intro a b
        rw [certificate_initialize_der_failure _ _ _ _ _ _ _ _ _ _ _ _ _ hpast hder]
        simp only [establishedTrace]
        split <;> simp
      · intro _
        rw [certificate_initialize_der_failure _ _ _ _ _ _ _ _ _ _ _ _ _ hpast hder]
      · intro hkeep
        rw [certificate_initialize_der_failure _ _ _ _ _ _ _ _ _ _ _ _ _ hpast hder]
        exact hkeep (rawReference certificate_data raw_data_buffer)
          (bytesAt certificate_bytes length) length
          (establishedCertificate certificate_data length raw_data_buffer buffer_size)
  · refine ⟨?_, ?_, ?_, ?_, fun h => absurd h hpast, ?_⟩
    · intro private_key_type'
      rw [certificate_initialize_no_space k p certificate certificate_data
          certificate_bytes length raw_data_buffer raw_buffer buffer_size private_key
          private_key_bytes priv_len private_key_type' hpast,
        certificate_initialize_no_space k p certificate certificate_data
          certificate_bytes length raw_data_buffer raw_buffer buffer_size private_key
          private_key_bytes priv_len private_key_type hpast]
    · rw [certificate_initialize_no_space _ _ _ _ _ _ _ _ _ _ _ _ _ hpast]
      exact Or.inl rfl
    · intro a b
      rw [certificate_initialize_no_space _ _ _ _ _ _ _ _ _ _ _ _ _ hpast]
      simp
    · intro _
      rw [certificate_initialize_no_space _ _ _ _ _ _ _ _ _ _ _ _ _ hpast]
      rfl
    · intro _
      rw [certificate_initialize_no_space _ _ _ _ _ _ _ _ _ _ _ _ _ hpast]
      rfl

/-- Without key (null pointer with length 3, or pointer with length 0) and with a
certificate that parses, the tags 0 (`NX_SECURE_X509_KEY_TYPE_NONE`), 0x77 (unknown) and 1
(RSA) give the same outcome: `NX_SUCCESS`, and the key type field is 0. -/
theorem certificate_initialize_key_type_ignored_witness :
    ( _nx_secure_x509_certificate_initialize sampleX509Constants sampleParsers usedCertificate 0x1000
        sampleCertificateBytes 6 NX_NULL [] 0 0x6000 (memOf [1, 2, 3]) 0 0x77)
      = ( _nx_secure_x509_certificate_initialize sampleX509Constants sampleParsers usedCertificate 0x1000
        sampleCertificateBytes 6 NX_NULL [] 0 0x6000 (memOf [1, 2, 3]) 0 1) ∧
    ( _nx_secure_x509_certificate_initialize sampleX509Constants sampleParsers usedCertificate 0x1000
        sampleCertificateBytes 6 NX_NULL [] 0 NX_NULL (memOf [1, 2, 3]) 3 0).status = NX_SUCCESS ∧
    ( _nx_secure_x509_certificate_initialize sampleX509Constants sampleParsers usedCertificate 0x1000
        sampleCertificateBytes 6 NX_NULL [] 0 0x6000 (memOf [1, 2, 3]) 0 1).certificate.nx_secure_x509_private_key_type = 0 :=
  ⟨(certificate_initialize_key_type_ignored sampleX509Constants sampleParsers usedCertificate 0x1000
        sampleCertificateBytes 6 NX_NULL [] 0 0x6000 (memOf [1, 2, 3]) 0 1
      (by decide)).1 0x77,
   by decide,
   (certificate_initialize_key_type_ignored sampleX509Constants sampleParsers usedCertificate 0x1000
        sampleCertificateBytes 6 NX_NULL [] 0 0x6000 (memOf [1, 2, 3]) 0 1
      (by decide)).2.2.2.2.2 sampleParsers_keeps_key_type⟩

/-! ## Two concurrent calls: auxiliary facts -/

/-- A schedule in which one thread performs nothing is the run of the other thread. -/
theorem schedule_of_other (t : Bool) (s : Schedule) (h : eventsOf t s = []) :
    s = runOf (!t) (eventsOf (!t) s) := by
  induction s with
  | nil => rfl
  | cons x rest ih =>
    obtain ⟨c, e⟩ := x
    by_cases hc : c = t
    · subst hc
      simp [eventsOf] at h
    · have hc' : c = !t := by cases c <;> cases t <;> simp_all
      subst hc'
      have hrest : eventsOf t rest = [] := by
        simpa [eventsOf] using h
      have := ih hrest
      simp only [eventsOf, runOf] at this ⊢
      simp only [List.filter_cons, beq_self_eq_true, if_true, List.map_cons]
      rw [← this]

/-- While a thread holds the lock and the other thread, if it has anything left to do, has
an acquisition as its next event, the schedule goes on with the events of the holder up to
its release, and only then with the events of the other thread. -/
theorem schedule_while_held (t : Bool) :
    ∀ (s : Schedule) (m : List InitEvent),
      InitEvent.tx_mutex_get ∉ m → InitEvent.tx_mutex_put ∉ m →
      eventsOf t s = m ++ [InitEvent.tx_mutex_put] →
      (eventsOf (!t) s = [] ∨ (eventsOf (!t) s).head? = some InitEvent.tx_mutex_get) →
      mutexAdmits (some t) s = true →
      s = runOf t (m ++ [InitEvent.tx_mutex_put]) ++ runOf (!t) (eventsOf (!t) s) := by
  intro s
  induction s with
  | nil =>
    intro m _ _ hev _ _
    simp [eventsOf] at hev
  | cons x rest ih =>
    intro m hget hput hev hother hadm
    obtain ⟨c, e⟩ := x
    by_cases hc : c = t
    · subst hc
      have hev' : e :: eventsOf c rest = m ++ [InitEvent.tx_mutex_put] := by
        simpa [eventsOf] using hev
      have hoth : eventsOf (!c) ((c, e) :: rest) = eventsOf (!c) rest := by
        simp [eventsOf]
      rw [hoth] at hother ⊢
      cases m with
      | nil =>
        simp only [List.nil_append, List.cons.injEq] at hev'
        obtain ⟨he, hrest⟩ := hev'
        subst he
        have := schedule_of_other c rest hrest
        simp only [runOf, List.nil_append, List.map_cons, List.map_nil, List.singleton_append]
        simp only [runOf] at this
        rw [← this]
      | cons e' m' =>
        simp only [List.cons_append, List.cons.injEq] at hev'
        obtain ⟨he, hrest⟩ := hev'
        subst he
        have hg : e ≠ InitEvent.tx_mutex_get := fun h => hget (h ▸ List.mem_cons_self _ _)
        have hp : e ≠ InitEvent.tx_mutex_put := fun h => hput (h ▸ List.mem_cons_self _ _)
        have hadm' : mutexAdmits (some c) rest = true := by
          simpa [mutexAdmits, mutexStep, hg, hp] using hadm
        have := ih m' (fun h => hget (List.mem_cons_of_mem _ h))
          (fun h => hput (List.mem_cons_of_mem _ h)) hrest hother hadm'
        simp only [runOf, List.cons_append, List.map_cons]
        simp only [runOf] at this
        rw [← this]
    · have hc' : c = !t := by cases c <;> cases t <;> simp_all
      subst hc'
      have hhead : eventsOf (!t) ((!t, e) :: rest) = e :: eventsOf (!t) rest := by
        simp [eventsOf]
      rw [hhead] at hother
      rcases hother with h | h
      · simp at h
      · simp only [List.head?_cons, Option.some.injEq] at h
        subst h
        simp [mutexAdmits, mutexStep] at hadm

/-- Every call of the initialiser starts with the acquisition, ends with the release, and
has neither in between. -/
theorem initTrace_bracket (k : X509Constants) (p : ExternalParsers) (a : InitArguments) :
    ∃ m : List InitEvent,
      initTrace k p a = InitEvent.tx_mutex_get :: m ++ [InitEvent.tx_mutex_put] ∧
      InitEvent.tx_mutex_get ∉ m ∧ InitEvent.tx_mutex_put ∉ m := by
  by_cases hpast : pastCapacityCheck a.length a.raw_data_buffer a.buffer_size
  · obtain ⟨tail, htrace, htail, -⟩ := certificate_initialize_shape k p a.certificate
      a.certificate_data a.certificate_bytes a.length a.raw_data_buffer a.raw_buffer
      a.buffer_size a.private_key a.private_key_bytes a.priv_len a.private_key_type hpast
    have hnot : ∀ ev, ev ≠ InitEvent.certificate_store →
        ev ≠ InitEvent.rsa_private_key_parse a.private_key a.priv_len → ev ∉ tail := by
      intro ev h1 h2 hmem
      rcases htail ev hmem with h | h
      · exact h1 h
      · exact h2 h
    have hget := hnot InitEvent.tx_mutex_get (by simp) (by simp)
    have hput := hnot InitEvent.tx_mutex_put (by simp) (by simp)
    refine ⟨[InitEvent.certificate_store, InitEvent.certificate_store,
        InitEvent.certificate_store, InitEvent.certificate_store] ++
      (if a.raw_data_buffer = NX_NULL then [] else [InitEvent.raw_buffer_copy a.length]) ++
      InitEvent.certificate_parse (rawReference a.certificate_data a.raw_data_buffer) a.length
        :: tail, ?_, ?_, ?_⟩
    · rw [initTrace, htrace]
      simp [establishedTrace]
    · split <;> simp [hget]
    · split <;> simp [hput]
  · refine ⟨[InitEvent.certificate_store, InitEvent.certificate_store], ?_, by simp, by simp⟩
    rw [initTrace, certificate_initialize_no_space _ _ _ _ _ _ _ _ _ _ _ _ _ hpast]
    rfl

/-- When the thread that performs the first event of a schedule is `t`, both threads
perform a call of the bracketed form and the schedule respects the lock, the schedule is the
whole run of `t` followed by the whole run of the other thread. -/
theorem schedule_serialized (t : Bool) (e : InitEvent) (rest : Schedule)
    (m m' : List InitEvent)
    (hget : InitEvent.tx_mutex_get ∉ m) (hput : InitEvent.tx_mutex_put ∉ m)
    (hown : eventsOf t ((t, e) :: rest)
      = InitEvent.tx_mutex_get :: m ++ [InitEvent.tx_mutex_put])
    (hother : eventsOf (!t) ((t, e) :: rest)
      = InitEvent.tx_mutex_get :: m' ++ [InitEvent.tx_mutex_put])
    (hadm : mutexAdmits none ((t, e) :: rest) = true) :
    (t, e) :: rest
      = runOf t (InitEvent.tx_mutex_get :: m ++ [InitEvent.tx_mutex_put]) ++
        runOf (!t) (InitEvent.tx_mutex_get :: m' ++ [InitEvent.tx_mutex_put]) := by
  have hown' : e :: eventsOf t rest
      = InitEvent.tx_mutex_get :: m ++ [InitEvent.tx_mutex_put] := by
    simpa [eventsOf] using hown
  simp only [List.cons_append, List.cons.injEq] at hown'
  obtain ⟨he, hrest⟩ := hown'
  subst he
  have hother' : eventsOf (!t) rest
      = InitEvent.tx_mutex_get :: m' ++ [InitEvent.tx_mutex_put] := by
    simpa [eventsOf] using hother
  have hadm' : mutexAdmits (some t) rest = true := by
    simpa [mutexAdmits, mutexStep] using hadm
  have hseq := schedule_while_held t rest m hget hput hrest
    (Or.inr (by rw [hother']; rfl)) hadm'
  rw [hother'] at hseq
  rw [hseq]
  simp [runOf]

/-! ## Two concurrent calls: the claim -/

/-- C20: two calls of the initialiser, on any two sets of arguments (so on independent
certificate objects), run by two threads under the Protection Domain as the spec describes
it.  Every schedule in which the first thread performs the events of the first call, the
second thread those of the second call, and every event respects the lock, is the whole run
of one call followed by the whole run of the other: the reset and every later step of the
call that acquires second happen after the release of the call that acquires first, and no
steps of the two calls interleave. -/
theorem certificate_initialize_serialized (k : X509Constants) (p : ExternalParsers)
    (a b : InitArguments) (s : Schedule)
    (hfirst : eventsOf false s = initTrace k p a)
    (hsecond : eventsOf true s = initTrace k p b)
    (hadm : mutexAdmits none s = true) :
    s = runOf false (initTrace k p a) ++ runOf true (initTrace k p b) ∨
    s = runOf true (initTrace k p b) ++ runOf false (initTrace k p a) := by
  obtain ⟨ma, hta, hga, hpa⟩ := initTrace_bracket k p a
  obtain ⟨mb, htb, hgb, hpb⟩ := initTrace_bracket k p b
  rw [hta] at hfirst ⊢
  rw [htb] at hsecond ⊢
  cases s with
  | nil => simp [eventsOf] at hfirst
  | cons x rest =>
    obtain ⟨c, e⟩ := x
    cases c with
    | false =>
      exact Or.inl (schedule_serialized false e rest ma mb hga hpa hfirst hsecond hadm)
    | true =>
      exact Or.inr (schedule_serialized true e rest mb ma hgb hpb hsecond hfirst hadm)

/-- Two sample calls on different certificate objects.  The schedule that runs the first
call and then the second respects the lock; a schedule in which the second call acquires
the lock and resets its certificate between the acquisition and the release of the first
call does not. -/
theorem certificate_initialize_serialized_witness :
    (runOf false (initTrace sampleX509Constants sampleParsers sampleCallA) ++
        runOf true (initTrace sampleX509Constants sampleParsers sampleCallB)
      = runOf false (initTrace sampleX509Constants sampleParsers sampleCallA) ++
        runOf true (initTrace sampleX509Constants sampleParsers sampleCallB) ∨
     runOf false (initTrace sampleX509Constants sampleParsers sampleCallA) ++
        runOf true (initTrace sampleX509Constants sampleParsers sampleCallB)
      = runOf true (initTrace sampleX509Constants sampleParsers sampleCallB) ++
        runOf false (initTrace sampleX509Constants sampleParsers sampleCallA)) ∧
    initTrace sampleX509Constants sampleParsers sampleCallB
      = [InitEvent.tx_mutex_get, InitEvent.certificate_store, InitEvent.certificate_store,
         InitEvent.tx_mutex_put] ∧
    mutexAdmits none
      ([(false, InitEvent.tx_mutex_get), (false, InitEvent.certificate_store),
        (true, InitEvent.tx_mutex_get), (true, InitEvent.certificate_store)] ++
       runOf false ((initTrace sampleX509Constants sampleParsers sampleCallA).drop 2) ++
       runOf true ((initTrace sampleX509Constants sampleParsers sampleCallB).drop 2))
      = false :=
  ⟨certificate_initialize_serialized sampleX509Constants sampleParsers sampleCallA sampleCallB
      (runOf false (initTrace sampleX509Constants sampleParsers sampleCallA) ++
        runOf true (initTrace sampleX509Constants sampleParsers sampleCallB))
      (by decide) (by decide) (by decide),
   by decide, by decide⟩

end NetXSecure
